import Mathlib

/-!
Render pipeline sequencer of the physically based raytracer.

A shallow embedding of the resolution negotiation, the render-texture table, the
history swap at the end of a frame, the post-processing of a frame, the Camera
node of the settings window and the scene loading of `src/Source/App.cpp`
(`struct App::Impl`, namespace `App`), of the acceleration structures and the
progressive accumulation of `src/Physically Based Raytracer/App.cpp` (namespace
`PhysicallyBasedRaytracer`) and of the search of the input queue of
`src/Source/ImGuiEx.h` (namespace `ImGuiEx`), followed by theorems about them.

Conventions of the embedding:

* `LONG` values are `Int`, `uint32_t` values are `Nat`; the conversion
  `XMUINT2(outputSize.cx, outputSize.cy)` is `toUINT` (reduction modulo `2^32`).
* Objects created by `make_shared` / `make_unique` carry a fresh identity taken
  from the counter `Impl.nextId`; calls into external libraries are appended to
  `Impl.log`.
* The external upscaler libraries are parameters (`Services`).
* The statement `throw;` of the mode switches is the result `none`. An `out_of_range`
  thrown by `std::map::at` in the history swap is `Except.error t`, where `t` is the
  table the block leaves behind.
* Floating-point values are not computed: the argument of `HaltonSamplePattern`
  is kept as the operands of the expression that the source evaluates.
-/

namespace App

/-! ## Data model -/

/-- Win32 `SIZE`: two signed 32-bit `LONG` fields. -/
structure SIZE where
  cx : Int
  cy : Int
deriving DecidableEq, Repr

/-- DirectXMath `XMUINT2`: two `uint32_t` fields. -/
structure XMUINT2 where
  x : Nat
  y : Nat
deriving DecidableEq, Repr

/-- Conversion of a `LONG` to `uint32_t`, as done by `XMUINT2(outputSize.cx, outputSize.cy)`. -/
def toUINT (v : Int) : Nat := (v % 4294967296).toNat

/-- Conversion `static_cast<uint16_t>` of a `LONG`. -/
def toUINT16 (v : Int) : Nat := (v % 65536).toNat

/-- Values of `g_graphicsSettings.PostProcessing.SuperResolution.Upscaler`. -/
inductive Upscaler where
  | None
  | DLSS
  | FSR
deriving DecidableEq, Repr

/-- Values of `g_graphicsSettings.PostProcessing.SuperResolution.Mode`. -/
inductive SuperResolutionMode where
  | Auto
  | Native
  | Quality
  | Balanced
  | Performance
  | UltraPerformance
deriving DecidableEq, Repr

/-- Streamline `sl::DLSSMode` values assigned by `SetSuperResolutionOptions`. -/
inductive DLSSMode where
  | eDLAA
  | eMaxQuality
  | eBalanced
  | eMaxPerformance
  | eUltraPerformance
deriving DecidableEq, Repr

/-- FidelityFX `FfxFsr2QualityMode` values assigned by `SetSuperResolutionOptions`. -/
inductive FfxFsr2QualityMode where
  | FFX_FSR2_QUALITY_MODE_QUALITY
  | FFX_FSR2_QUALITY_MODE_BALANCED
  | FFX_FSR2_QUALITY_MODE_PERFORMANCE
  | FFX_FSR2_QUALITY_MODE_ULTRA_PERFORMANCE
deriving DecidableEq, Repr

/-- NRD `AccumulationMode`. -/
inductive AccumulationMode where
  | CONTINUE
  | RESTART
  | CLEAR_AND_RESTART
deriving DecidableEq, Repr

/-- The `DXGI_FORMAT` values that occur in `CreateWindowSizeDependentResources`; the
last four are further candidates for the format of the normal encoding, which
`NRD::ToDXGIFormat` decides outside this file. -/
inductive DXGI_FORMAT where
  | R16G16B16A16_FLOAT
  | R32_FLOAT
  | R8G8B8A8_UNORM
  | R11G11B10_FLOAT
  | R16G16_SNORM
  | R8G8B8A8_SNORM
  | R10G10B10A2_UNORM
  | R16G16B16A16_UNORM
  | R16G16B16A16_SNORM
deriving DecidableEq, Repr

/-- The keys of `m_renderTextures` (`struct RenderTextureNames`). -/
inductive RenderTextureNames where
  | Color
  | FinalColor
  | PreviousLinearDepth
  | LinearDepth
  | NormalizedDepth
  | MotionVectors
  | PreviousBaseColorMetalness
  | BaseColorMetalness
  | EmissiveColor
  | PreviousNormalRoughness
  | NormalRoughness
  | PreviousGeometricNormals
  | GeometricNormals
  | NoisyDiffuse
  | NoisySpecular
  | DenoisedDiffuse
  | DenoisedSpecular
  | Validation
deriving DecidableEq, Repr

/-- The enumerators of `struct ResourceDescriptorIndex` used for render textures. -/
inductive ResourceDescriptorIndex where
  | InColor | OutColor
  | InFinalColor | OutFinalColor
  | InPreviousLinearDepth | OutPreviousLinearDepth
  | InLinearDepth | OutLinearDepth
  | InNormalizedDepth | OutNormalizedDepth
  | InMotionVectors | OutMotionVectors
  | InPreviousBaseColorMetalness | OutPreviousBaseColorMetalness
  | InBaseColorMetalness | OutBaseColorMetalness
  | InEmissiveColor | OutEmissiveColor
  | InPreviousNormalRoughness | OutPreviousNormalRoughness
  | InNormalRoughness | OutNormalRoughness
  | InPreviousGeometricNormals | OutPreviousGeometricNormals
  | InGeometricNormals | OutGeometricNormals
  | OutNoisyDiffuse | OutNoisySpecular
  | InDenoisedDiffuse | OutDenoisedDiffuse
  | InDenoisedSpecular | OutDenoisedSpecular
  | InValidation | OutValidation
  | InNeighborOffsets
  | InFont
  | Reserve
deriving DecidableEq, Repr

/-- The enumerators of `struct RenderDescriptorIndex`. -/
inductive RenderDescriptorIndex where
  | Color
  | FinalColor
deriving DecidableEq, Repr

/-- A `Texture` object as created by the `CreateTexture` lambda: `id` is the identity
of the object returned by `make_shared<Texture>`, the rest are the constructor
arguments and the descriptors created for it (`none` for `~0u`). -/
structure Texture where
  id : Nat
  name : RenderTextureNames
  format : DXGI_FORMAT
  size : XMUINT2
  SRVDescriptorIndex : Option ResourceDescriptorIndex
  UAVDescriptorIndex : Option ResourceDescriptorIndex
  RTVDescriptorIndex : Option RenderDescriptorIndex
deriving DecidableEq, Repr

/-- The table `map<wstring, shared_ptr<Texture>> m_renderTextures`, restricted to the
keys the program uses; `none` means the key is absent. -/
abbrev RenderTextures := RenderTextureNames → Option Texture

/-- Streamline `DLSSOptions` as filled in by `SetSuperResolutionOptions`. -/
structure DLSSOptions where
  mode : DLSSMode
  outputWidth : Nat
  outputHeight : Nat
deriving DecidableEq, Repr

/-- The fields of `FSRSettings` that the negotiation reads or writes. -/
structure FSRSettings where
  RenderSize : XMUINT2
  Reset : Bool
deriving DecidableEq, Repr

/-- The operands of
`8 * (float(outputSize.cx) / float(m_renderSize.x)) * (float(outputSize.cy) / float(m_renderSize.y))`,
the expression whose value `OnRenderSizeChanged` passes to `HaltonSamplePattern`. -/
structure SampleCountExpr where
  numeratorX : Int
  denominatorX : Nat
  numeratorY : Int
  denominatorY : Nat
deriving DecidableEq, Repr

/-- Whether one of the two divisions of the expression has a zero denominator. -/
def SampleCountExpr.dividesByZero (e : SampleCountExpr) : Bool :=
  e.denominatorX == 0 || e.denominatorY == 0

/-- The `RTXDIResources` members recreated by `OnRenderSizeChanged`. -/
structure RTXDIResources where
  /-- The parameters `RenderWidth`, `RenderHeight` of the current `ReSTIRDIContext`. -/
  ReSTIRDIContext : Option XMUINT2
  /-- Identity of the neighbor-offsets buffer. -/
  NeighborOffsets : Option Nat
  /-- Identity of the DI reservoir buffer. -/
  DIReservoir : Option Nat
deriving DecidableEq, Repr

/-- Values of `g_graphicsSettings.PostProcessing.NRD.Denoiser`. -/
inductive NRDDenoiser where
  | None
  | ReBLUR
  | ReLAX
deriving DecidableEq, Repr

/-- Streamline `sl::ReflexMode`, the type of `g_graphicsSettings.ReflexMode`. -/
inductive ReflexMode where
  | eOff
  | eLowLatency
  | eLowLatencyWithBoost
deriving DecidableEq, Repr

/-- Calls into external libraries and object creations, in program order. The
constructors from `StreamlineSetConstants` on are the calls made while a frame is
post-processed; their arguments are the textures and settings handed over. -/
inductive Effect where
  | CreateTexture (name : RenderTextureNames) (format : DXGI_FORMAT) (size : XMUINT2)
  | CreateNRD (width height : Nat)
  | CreateFSR (width height : Nat)
  | SetConstantsDLSS (options : DLSSOptions)
  | CreateReSTIRDIContext (RenderWidth RenderHeight : Nat)
  | CreateNeighborOffsets
  | CreateDIReservoir
  | StreamlineSetConstants (reset : Bool)
  | NRDTag (resources : List Texture)
  | NRDSetConstants (accumulationMode : AccumulationMode)
  | NRDDenoise (denoiser : NRDDenoiser)
  | DenoisedCompositionProcess (InLinearDepth InBaseColorMetalness InEmissiveColor
      InNormalRoughness InDenoisedDiffuse InDenoisedSpecular OutColor : Texture)
  | DLSSEvaluate (Depth MotionVectors ScalingInputColor ScalingOutputColor : Texture)
      (Extent : XMUINT2)
  | FSRSetConstants (settings : FSRSettings)
  | FSRDispatch (Depth MotionVectors Color Output : Texture)
  | NISEvaluate (inColor outColor : Texture)
  | ChromaticAberrationProcess (Input Output : Texture)
  | BloomProcess (inColor outColor : Texture)
  | DLSSGTag (Depth MotionVectors HUDLessColor : Texture) (Extent : XMUINT2)
  | ToneMappingProcess (inColor : Texture)
  | AlphaBlendingDraw (inColor : Texture)
deriving DecidableEq, Repr

/-- The external collaborators consulted by the negotiation. -/
structure Services where
  /-- The query `slDLSSGetOptimalSettings(options, optimalSettings)`: the pair
  `(optimalRenderWidth, optimalRenderHeight)` found in `optimalSettings` afterwards. -/
  slDLSSGetOptimalSettings : DLSSOptions → Nat × Nat
  /-- The query `ffxFsr2GetRenderResolutionFromQualityMode(&w, &h, displayWidth, displayHeight, mode)`:
  the values written to `w` and `h`, or `none` when it writes nothing (its error
  code is ignored by the caller). -/
  ffxFsr2GetRenderResolutionFromQualityMode : Nat → Nat → FfxFsr2QualityMode → Option (Nat × Nat)
  /-- The result of `m_streamline->IsFeatureAvailable(kFeatureDLSS)`. -/
  IsDLSSAvailable : Bool
  /-- The result of `m_FSR->IsAvailable()`. -/
  IsFSRAvailable : Bool
  /-- The result of `m_NRD->IsAvailable()`. -/
  IsNRDAvailable : Bool
  /-- The value of `NRD::ToDXGIFormat(GetLibraryDesc().normalEncoding)`. -/
  normalFormat : DXGI_FORMAT

/-- The members of `App::Impl` (and the global settings) that the negotiation, the
resource creation and the history swap read or write. -/
structure Impl where
  /-- The value of `m_deviceResources->GetOutputSize()`. -/
  outputSize : SIZE
  /-- The setting `g_graphicsSettings.PostProcessing.SuperResolution.Upscaler`. -/
  Upscaler : Upscaler
  /-- The setting `g_graphicsSettings.PostProcessing.SuperResolution.Mode`. -/
  Mode : SuperResolutionMode
  m_renderSize : XMUINT2
  /-- The expression from which `m_haltonSamplePattern` was last constructed. -/
  m_haltonSamplePattern : Option SampleCountExpr
  /-- The field `m_slConstants.reset`. -/
  m_slConstants_reset : Bool
  /-- The field `m_NRDCommonSettings.accumulationMode`. -/
  m_NRDCommonSettings_accumulationMode : AccumulationMode
  m_FSRSettings : FSRSettings
  m_renderTextures : RenderTextures
  m_RTXDIResources : RTXDIResources
  m_RTXDIResourcesLock : Bool
  /-- Identity given to the next created object. -/
  nextId : Nat
  /-- External calls made so far. -/
  log : List Effect

/-! ## Resolution negotiation -/

/-- The lambda `SelectSuperResolutionMode` of `SetSuperResolutionOptions`. -/
def SelectSuperResolutionMode (Mode : SuperResolutionMode) (outputSize : SIZE) : SuperResolutionMode :=
  if Mode ≠ SuperResolutionMode.Auto then Mode
  else
    let minValue := min outputSize.cx outputSize.cy
    if minValue ≤ 720 then SuperResolutionMode.Native
    else if minValue ≤ 1440 then SuperResolutionMode.Quality
    else if minValue ≤ 2160 then SuperResolutionMode.Performance
    else SuperResolutionMode.UltraPerformance

/-- The mode switch of the `Upscaler::DLSS` case; `none` is `default: throw`. -/
def toDLSSMode : SuperResolutionMode → Option DLSSMode
  | SuperResolutionMode.Native => some DLSSMode.eDLAA
  | SuperResolutionMode.Quality => some DLSSMode.eMaxQuality
  | SuperResolutionMode.Balanced => some DLSSMode.eBalanced
  | SuperResolutionMode.Performance => some DLSSMode.eMaxPerformance
  | SuperResolutionMode.UltraPerformance => some DLSSMode.eUltraPerformance
  | SuperResolutionMode.Auto => none

/-- The mode switch of the `Upscaler::FSR` case: `none` is `default: throw`,
`some none` is `isNative = true`, `some (some m)` is `mode = m`. -/
def toFSRMode : SuperResolutionMode → Option (Option FfxFsr2QualityMode)
  | SuperResolutionMode.Native => some none
  | SuperResolutionMode.Quality => some (some FfxFsr2QualityMode.FFX_FSR2_QUALITY_MODE_QUALITY)
  | SuperResolutionMode.Balanced => some (some FfxFsr2QualityMode.FFX_FSR2_QUALITY_MODE_BALANCED)
  | SuperResolutionMode.Performance => some (some FfxFsr2QualityMode.FFX_FSR2_QUALITY_MODE_PERFORMANCE)
  | SuperResolutionMode.UltraPerformance =>
      some (some FfxFsr2QualityMode.FFX_FSR2_QUALITY_MODE_ULTRA_PERFORMANCE)
  | SuperResolutionMode.Auto => none

/-- The method `App::Impl::ResetTemporalAccumulation`. -/
def Impl.ResetTemporalAccumulation (s : Impl) : Impl :=
  { s with
    m_slConstants_reset := true
    m_NRDCommonSettings_accumulationMode := AccumulationMode.CLEAR_AND_RESTART
    m_FSRSettings := { s.m_FSRSettings with Reset := true } }

/-- The method `App::Impl::OnRenderSizeChanged`. -/
def Impl.OnRenderSizeChanged (s : Impl) : Impl :=
  let s1 : Impl := { s with
    m_haltonSamplePattern := some
      { numeratorX := s.outputSize.cx, denominatorX := s.m_renderSize.x,
        numeratorY := s.outputSize.cy, denominatorY := s.m_renderSize.y } }
  let s2 := s1.ResetTemporalAccumulation
  let s3 : Impl := { s2 with m_RTXDIResourcesLock := true }
  let s4 : Impl := { s3 with
    m_RTXDIResources :=
      { ReSTIRDIContext := some s3.m_renderSize
        NeighborOffsets := some s3.nextId
        DIReservoir := some (s3.nextId + 1) }
    nextId := s3.nextId + 2
    log := s3.log ++
      [Effect.CreateReSTIRDIContext s3.m_renderSize.x s3.m_renderSize.y,
       Effect.CreateNeighborOffsets, Effect.CreateDIReservoir] }
  { s4 with m_RTXDIResourcesLock := false }

/-- The assignment `m_renderSize = XMUINT2(outputSize.cx, outputSize.cy)`. -/
def Impl.setRenderSizeToOutputSize (s : Impl) : Impl :=
  { s with m_renderSize := { x := toUINT s.outputSize.cx, y := toUINT s.outputSize.cy } }

/-- The method `App::Impl::SetSuperResolutionOptions`; `none` when it throws. -/
def Impl.SetSuperResolutionOptions (svc : Services) (s : Impl) : Option Impl :=
  let outputSize := s.outputSize
  match s.Upscaler with
  | Upscaler.None => some s.setRenderSizeToOutputSize.OnRenderSizeChanged
  | Upscaler.DLSS =>
    match toDLSSMode (SelectSuperResolutionMode s.Mode outputSize) with
    | none => none
    | some mode =>
      let options : DLSSOptions :=
        { mode := mode, outputWidth := toUINT outputSize.cx, outputHeight := toUINT outputSize.cy }
      let optimalSettings := svc.slDLSSGetOptimalSettings options
      let s1 : Impl := { s with
        log := s.log ++ [Effect.SetConstantsDLSS options]
        m_renderSize := { x := optimalSettings.1, y := optimalSettings.2 } }
      some s1.OnRenderSizeChanged
  | Upscaler.FSR =>
    match toFSRMode (SelectSuperResolutionMode s.Mode outputSize) with
    | none => none
    | some none => some s.setRenderSizeToOutputSize.OnRenderSizeChanged
    | some (some mode) =>
      let RenderSize : XMUINT2 :=
        match svc.ffxFsr2GetRenderResolutionFromQualityMode
            (toUINT outputSize.cx) (toUINT outputSize.cy) mode with
        | some (width, height) => { x := width, y := height }
        | none => s.m_FSRSettings.RenderSize
      let s1 : Impl := { s with
        m_FSRSettings := { s.m_FSRSettings with RenderSize := RenderSize }
        m_renderSize := RenderSize }
      some s1.OnRenderSizeChanged

/-- The method `App::Impl::SelectSuperResolutionUpscaler`. -/
def Impl.SelectSuperResolutionUpscaler (svc : Services) (s : Impl) : Impl :=
  match s.Upscaler with
  | Upscaler.DLSS =>
    if !svc.IsDLSSAvailable then
      { s with Upscaler := if svc.IsFSRAvailable then Upscaler.FSR else Upscaler.None }
    else s
  | Upscaler.FSR =>
    if !svc.IsFSRAvailable then
      { s with Upscaler := if svc.IsDLSSAvailable then Upscaler.DLSS else Upscaler.None }
    else s
  | Upscaler.None => s

/-! ## Render textures -/

/-- The lambda `CreateTexture` of `CreateWindowSizeDependentResources`. -/
def Impl.CreateTexture (s : Impl) (name : RenderTextureNames) (format : DXGI_FORMAT)
    (SRVDescriptorIndex : Option ResourceDescriptorIndex)
    (UAVDescriptorIndex : Option ResourceDescriptorIndex)
    (RTVDescriptorIndex : Option RenderDescriptorIndex) : Impl :=
  let size : XMUINT2 := { x := toUINT s.outputSize.cx, y := toUINT s.outputSize.cy }
  let texture : Texture :=
    { id := s.nextId, name := name, format := format, size := size,
      SRVDescriptorIndex := SRVDescriptorIndex, UAVDescriptorIndex := UAVDescriptorIndex,
      RTVDescriptorIndex := RTVDescriptorIndex }
  { s with
    m_renderTextures := Function.update s.m_renderTextures name (some texture)
    nextId := s.nextId + 1
    log := s.log ++ [Effect.CreateTexture name format size] }

/-- The texture creations of `CreateWindowSizeDependentResources` that precede the
creation of `m_NRD`. -/
def Impl.CreateGBufferTextures (svc : Services) (s : Impl) : Impl :=
  let s := s.CreateTexture RenderTextureNames.Color DXGI_FORMAT.R16G16B16A16_FLOAT
    (some ResourceDescriptorIndex.InColor) (some ResourceDescriptorIndex.OutColor)
    (some RenderDescriptorIndex.Color)
  let s := s.CreateTexture RenderTextureNames.FinalColor DXGI_FORMAT.R16G16B16A16_FLOAT
    (some ResourceDescriptorIndex.InFinalColor) (some ResourceDescriptorIndex.OutFinalColor)
    (some RenderDescriptorIndex.FinalColor)
  let s := s.CreateTexture RenderTextureNames.PreviousLinearDepth DXGI_FORMAT.R32_FLOAT
    (some ResourceDescriptorIndex.InPreviousLinearDepth)
    (some ResourceDescriptorIndex.OutPreviousLinearDepth) none
  let s := s.CreateTexture RenderTextureNames.LinearDepth DXGI_FORMAT.R32_FLOAT
    (some ResourceDescriptorIndex.InLinearDepth) (some ResourceDescriptorIndex.OutLinearDepth) none
  let s := s.CreateTexture RenderTextureNames.NormalizedDepth DXGI_FORMAT.R32_FLOAT
    (some ResourceDescriptorIndex.InNormalizedDepth)
    (some ResourceDescriptorIndex.OutNormalizedDepth) none
  let s := s.CreateTexture RenderTextureNames.MotionVectors DXGI_FORMAT.R16G16B16A16_FLOAT
    (some ResourceDescriptorIndex.InMotionVectors) (some ResourceDescriptorIndex.OutMotionVectors) none
  let s := s.CreateTexture RenderTextureNames.PreviousBaseColorMetalness
    DXGI_FORMAT.R16G16B16A16_FLOAT
    (some ResourceDescriptorIndex.InPreviousBaseColorMetalness)
    (some ResourceDescriptorIndex.OutPreviousBaseColorMetalness) none
  let s := s.CreateTexture RenderTextureNames.BaseColorMetalness DXGI_FORMAT.R8G8B8A8_UNORM
    (some ResourceDescriptorIndex.InBaseColorMetalness)
    (some ResourceDescriptorIndex.OutBaseColorMetalness) none
  let s := s.CreateTexture RenderTextureNames.EmissiveColor DXGI_FORMAT.R11G11B10_FLOAT
    (some ResourceDescriptorIndex.InEmissiveColor) (some ResourceDescriptorIndex.OutEmissiveColor) none
  let normalFormat := svc.normalFormat
  let s := s.CreateTexture RenderTextureNames.PreviousNormalRoughness normalFormat
    (some ResourceDescriptorIndex.InPreviousNormalRoughness)
    (some ResourceDescriptorIndex.OutPreviousNormalRoughness) none
  let s := s.CreateTexture RenderTextureNames.NormalRoughness normalFormat
    (some ResourceDescriptorIndex.InNormalRoughness)
    (some ResourceDescriptorIndex.OutNormalRoughness) none
  let s := s.CreateTexture RenderTextureNames.PreviousGeometricNormals DXGI_FORMAT.R16G16_SNORM
    (some ResourceDescriptorIndex.InPreviousGeometricNormals)
    (some ResourceDescriptorIndex.OutPreviousGeometricNormals) none
  s.CreateTexture RenderTextureNames.GeometricNormals DXGI_FORMAT.R16G16_SNORM
    (some ResourceDescriptorIndex.InGeometricNormals)
    (some ResourceDescriptorIndex.OutGeometricNormals) none

/-- The texture creations of `CreateWindowSizeDependentResources` guarded by
`m_NRD->IsAvailable()`. -/
def Impl.CreateNRDTextures (s : Impl) : Impl :=
  let s := s.CreateTexture RenderTextureNames.NoisyDiffuse DXGI_FORMAT.R16G16B16A16_FLOAT
    none (some ResourceDescriptorIndex.OutNoisyDiffuse) none
  let s := s.CreateTexture RenderTextureNames.NoisySpecular DXGI_FORMAT.R16G16B16A16_FLOAT
    none (some ResourceDescriptorIndex.OutNoisySpecular) none
  let s := s.CreateTexture RenderTextureNames.DenoisedDiffuse DXGI_FORMAT.R16G16B16A16_FLOAT
    (some ResourceDescriptorIndex.InDenoisedDiffuse)
    (some ResourceDescriptorIndex.OutDenoisedDiffuse) none
  let s := s.CreateTexture RenderTextureNames.DenoisedSpecular DXGI_FORMAT.R16G16B16A16_FLOAT
    (some ResourceDescriptorIndex.InDenoisedSpecular)
    (some ResourceDescriptorIndex.OutDenoisedSpecular) none
  s.CreateTexture RenderTextureNames.Validation DXGI_FORMAT.R8G8B8A8_UNORM
    (some ResourceDescriptorIndex.InValidation) (some ResourceDescriptorIndex.OutValidation) none

/-- The first block of the method `App::Impl::CreateWindowSizeDependentResources`:
texture creation, creation of `m_NRD` and `m_FSR`, upscaler selection and
negotiation. The camera lens and the UI font set up after it are not modelled.
The result is `none` when `SetSuperResolutionOptions` throws. -/
def Impl.CreateWindowSizeDependentResources (svc : Services) (s : Impl) : Option Impl :=
  let outputSize := s.outputSize
  let s := s.CreateGBufferTextures svc
  let s : Impl := { s with
    log := s.log ++ [Effect.CreateNRD (toUINT16 outputSize.cx) (toUINT16 outputSize.cy)] }
  let s := if svc.IsNRDAvailable then s.CreateNRDTextures else s
  let s : Impl := { s with
    log := s.log ++ [Effect.CreateFSR (toUINT outputSize.cx) (toUINT outputSize.cy)] }
  let s := s.SelectSuperResolutionUpscaler svc
  s.SetSuperResolutionOptions svc

/-! ## End-of-frame history swap -/

/-- One statement `swap(m_renderTextures.at(a), m_renderTextures.at(b))`. When a key is
missing `at` throws `out_of_range` before anything is exchanged: the outcome is
`error t`, with `t` the table as the statement found it. -/
def swapAt (t : RenderTextures) (a b : RenderTextureNames) : Except RenderTextures RenderTextures :=
  match t a, t b with
  | some ta, some tb =>
    Except.ok (Function.update (Function.update t a (some tb)) b (some ta))
  | _, _ => Except.error t

/-- The last block of the method `App::Impl::Render`: the four history swaps. The
outcome is `ok t1` when the block runs to its end leaving the table `t1`, and
`error t1` when a statement throws, leaving the table `t1` behind. -/
def Render_historySwap (t : RenderTextures) : Except RenderTextures RenderTextures := do
  let t ← swapAt t RenderTextureNames.PreviousLinearDepth RenderTextureNames.LinearDepth
  let t ← swapAt t RenderTextureNames.PreviousBaseColorMetalness RenderTextureNames.BaseColorMetalness
  let t ← swapAt t RenderTextureNames.PreviousNormalRoughness RenderTextureNames.NormalRoughness
  swapAt t RenderTextureNames.PreviousGeometricNormals RenderTextureNames.GeometricNormals

/-- The table found in `m_renderTextures` after a block, whether it ended or threw. -/
def tableAfter : Except RenderTextures RenderTextures → RenderTextures
  | Except.ok t => t
  | Except.error t => t

/-! ## Post-processing of a frame -/

/-- The settings of `g_graphicsSettings` read while a frame is post-processed, apart
from the upscaler and its mode, which are kept in `Impl`. -/
structure GraphicsSettings where
  /-- The setting `g_graphicsSettings.ReflexMode`. -/
  ReflexMode : ReflexMode
  /-- The setting `PostProcessing.NRD.Denoiser`. -/
  NRD_Denoiser : NRDDenoiser
  /-- The setting `PostProcessing.NRD.IsValidationOverlayEnabled`. -/
  NRD_IsValidationOverlayEnabled : Bool
  /-- The setting `PostProcessing.NIS.IsEnabled`. -/
  NIS_IsEnabled : Bool
  /-- The setting `PostProcessing.IsChromaticAberrationEnabled`. -/
  IsChromaticAberrationEnabled : Bool
  /-- The setting `PostProcessing.Bloom.IsEnabled`. -/
  Bloom_IsEnabled : Bool
  /-- The setting `PostProcessing.IsDLSSFrameGenerationEnabled`. -/
  IsDLSSFrameGenerationEnabled : Bool
deriving DecidableEq, Repr

/-- The answers of `m_streamline->IsFeatureAvailable` for the features other than
`kFeatureDLSS` (which is `Services.IsDLSSAvailable`). -/
structure StreamlineFeatures where
  kFeatureDLSS_G : Bool
  kFeatureNIS : Bool
  kFeatureReflex : Bool
deriving DecidableEq, Repr

/-- The method `App::Impl::IsReflexEnabled`. -/
def IsReflexEnabled (features : StreamlineFeatures) (g : GraphicsSettings) : Bool :=
  g.ReflexMode != ReflexMode.eOff && features.kFeatureReflex

/-- The method `App::Impl::IsDLSSFrameGenerationEnabled`. -/
def IsDLSSFrameGenerationEnabled (features : StreamlineFeatures) (g : GraphicsSettings) : Bool :=
  g.IsDLSSFrameGenerationEnabled && features.kFeatureDLSS_G && IsReflexEnabled features g

/-- The method `App::Impl::IsDLSSSuperResolutionEnabled`. -/
def Impl.IsDLSSSuperResolutionEnabled (svc : Services) (s : Impl) : Bool :=
  s.Upscaler == Upscaler.DLSS && svc.IsDLSSAvailable

/-- The method `App::Impl::IsFSRSuperResolutionEnabled`. -/
def Impl.IsFSRSuperResolutionEnabled (svc : Services) (s : Impl) : Bool :=
  s.Upscaler == Upscaler.FSR && svc.IsFSRAvailable

/-- The method `App::Impl::IsNISEnabled`. -/
def IsNISEnabled (features : StreamlineFeatures) (g : GraphicsSettings) : Bool :=
  g.NIS_IsEnabled && features.kFeatureNIS

/-- The method `App::Impl::IsNRDEnabled`. -/
def IsNRDEnabled (svc : Services) (g : GraphicsSettings) : Bool :=
  g.NRD_Denoiser != NRDDenoiser.None && svc.IsNRDAvailable

/-- The method `App::Impl::PrepareStreamline`: the constants, with the current `reset`,
are handed to Streamline and `reset` is cleared. The camera fields of the
constants are not modelled. -/
def Impl.PrepareStreamline (s : Impl) : Impl :=
  { s with
    log := s.log ++ [Effect.StreamlineSetConstants s.m_slConstants_reset]
    m_slConstants_reset := false }

/-- The method `App::Impl::ProcessNRD`; `none` when `m_renderTextures.at` throws. The
camera matrices and sizes written into the common settings and the settings of the
single denoisers are not modelled. -/
def Impl.ProcessNRD (g : GraphicsSettings) (s : Impl) : Option Impl := do
  let linearDepth ← s.m_renderTextures RenderTextureNames.LinearDepth
  let baseColorMetalness ← s.m_renderTextures RenderTextureNames.BaseColorMetalness
  let normalRoughness ← s.m_renderTextures RenderTextureNames.NormalRoughness
  let denoisedDiffuse ← s.m_renderTextures RenderTextureNames.DenoisedDiffuse
  let denoisedSpecular ← s.m_renderTextures RenderTextureNames.DenoisedSpecular
  let motionVectors ← s.m_renderTextures RenderTextureNames.MotionVectors
  let noisyDiffuse ← s.m_renderTextures RenderTextureNames.NoisyDiffuse
  let noisySpecular ← s.m_renderTextures RenderTextureNames.NoisySpecular
  let validation ← s.m_renderTextures RenderTextureNames.Validation
  let s1 : Impl := { s with
    log := s.log ++
      [Effect.NRDTag [linearDepth, motionVectors, baseColorMetalness, normalRoughness,
         noisyDiffuse, noisySpecular, denoisedDiffuse, denoisedSpecular, validation],
       Effect.NRDSetConstants s.m_NRDCommonSettings_accumulationMode,
       Effect.NRDDenoise g.NRD_Denoiser]
    m_NRDCommonSettings_accumulationMode := AccumulationMode.CONTINUE }
  let emissiveColor ← s1.m_renderTextures RenderTextureNames.EmissiveColor
  let color ← s1.m_renderTextures RenderTextureNames.Color
  some { s1 with
    log := s1.log ++
      [Effect.DenoisedCompositionProcess linearDepth baseColorMetalness emissiveColor
         normalRoughness denoisedDiffuse denoisedSpecular color] }

/-- The method `App::Impl::ProcessDLSSSuperResolution`; `none` when
`m_renderTextures.at` throws. -/
def Impl.ProcessDLSSSuperResolution (s : Impl) : Option Impl := do
  let depth ← s.m_renderTextures RenderTextureNames.NormalizedDepth
  let motionVectors ← s.m_renderTextures RenderTextureNames.MotionVectors
  let color ← s.m_renderTextures RenderTextureNames.Color
  let finalColor ← s.m_renderTextures RenderTextureNames.FinalColor
  some { s with
    log := s.log ++ [Effect.DLSSEvaluate depth motionVectors color finalColor s.m_renderSize] }

/-- The method `App::Impl::ProcessDLSSFrameGeneration`; `none` when
`m_renderTextures.at` throws. -/
def Impl.ProcessDLSSFrameGeneration (inColor : Texture) (s : Impl) : Option Impl := do
  let depth ← s.m_renderTextures RenderTextureNames.NormalizedDepth
  let motionVectors ← s.m_renderTextures RenderTextureNames.MotionVectors
  some { s with log := s.log ++ [Effect.DLSSGTag depth motionVectors inColor s.m_renderSize] }

/-- The method `App::Impl::ProcessFSRSuperResolution`; `none` when
`m_renderTextures.at` throws. The camera fields and the elapsed time of the settings
are not modelled. -/
def Impl.ProcessFSRSuperResolution (s : Impl) : Option Impl := do
  let settings : FSRSettings := { s.m_FSRSettings with RenderSize := s.m_renderSize }
  let s1 : Impl := { s with
    log := s.log ++ [Effect.FSRSetConstants settings]
    m_FSRSettings := { settings with Reset := false } }
  let depth ← s1.m_renderTextures RenderTextureNames.NormalizedDepth
  let motionVectors ← s1.m_renderTextures RenderTextureNames.MotionVectors
  let color ← s1.m_renderTextures RenderTextureNames.Color
  let output ← s1.m_renderTextures RenderTextureNames.FinalColor
  some { s1 with log := s1.log ++ [Effect.FSRDispatch depth motionVectors color output] }

/-- The method `App::Impl::ProcessNIS`. -/
def Impl.ProcessNIS (inColor outColor : Texture) (s : Impl) : Impl :=
  { s with log := s.log ++ [Effect.NISEvaluate inColor outColor] }

/-- The method `App::Impl::ProcessChromaticAberration`. -/
def Impl.ProcessChromaticAberration (inColor outColor : Texture) (s : Impl) : Impl :=
  { s with log := s.log ++ [Effect.ChromaticAberrationProcess inColor outColor] }

/-- The method `App::Impl::ProcessBloom`. -/
def Impl.ProcessBloom (inColor outColor : Texture) (s : Impl) : Impl :=
  { s with log := s.log ++ [Effect.BloomProcess inColor outColor] }

/-- The method `App::Impl::ProcessToneMapping`. -/
def Impl.ProcessToneMapping (inColor : Texture) (s : Impl) : Impl :=
  { s with log := s.log ++ [Effect.ToneMappingProcess inColor] }

/-- The method `App::Impl::ProcessAlphaBlending`. -/
def Impl.ProcessAlphaBlending (inColor : Texture) (s : Impl) : Impl :=
  { s with log := s.log ++ [Effect.AlphaBlendingDraw inColor] }

/-- The local variables `inColor` and `outColor` of `PostProcessGraphics`, together with
the application state at that point of the method. -/
structure ColorBuffers where
  app : Impl
  inColor : Texture
  outColor : Texture

/-- The block `if (IsDLSSSuperResolutionEnabled()) ... else if (IsFSRSuperResolutionEnabled()) ...`
of `PostProcessGraphics`, each branch ending in `swap(inColor, outColor)`. -/
def ColorBuffers.SuperResolution (svc : Services) (q : ColorBuffers) : Option ColorBuffers :=
  if q.app.IsDLSSSuperResolutionEnabled svc then
    (q.app.ProcessDLSSSuperResolution).map fun s =>
      { app := s, inColor := q.outColor, outColor := q.inColor }
  else if q.app.IsFSRSuperResolutionEnabled svc then
    (q.app.ProcessFSRSuperResolution).map fun s =>
      { app := s, inColor := q.outColor, outColor := q.inColor }
  else some q

/-- The block `if (IsNISEnabled()) ...` of `PostProcessGraphics`. -/
def ColorBuffers.NIS (features : StreamlineFeatures) (g : GraphicsSettings)
    (q : ColorBuffers) : ColorBuffers :=
  if IsNISEnabled features g then
    { app := q.app.ProcessNIS q.inColor q.outColor, inColor := q.outColor, outColor := q.inColor }
  else q

/-- The block `if (postProcessingSettings.IsChromaticAberrationEnabled) ...` of
`PostProcessGraphics`. -/
def ColorBuffers.ChromaticAberration (g : GraphicsSettings) (q : ColorBuffers) : ColorBuffers :=
  if g.IsChromaticAberrationEnabled then
    { app := q.app.ProcessChromaticAberration q.inColor q.outColor,
      inColor := q.outColor, outColor := q.inColor }
  else q

/-- The block `if (postProcessingSettings.Bloom.IsEnabled) ...` of `PostProcessGraphics`. -/
def ColorBuffers.Bloom (g : GraphicsSettings) (q : ColorBuffers) : ColorBuffers :=
  if g.Bloom_IsEnabled then
    { app := q.app.ProcessBloom q.inColor q.outColor, inColor := q.outColor, outColor := q.inColor }
  else q

/-- The method `App::Impl::PostProcessGraphics`; `none` when `m_renderTextures.at`
throws. -/
def Impl.PostProcessGraphics (svc : Services) (features : StreamlineFeatures)
    (g : GraphicsSettings) (s : Impl) : Option Impl := do
  let s := s.PrepareStreamline
  let isNRDEnabled := IsNRDEnabled svc g
  let s ← if isNRDEnabled then s.ProcessNRD g else some s
  let inColor ← s.m_renderTextures RenderTextureNames.Color
  let outColor ← s.m_renderTextures RenderTextureNames.FinalColor
  let q ← ColorBuffers.SuperResolution svc { app := s, inColor := inColor, outColor := outColor }
  let q := q.NIS features g
  let q := q.ChromaticAberration g
  let q := q.Bloom g
  let s ← if IsDLSSFrameGenerationEnabled features g then
      q.app.ProcessDLSSFrameGeneration q.inColor
    else some q.app
  let s := s.ProcessToneMapping q.inColor
  if isNRDEnabled && g.NRD_IsValidationOverlayEnabled then
    (s.m_renderTextures RenderTextureNames.Validation).map fun validation =>
      s.ProcessAlphaBlending validation
  else some s

/-! ## Observations on the calls of a frame -/

/-- The lambda `IsSelectable` of the upscaler combo box in `RenderSettingsWindow`. -/
def IsSelectable (svc : Services) (upscaler : Upscaler) : Bool :=
  upscaler == Upscaler.None
    || (upscaler == Upscaler.DLSS && svc.IsDLSSAvailable)
    || (upscaler == Upscaler.FSR && svc.IsFSRAvailable)

/-- The texture keys read by `ProcessNRD`. -/
def NRDTextureNames : List RenderTextureNames :=
  [RenderTextureNames.LinearDepth, RenderTextureNames.BaseColorMetalness,
   RenderTextureNames.NormalRoughness, RenderTextureNames.DenoisedDiffuse,
   RenderTextureNames.DenoisedSpecular, RenderTextureNames.MotionVectors,
   RenderTextureNames.NoisyDiffuse, RenderTextureNames.NoisySpecular,
   RenderTextureNames.Validation, RenderTextureNames.EmissiveColor, RenderTextureNames.Color]

/-- The texture keys read by the upscaler stages and the frame-generation tagging. -/
def upscalerTextureNames : List RenderTextureNames :=
  [RenderTextureNames.NormalizedDepth, RenderTextureNames.MotionVectors,
   RenderTextureNames.Color, RenderTextureNames.FinalColor]

/-- The value of `reset` handed to Streamline by an effect, if it is such a call. -/
def Effect.streamlineReset : Effect → Option Bool
  | Effect.StreamlineSetConstants reset => some reset
  | _ => none

/-- The accumulation mode handed to NRD by an effect, if it is such a call. -/
def Effect.accumulationMode : Effect → Option AccumulationMode
  | Effect.NRDSetConstants accumulationMode => some accumulationMode
  | _ => none

/-- The value of `Reset` handed to FSR by an effect, if it is such a call. -/
def Effect.FSRReset : Effect → Option Bool
  | Effect.FSRSetConstants settings => some settings.Reset
  | _ => none

/-- The stages of the post-processing chain. -/
inductive Stage where
  | Denoise
  | DLSS
  | FSR
  | NIS
  | ChromaticAberration
  | Bloom
  | FrameGeneration
  | ToneMapping
  | ValidationOverlay
deriving DecidableEq, Repr

/-- The order in which `PostProcessGraphics` lists the stages. -/
def fixedOrder : List Stage :=
  [Stage.Denoise, Stage.DLSS, Stage.FSR, Stage.NIS, Stage.ChromaticAberration, Stage.Bloom,
   Stage.FrameGeneration, Stage.ToneMapping, Stage.ValidationOverlay]

/-- The stage whose invocation an effect is, if any. -/
def Effect.stage : Effect → Option Stage
  | Effect.DenoisedCompositionProcess _ _ _ _ _ _ _ => some Stage.Denoise
  | Effect.DLSSEvaluate _ _ _ _ _ => some Stage.DLSS
  | Effect.FSRDispatch _ _ _ _ => some Stage.FSR
  | Effect.NISEvaluate _ _ => some Stage.NIS
  | Effect.ChromaticAberrationProcess _ _ => some Stage.ChromaticAberration
  | Effect.BloomProcess _ _ => some Stage.Bloom
  | Effect.DLSSGTag _ _ _ _ => some Stage.FrameGeneration
  | Effect.ToneMappingProcess _ => some Stage.ToneMapping
  | Effect.AlphaBlendingDraw _ => some Stage.ValidationOverlay
  | _ => none

/-- The condition under which `PostProcessGraphics` runs a stage. -/
def stageEnabled (svc : Services) (features : StreamlineFeatures) (g : GraphicsSettings)
    (s : Impl) : Stage → Bool
  | Stage.Denoise => IsNRDEnabled svc g
  | Stage.DLSS => s.IsDLSSSuperResolutionEnabled svc
  | Stage.FSR => s.IsFSRSuperResolutionEnabled svc
  | Stage.NIS => IsNISEnabled features g
  | Stage.ChromaticAberration => g.IsChromaticAberrationEnabled
  | Stage.Bloom => g.Bloom_IsEnabled
  | Stage.FrameGeneration => IsDLSSFrameGenerationEnabled features g
  | Stage.ToneMapping => true
  | Stage.ValidationOverlay => IsNRDEnabled svc g && g.NRD_IsValidationOverlayEnabled

/-- The colour buffers `(input, output)` of an effect that is the call of a swapping
stage (upscale, sharpen, chromatic aberration, bloom). -/
def Effect.pingPong : Effect → Option (Texture × Texture)
  | Effect.DLSSEvaluate _ _ input output _ => some (input, output)
  | Effect.FSRDispatch _ _ input output => some (input, output)
  | Effect.NISEvaluate input output => some (input, output)
  | Effect.ChromaticAberrationProcess input output => some (input, output)
  | Effect.BloomProcess input output => some (input, output)
  | _ => none

/-- The colour buffer read by an effect that is the frame-generation tagging or the
tone mapping. -/
def Effect.colorRead : Effect → Option Texture
  | Effect.DLSSGTag _ _ input _ => some input
  | Effect.ToneMappingProcess input => some input
  | _ => none

/-- The calls `(input, output)` form a chain that starts by reading `a` and writing `b`
and in which every call reads what the previous one wrote and writes the other
buffer. -/
def alternates : Texture → Texture → List (Texture × Texture) → Prop
  | _, _, [] => True
  | a, b, (input, output) :: rest => input = a ∧ output = b ∧ alternates b a rest

/-! ## The Camera node of the settings window -/

/-- A float, represented by its bit pattern; no float arithmetic is modelled. -/
abbrev FLOAT := Nat

/-- The settings `g_graphicsSettings.Camera` shown in the settings window. -/
structure CameraSettings where
  IsJitterEnabled : Bool
  HorizontalFieldOfView : FLOAT
deriving DecidableEq, Repr

/-- The lens of `m_cameraController`: the angle (in degrees, the operand of
`XMConvertToRadians`) and the aspect ratio handed to the last `SetLens`. -/
structure CameraController where
  HorizontalFieldOfView : FLOAT
  AspectRatio : FLOAT
deriving DecidableEq, Repr

/-- The application together with the camera settings and the camera controller, as
seen by the Camera node of `RenderSettingsWindow`. -/
structure SettingsWindow where
  app : Impl
  Camera : CameraSettings
  m_cameraController : CameraController

/-- What the widgets of the Camera node return in one frame of the user interface. -/
structure CameraNodeInput where
  /-- The result of `ImGui::TreeNodeEx("Camera", ...)`. -/
  TreeNodeEx : Bool
  /-- The result of `ImGui::Checkbox("Jitter", ...)`: `true` when the box was clicked,
  in which case the setting has been toggled. -/
  Checkbox_Jitter : Bool
  /-- The result of `ImGui::SliderFloat("Horizontal Field of View", ...)`: `some v` when
  the slider was moved, `v` being the value written to the setting. -/
  SliderFloat_HorizontalFieldOfView : Option FLOAT

/-- The Camera node of `App::Impl::RenderSettingsWindow`. -/
def SettingsWindow.CameraNode (ui : CameraNodeInput) (w : SettingsWindow) : SettingsWindow :=
  if ui.TreeNodeEx then
    let w : SettingsWindow :=
      if ui.Checkbox_Jitter then
        { w with
          Camera := { w.Camera with IsJitterEnabled := !w.Camera.IsJitterEnabled }
          app := w.app.ResetTemporalAccumulation }
      else w
    match ui.SliderFloat_HorizontalFieldOfView with
    | some value =>
      { w with
        Camera := { w.Camera with HorizontalFieldOfView := value }
        m_cameraController :=
          { HorizontalFieldOfView := value, AspectRatio := w.m_cameraController.AspectRatio } }
    | none => w
  else w

/-- The three temporal reset requests of an application state: the Streamline reset
flag, the NRD accumulation mode and the FSR reset flag. -/
def Impl.resetRequests (s : Impl) : Bool × AccumulationMode × Bool :=
  (s.m_slConstants_reset, s.m_NRDCommonSettings_accumulationMode, s.m_FSRSettings.Reset)

/-! ## Concrete services and states used to evaluate the definitions -/

/-- Upscaler services that scale both axes by two thirds, with every feature available. -/
def twoThirdsServices : Services :=
  { slDLSSGetOptimalSettings := fun options =>
      (options.outputWidth * 2 / 3, options.outputHeight * 2 / 3)
    ffxFsr2GetRenderResolutionFromQualityMode := fun displayWidth displayHeight _ =>
      some (displayWidth * 2 / 3, displayHeight * 2 / 3)
    IsDLSSAvailable := true
    IsFSRAvailable := true
    IsNRDAvailable := true
    normalFormat := DXGI_FORMAT.R10G10B10A2_UNORM }

/-- Upscaler services whose DLSS query answers 3840x2160 whatever the output size. -/
def oversizeServices : Services :=
  { twoThirdsServices with slDLSSGetOptimalSettings := fun _ => (3840, 2160) }

/-- A freshly constructed application with a 1920x1080 output, before any resource
is created: `m_renderSize{}` is zero, `m_slConstants.reset` is `eFalse`, the
render-texture table is empty. -/
def freshImpl (upscaler : Upscaler) (mode : SuperResolutionMode) : Impl :=
  { outputSize := { cx := 1920, cy := 1080 }
    Upscaler := upscaler
    Mode := mode
    m_renderSize := { x := 0, y := 0 }
    m_haltonSamplePattern := none
    m_slConstants_reset := false
    m_NRDCommonSettings_accumulationMode := AccumulationMode.CONTINUE
    m_FSRSettings := { RenderSize := { x := 0, y := 0 }, Reset := false }
    m_renderTextures := fun _ => none
    m_RTXDIResources := { ReSTIRDIContext := none, NeighborOffsets := none, DIReservoir := none }
    m_RTXDIResourcesLock := false
    nextId := 0
    log := [] }

/-- The application of `freshImpl` with a minimised-width output of 0x1080. -/
def zeroWidthImpl : Impl :=
  { freshImpl Upscaler.None SuperResolutionMode.Auto with outputSize := { cx := 0, cy := 1080 } }

/-- The application of `freshImpl` with upscaler None after the creation of its window
size dependent resources (`SetSuperResolutionOptions` returns there, so the second
branch is not taken). -/
def createdImpl : Impl :=
  match (freshImpl Upscaler.None SuperResolutionMode.Quality).CreateWindowSizeDependentResources
      twoThirdsServices with
  | some s => s
  | none => freshImpl Upscaler.None SuperResolutionMode.Quality

/-- The eight keys named in the history swap block of `Render`. -/
def historyNames : List RenderTextureNames :=
  [RenderTextureNames.PreviousLinearDepth, RenderTextureNames.LinearDepth,
   RenderTextureNames.PreviousBaseColorMetalness, RenderTextureNames.BaseColorMetalness,
   RenderTextureNames.PreviousNormalRoughness, RenderTextureNames.NormalRoughness,
   RenderTextureNames.PreviousGeometricNormals, RenderTextureNames.GeometricNormals]

/-- The other key of the `swap` statement in which a history key occurs; every other
key is mapped to itself. -/
def historyPartner : RenderTextureNames → RenderTextureNames
  | RenderTextureNames.PreviousLinearDepth => RenderTextureNames.LinearDepth
  | RenderTextureNames.LinearDepth => RenderTextureNames.PreviousLinearDepth
  | RenderTextureNames.PreviousBaseColorMetalness => RenderTextureNames.BaseColorMetalness
  | RenderTextureNames.BaseColorMetalness => RenderTextureNames.PreviousBaseColorMetalness
  | RenderTextureNames.PreviousNormalRoughness => RenderTextureNames.NormalRoughness
  | RenderTextureNames.NormalRoughness => RenderTextureNames.PreviousNormalRoughness
  | RenderTextureNames.PreviousGeometricNormals => RenderTextureNames.GeometricNormals
  | RenderTextureNames.GeometricNormals => RenderTextureNames.PreviousGeometricNormals
  | name => name

/-- All post-processing settings switched off. -/
def allOffSettings : GraphicsSettings :=
  { ReflexMode := ReflexMode.eOff
    NRD_Denoiser := NRDDenoiser.None
    NRD_IsValidationOverlayEnabled := false
    NIS_IsEnabled := false
    IsChromaticAberrationEnabled := false
    Bloom_IsEnabled := false
    IsDLSSFrameGenerationEnabled := false }

/-- Every Streamline feature available. -/
def allFeatures : StreamlineFeatures :=
  { kFeatureDLSS_G := true, kFeatureNIS := true, kFeatureReflex := true }

/-- Frame generation switched on while Reflex is off, every other stage off. -/
def frameGenerationWithoutReflexSettings : GraphicsSettings :=
  { allOffSettings with IsDLSSFrameGenerationEnabled := true }

/-- The ReBLUR denoiser with its validation overlay, chromatic aberration, bloom and
frame generation (with Reflex) switched on, sharpening off. -/
def sampleSettings : GraphicsSettings :=
  { ReflexMode := ReflexMode.eLowLatency
    NRD_Denoiser := NRDDenoiser.ReBLUR
    NRD_IsValidationOverlayEnabled := true
    NIS_IsEnabled := false
    IsChromaticAberrationEnabled := true
    Bloom_IsEnabled := true
    IsDLSSFrameGenerationEnabled := true }

/-- The application of `createdImpl` with the upscaler switched to DLSS. -/
def upscaledImpl : Impl := { createdImpl with Upscaler := Upscaler.DLSS }

/-- A settings window over the fresh application (no reset requested) with a field of
view of 90 degrees (bit pattern 0x42B40000) and aspect ratio 16/9 (0x3FE38E39). -/
def sampleSettingsWindow : SettingsWindow :=
  { app := freshImpl Upscaler.None SuperResolutionMode.Auto
    Camera := { IsJitterEnabled := true, HorizontalFieldOfView := 0x42B40000 }
    m_cameraController := { HorizontalFieldOfView := 0x42B40000, AspectRatio := 0x3FE38E39 } }

/-- The slider moved to 60 degrees (bit pattern 0x42700000), nothing else touched. -/
def sliderMovedInput : CameraNodeInput :=
  { TreeNodeEx := true, Checkbox_Jitter := false,
    SliderFloat_HorizontalFieldOfView := some 0x42700000 }

/-- Services of `twoThirdsServices` without DLSS. -/
def noDLSSServices : Services := { twoThirdsServices with IsDLSSAvailable := false }

/-! ## Observations on the colour buffers of a frame -/

/-- The colour buffer an effect consumes as its input, if it is the call of a stage
that takes one (upscale, sharpen, chromatic aberration, bloom, frame-generation
tagging, tone mapping). -/
def Effect.colorInput : Effect → Option Texture
  | Effect.DLSSEvaluate _ _ input _ _ => some input
  | Effect.FSRDispatch _ _ input _ => some input
  | Effect.NISEvaluate input _ => some input
  | Effect.ChromaticAberrationProcess input _ => some input
  | Effect.BloomProcess input _ => some input
  | Effect.DLSSGTag _ _ input _ => some input
  | Effect.ToneMappingProcess input => some input
  | _ => none

/-- The texture given as `OutColor` to the denoised composition, if the effect is that
call. -/
def Effect.compositionOutput : Effect → Option Texture
  | Effect.DenoisedCompositionProcess _ _ _ _ _ _ OutColor => some OutColor
  | _ => none

/-! ## Scene loading and the frame path -/

/-- An object thrown by a statement: one of a class derived from `std::exception`, with
the text returned by `what()`, or an object of any other type, told apart by a
number. -/
inductive Thrown where
  | exception (what : String)
  | other (id : Nat)
deriving DecidableEq, Repr

/-- Streamline `sl::DLSSGMode`, the type of `m_DLSSGOptions.mode`. -/
inductive DLSSGMode where
  | eOff
  | eOn
  | eAuto
deriving DecidableEq, Repr

/-- The calls made by `Tick`, `Update` and `Render` that are followed here; their bodies
are not modelled. -/
inductive FrameCall where
  /-- The call `m_streamline->SetConstants(m_DLSSGOptions)` of `SetFrameGenerationOptions`. -/
  | SetConstantsDLSSG (mode : DLSSGMode)
  | UpdateScene
  | SkinSkeletalMeshes
  | CreateAccelerationStructures
  | PrepareLights
  | RenderScene
  | PostProcessGraphics
  | RenderUI
  /-- The call `m_deviceResources->RequestHDR(...)` of the deferred entry "HDRSetting". -/
  | RequestHDR
  /-- The call `SetSuperResolutionOptions()` of the deferred entry "SuperResolutionSetting". -/
  | SetSuperResolutionOptions
  /-- The call `ThrowIfFailed(m_windowModeHelper.Apply())` of the deferred entry
  "WindowSetting". -/
  | WindowModeApply
deriving DecidableEq, Repr

/-- The statements of the `try` block of the scene-loading task that can throw, in
program order. -/
inductive LoadStep where
  /-- The statement `m_scene = make_shared<MyScene>(...)`. -/
  | make_shared_MyScene
  /-- The statement `m_scene->Load(*sceneDesc, ...)`. -/
  | Load
  | CreateStructuredBuffers
  | ResetCamera
  /-- The statement `m_raytracing->SetScene(m_scene.get())`. -/
  | SetScene
  | PrepareLightResources
deriving DecidableEq, Repr

/-- The entry `m_futures[FutureNames::Scene]`: the scene description captured by the
task and whether `wait_for(0s)` answers `future_status::ready`. -/
structure SceneFuture where
  sceneDesc : Nat
  ready : Bool
deriving DecidableEq, Repr

/-- The members of `App::Impl` read or written by the scene loading and by the frame
path around it. The scene loading task runs on a thread of its own; here it runs
as one step (`SceneLoader.runTask`) between two calls of `Tick`. -/
structure SceneLoader where
  app : Impl
  /-- The identity of the object `m_scene` points to, `none` for a null pointer. -/
  m_scene : Option Nat
  m_sceneFilePath : String
  m_sceneErrorMessage : String
  m_futures_Scene : Option SceneFuture
  /-- The deferred entry `m_futures["LoadScene"]`: the path chosen in the file dialog. -/
  m_futures_LoadScene : Option String
  /-- Whether the deferred entry `m_futures["HDRSetting"]` is registered. -/
  m_futures_HDRSetting : Bool
  /-- Whether the deferred entry `m_futures["SuperResolutionSetting"]` is registered. -/
  m_futures_SuperResolutionSetting : Bool
  /-- Whether the deferred entry `m_futures["WindowSetting"]` is registered. -/
  m_futures_WindowSetting : Bool
  m_exception : Option Thrown
  /-- The field `m_DLSSGOptions.mode`. -/
  m_DLSSGOptions_mode : DLSSGMode
  /-- The value of `m_stepTimer.GetFrameCount()`. -/
  frameCount : Nat
  /-- Identity given to the next scene object. -/
  nextId : Nat
  /-- The followed calls made so far. -/
  calls : List FrameCall

/-- What the surroundings contribute to one call of `Tick`. -/
structure FrameInput where
  /-- The number of times the step timer calls `Update`. -/
  updates : Nat
  /-- What a followed call throws, `none` when it returns. -/
  throws : FrameCall → Option Thrown
  /-- The result of `m_scene->IsStatic()`. -/
  IsStatic : Bool
  /-- The condition `RTXDI.IsEnabled && m_lightPreparation->GetEmissiveTriangleCount()`. -/
  hasLights : Bool
  /-- The value of `m_UIStates.IsVisible` when `Render` tests it. -/
  IsVisible : Bool
  /-- The path with which `RenderFileDialog` registers the deferred `LoadScene`, if it
  does so in this frame. -/
  FileDialog : Option String
  /-- Whether the settings window registers the deferred "WindowSetting" in this frame
  (`isChanged` of the window mode and resolution combo boxes). -/
  WindowSetting : Bool
  /-- Whether the settings window registers the deferred "HDRSetting" in this frame. -/
  HDRSetting : Bool
  /-- Whether the settings window registers the deferred "SuperResolutionSetting" in this
  frame. -/
  SuperResolutionSetting : Bool
  /-- Whether the error window is closed in this frame (`isOpen` cleared). -/
  errorWindowClosed : Bool
  /-- The text of `what()` of the `std::out_of_range` thrown by `map::at`. -/
  out_of_range_what : String

/-- The method `App::Impl::IsSceneLoading`. -/
def SceneLoader.IsSceneLoading (s : SceneLoader) : Bool :=
  s.m_futures_Scene.isSome

/-- The method `App::Impl::IsSceneReady`. -/
def SceneLoader.IsSceneReady (s : SceneLoader) : Bool :=
  !s.IsSceneLoading && s.m_scene.isSome

/-- The lambda `Release` of the scene-loading task as far as `m_scene` goes. -/
def SceneLoader.Release (s : SceneLoader) : SceneLoader :=
  { s with m_scene := none }

/-- The effect of a statement of the `try` block that returns. -/
def LoadStep.run : LoadStep → SceneLoader → SceneLoader
  | LoadStep.make_shared_MyScene, s => { s with m_scene := some s.nextId, nextId := s.nextId + 1 }
  | LoadStep.ResetCamera, s => { s with app := s.app.ResetTemporalAccumulation }
  | _, s => s

/-- The statements of the `try` block after `Release()`. -/
def taskSteps : List LoadStep :=
  [LoadStep.make_shared_MyScene, LoadStep.Load, LoadStep.CreateStructuredBuffers,
   LoadStep.ResetCamera, LoadStep.SetScene, LoadStep.PrepareLightResources]

/-- The statements `steps` run in order until the one named in `failure` throws: the
state in which the block is left and the object thrown, if any. A statement that
throws has no effect. -/
def runSteps (failure : Option (LoadStep × Thrown)) :
    List LoadStep → SceneLoader → SceneLoader × Option Thrown
  | [], s => (s, none)
  | step :: rest, s =>
    match failure with
    | some (failing, thrown) =>
      if failing = step then (s, some thrown) else runSteps failure rest (step.run s)
    | none => runSteps failure rest (step.run s)

/-- The lambda handed to `StartDetachedFuture` by `LoadScene`: the `try` block and its
two handlers. The result is `Except.error` when an object is thrown out of the
lambda. -/
def SceneLoader.task (failure : Option (LoadStep × Thrown)) (s : SceneLoader) :
    Except Thrown SceneLoader :=
  match runSteps failure taskSteps s.Release with
  | (s, none) => Except.ok s
  | (s, some (Thrown.exception what)) => Except.ok { s.Release with m_sceneErrorMessage := what }
  | (s, some (Thrown.other id)) =>
    Except.ok (if s.m_exception.isNone then { s with m_exception := some (Thrown.other id) } else s)

/-- The scene-loading task of a registered, unfinished future runs to its end, after
which the future is ready. -/
def SceneLoader.runTask (failure : Option (LoadStep × Thrown)) (s : SceneLoader) :
    Except Thrown SceneLoader :=
  match s.m_futures_Scene with
  | some future =>
    if future.ready then Except.ok s
    else
      match s.task failure with
      | Except.ok s => Except.ok { s with m_futures_Scene := some { future with ready := true } }
      | Except.error thrown => Except.error thrown
  | none => Except.ok s

/-- The method `App::Impl::LoadScene`, `parse` being the constructor of `MySceneDesc`: the
description read from a file or the object thrown. The result is `Except.error`
when an object is thrown out of the method. -/
def SceneLoader.LoadScene (parse : String → Except Thrown Nat) (filePath : String)
    (s : SceneLoader) : Except Thrown SceneLoader :=
  match parse filePath with
  | Except.ok sceneDesc =>
    let s : SceneLoader := { s with m_sceneErrorMessage := "" }
    let s : SceneLoader := { s with m_sceneFilePath := filePath }
    Except.ok { s with m_futures_Scene := some { sceneDesc := sceneDesc, ready := false } }
  | Except.error (Thrown.exception what) => Except.ok { s with m_sceneErrorMessage := what }
  | Except.error (Thrown.other id) => Except.error (Thrown.other id)

/-- Sequencing of statements: the second runs when the first has not thrown. -/
def andThen (r : SceneLoader × Option Thrown) (f : SceneLoader → SceneLoader × Option Thrown) :
    SceneLoader × Option Thrown :=
  match r with
  | (s, none) => f s
  | (s, some thrown) => (s, some thrown)

/-- A followed call: it is recorded and throws what the input says. -/
def SceneLoader.invoke (input : FrameInput) (call : FrameCall) (s : SceneLoader) :
    SceneLoader × Option Thrown :=
  ({ s with calls := s.calls ++ [call] }, input.throws call)

/-- The method `App::Impl::SetFrameGenerationOptions`; the result of `SetConstants` is
ignored. -/
def SceneLoader.SetFrameGenerationOptions (enable : Bool) (s : SceneLoader) : SceneLoader :=
  let s : SceneLoader :=
    { s with m_DLSSGOptions_mode := if enable then DLSSGMode.eAuto else DLSSGMode.eOff }
  if !enable || s.IsSceneReady then
    { s with calls := s.calls ++ [FrameCall.SetConstantsDLSSG s.m_DLSSGOptions_mode] }
  else s

/-- The first block of `App::Impl::Tick`: the poll of the scene future. -/
def SceneLoader.pollSceneFuture (features : StreamlineFeatures) (g : GraphicsSettings)
    (s : SceneLoader) : SceneLoader :=
  match s.m_futures_Scene with
  | some future =>
    if future.ready then
      let s : SceneLoader := { s with m_futures_Scene := none }
      if s.m_scene.isSome && s.m_DLSSGOptions_mode == DLSSGMode.eOff
          && IsDLSSFrameGenerationEnabled features g then
        s.SetFrameGenerationOptions
          (g.IsDLSSFrameGenerationEnabled && g.ReflexMode != ReflexMode.eOff)
      else s
    else if s.m_DLSSGOptions_mode != DLSSGMode.eOff then s.SetFrameGenerationOptions false
    else s
  | none => s

/-- The method `App::Impl::Update` as far as the scene goes. -/
def SceneLoader.Update (input : FrameInput) (s : SceneLoader) : SceneLoader × Option Thrown :=
  if s.IsSceneReady then s.invoke input FrameCall.UpdateScene else (s, none)

/-- The call `m_stepTimer.Tick([&] { Update(); })` for `n` updates: each one is counted in
the 32-bit frame count before `Update` is called. -/
def SceneLoader.stepTimerTick (input : FrameInput) : Nat → SceneLoader → SceneLoader × Option Thrown
  | 0, s => (s, none)
  | n + 1, s =>
    andThen (SceneLoader.Update input { s with frameCount := (s.frameCount + 1) % 4294967296 })
      (SceneLoader.stepTimerTick input n)

/-- The block `if (IsSceneReady()) ...` of `App::Impl::Render`. -/
def SceneLoader.Render_scene (input : FrameInput) (s : SceneLoader) :
    SceneLoader × Option Thrown :=
  if s.IsSceneReady then
    andThen
      (andThen
        (andThen
          (if !input.IsStatic then
            andThen (s.invoke input FrameCall.SkinSkeletalMeshes)
              (SceneLoader.invoke input FrameCall.CreateAccelerationStructures)
          else (s, none))
          fun s => if input.hasLights then s.invoke input FrameCall.PrepareLights else (s, none))
        (SceneLoader.invoke input FrameCall.RenderScene))
      (SceneLoader.invoke input FrameCall.PostProcessGraphics)
  else (s, none)

/-- The method `App::Impl::RenderFileDialog` as far as the futures go. -/
def SceneLoader.RenderFileDialog (input : FrameInput) (s : SceneLoader) : SceneLoader :=
  match input.FileDialog with
  | some filePath => { s with m_futures_LoadScene := some filePath }
  | none => s

/-- The method `App::Impl::RenderSettingsWindow` as far as the futures go. -/
def SceneLoader.RenderSettingsWindow (input : FrameInput) (s : SceneLoader) : SceneLoader :=
  let s : SceneLoader :=
    if input.WindowSetting then { s with m_futures_WindowSetting := true } else s
  let s : SceneLoader := if input.HDRSetting then { s with m_futures_HDRSetting := true } else s
  if input.SuperResolutionSetting then { s with m_futures_SuperResolutionSetting := true } else s

/-- The method `App::Impl::RenderLoadingSceneWindow` as far as the message goes: the error
window clears the message when it is closed. -/
def SceneLoader.RenderLoadingSceneWindow (input : FrameInput) (s : SceneLoader) : SceneLoader :=
  if s.m_sceneErrorMessage != "" && input.errorWindowClosed then
    { s with m_sceneErrorMessage := "" }
  else s

/-- The method `App::Impl::RenderUI` as far as the scene loading and the futures go. -/
def SceneLoader.RenderUI (input : FrameInput) (s : SceneLoader) : SceneLoader × Option Thrown :=
  andThen (s.invoke input FrameCall.RenderUI) fun s =>
    (((s.RenderFileDialog input).RenderSettingsWindow input).RenderLoadingSceneWindow input, none)

/-- The last block of `App::Impl::Render`: the four history swaps. -/
def SceneLoader.historySwap (input : FrameInput) (s : SceneLoader) : SceneLoader × Option Thrown :=
  match Render_historySwap s.app.m_renderTextures with
  | Except.ok t => ({ s with app := { s.app with m_renderTextures := t } }, none)
  | Except.error t =>
    ({ s with app := { s.app with m_renderTextures := t } },
      some (Thrown.exception input.out_of_range_what))

/-- The method `App::Impl::Render` as far as the scene goes. -/
def SceneLoader.Render (input : FrameInput) (s : SceneLoader) : SceneLoader × Option Thrown :=
  if s.frameCount = 0 then (s, none)
  else
    andThen
      (andThen (s.Render_scene input)
        fun s => if input.IsVisible then s.RenderUI input else (s, none))
      (SceneLoader.historySwap input)

/-- The predicate of `erase_if` on a deferred entry whose function makes one followed call:
`get()` runs the function, and the entry is erased when it returns. -/
def SceneLoader.runDeferredCall (input : FrameInput) (call : FrameCall) (registered : Bool)
    (erase : SceneLoader → SceneLoader) (s : SceneLoader) : SceneLoader × Option Thrown :=
  if registered then andThen (s.invoke input call) fun s => (erase s, none) else (s, none)

/-- The predicate of `erase_if` on the deferred entry "LoadScene". -/
def SceneLoader.runDeferredLoadScene (parse : String → Except Thrown Nat) (s : SceneLoader) :
    SceneLoader × Option Thrown :=
  match s.m_futures_LoadScene with
  | some filePath =>
    match s.LoadScene parse filePath with
    | Except.ok s => ({ s with m_futures_LoadScene := none }, none)
    | Except.error thrown => (s, some thrown)
  | none => (s, none)

/-- The call of `erase_if` in `App::Impl::Tick`: the deferred entries are run and erased in
the order of their keys, "HDRSetting", "LoadScene", "SuperResolutionSetting",
"WindowSetting"; the entry "Scene", which is not deferred, stays. -/
def SceneLoader.runDeferred (parse : String → Except Thrown Nat) (input : FrameInput)
    (s : SceneLoader) : SceneLoader × Option Thrown :=
  andThen
    (andThen
      (andThen
        (s.runDeferredCall input FrameCall.RequestHDR s.m_futures_HDRSetting
          fun s => { s with m_futures_HDRSetting := false })
        (SceneLoader.runDeferredLoadScene parse))
      fun s => s.runDeferredCall input FrameCall.SetSuperResolutionOptions
        s.m_futures_SuperResolutionSetting
        fun s => { s with m_futures_SuperResolutionSetting := false })
    fun s => s.runDeferredCall input FrameCall.WindowModeApply s.m_futures_WindowSetting
      fun s => { s with m_futures_WindowSetting := false }

/-- The last block of `App::Impl::Tick`: `if (m_exception) rethrow_exception(m_exception)`. -/
def SceneLoader.rethrow (s : SceneLoader) : SceneLoader × Option Thrown :=
  (s, s.m_exception)

/-- The statements of `App::Impl::Tick` before its last block. -/
def SceneLoader.Tick_frame (parse : String → Except Thrown Nat) (features : StreamlineFeatures)
    (g : GraphicsSettings) (input : FrameInput) (s : SceneLoader) : SceneLoader × Option Thrown :=
  andThen
    (andThen ((s.pollSceneFuture features g).stepTimerTick input input.updates)
      (SceneLoader.Render input))
    (SceneLoader.runDeferred parse input)

/-- The method `App::Impl::Tick`: the state it leaves and the object it throws, if any. -/
def SceneLoader.Tick (parse : String → Except Thrown Nat) (features : StreamlineFeatures)
    (g : GraphicsSettings) (input : FrameInput) (s : SceneLoader) : SceneLoader × Option Thrown :=
  andThen (s.Tick_frame parse features g input) SceneLoader.rethrow

/-- Whether a followed call is one of the three that use the scene. -/
def FrameCall.usesScene : FrameCall → Bool
  | FrameCall.UpdateScene => true
  | FrameCall.RenderScene => true
  | FrameCall.PostProcessGraphics => true
  | _ => false

/-- The state `s'` has the scene pointer, the scene future, the exception slot, the
recorded calls and the application members of `s`. -/
def SameScene (s s' : SceneLoader) : Prop :=
  s'.m_scene = s.m_scene ∧ s'.m_futures_Scene = s.m_futures_Scene ∧
    s'.m_exception = s.m_exception ∧ s'.calls = s.calls ∧ s'.app = s.app

/-- A statement started in state `s` with outcome `r` has left the scene pointer, the
scene future and the exception slot as they were, and every call it has
recorded that uses the scene was made with `ready` true. -/
def FramePath (ready : Bool) (s : SceneLoader) (r : SceneLoader × Option Thrown) : Prop :=
  r.1.m_scene = s.m_scene ∧ r.1.m_futures_Scene = s.m_futures_Scene ∧
    r.1.m_exception = s.m_exception ∧
    ∃ new, r.1.calls = s.calls ++ new ∧ ∀ call ∈ new, call.usesScene = true → ready = true

/-- A statement started in state `s` with outcome `r` has left the exception slot as it
was and has recorded no call that uses the scene. -/
def Quiet (s : SceneLoader) (r : SceneLoader × Option Thrown) : Prop :=
  r.1.m_exception = s.m_exception ∧
    ∃ new, r.1.calls = s.calls ++ new ∧ ∀ call ∈ new, call.usesScene = false

/-! ## Concrete scene loads used to evaluate the definitions -/

/-- A constructor of `MySceneDesc` that reads the description 1 from "scene.json" and throws
a `std::exception` with the text "parse error" for any other path. -/
def sampleParse : String → Except Thrown Nat := fun filePath =>
  if filePath = "scene.json" then Except.ok 1
  else Except.error (Thrown.exception "parse error")

/-- The created application rendering the scene object 7, with no load under way. -/
def renderingLoader : SceneLoader :=
  { app := createdImpl
    m_scene := some 7
    m_sceneFilePath := "first.json"
    m_sceneErrorMessage := ""
    m_futures_Scene := none
    m_futures_LoadScene := none
    m_futures_HDRSetting := false
    m_futures_SuperResolutionSetting := false
    m_futures_WindowSetting := false
    m_exception := none
    m_DLSSGOptions_mode := DLSSGMode.eOff
    frameCount := 10
    nextId := 8
    calls := [] }

/-- The state of `renderingLoader` after `LoadScene("scene.json")`: a load is under way. -/
def loadingLoader : SceneLoader :=
  match renderingLoader.LoadScene sampleParse "scene.json" with
  | Except.ok s => s
  | Except.error _ => renderingLoader

/-- A frame with one update in which no call throws, the scene is static and has no
lights, and the interface is visible but left alone. -/
def quietInput : FrameInput :=
  { updates := 1
    throws := fun _ => none
    IsStatic := true
    hasLights := false
    IsVisible := true
    FileDialog := none
    WindowSetting := false
    HDRSetting := false
    SuperResolutionSetting := false
    errorWindowClosed := false
    out_of_range_what := "invalid map<K, T> key" }

end App

/-!
Acceleration structures of `src/Physically Based Raytracer/App.cpp`.

A shallow embedding of `CreateTopLevelAccelerationStructure`,
`CreateAccelerationStructures`, `DispatchRays`, the device-lost handling and the
progressive accumulation of the older `struct App::Impl`. Matrices are kept as expressions; the bit fields of an
`D3D12_RAYTRACING_INSTANCE_DESC` are reductions modulo `2^24` and `2^8`; a throwing
`std::map::at` and a null `m_topLevelAccelerationStructure` are the result `none`.
-/

namespace PhysicallyBasedRaytracer

/-! ## Data model of the acceleration structures -/

/-- A matrix of DirectXMath as the expression that computes it; no float arithmetic is
modelled. -/
inductive XMMATRIX where
  /-- A matrix stored in the scene, known by an identity. -/
  | value (id : Nat)
  /-- The matrix `XMMatrixScaling(x, y, z)`. -/
  | XMMatrixScaling (x y z : Int)
  /-- The product `a * b`. -/
  | mul (a b : XMMATRIX)
deriving DecidableEq, Repr

/-- A mesh of a model. The cache of bottom-level structures is keyed by the
`shared_ptr<ModelMesh>`, that is by the identity of the mesh object, which is `id`. -/
structure ModelMesh where
  id : Nat
  Transform : XMMATRIX
deriving DecidableEq, Repr

/-- A model of the scene. -/
structure Model where
  Meshes : List ModelMesh
  /-- The value of `LoaderFlags & Model::LoaderFlags::RightHanded`. -/
  RightHanded : Bool
deriving DecidableEq, Repr

/-- A render item of the scene; `pModel` points to an entry of `MyScene.Models` and is
kept as the position of that entry. -/
structure RenderItem where
  pModel : Nat
  Transform : XMMATRIX
  IsVisible : Bool
deriving DecidableEq, Repr

/-- The members of `MyScene` read by the acceleration-structure code: the values of the
model dictionary in iteration order and the render items. -/
structure MyScene where
  Models : List Model
  RenderItems : List RenderItem
deriving DecidableEq, Repr

/-- The flag `D3D12_RAYTRACING_INSTANCE_FLAG_TRIANGLE_FRONT_COUNTERCLOCKWISE`. -/
def D3D12_RAYTRACING_INSTANCE_FLAG_TRIANGLE_FRONT_COUNTERCLOCKWISE : Nat := 2

/-- The flag `D3D12_RAYTRACING_INSTANCE_FLAG_FORCE_OPAQUE`. -/
def D3D12_RAYTRACING_INSTANCE_FLAG_FORCE_OPAQUE : Nat := 4

/-- The flag `D3D12_RAYTRACING_INSTANCE_FLAG_FORCE_NON_OPAQUE`. -/
def D3D12_RAYTRACING_INSTANCE_FLAG_FORCE_NON_OPAQUE : Nat := 8

/-- The flag `D3D12_RAYTRACING_ACCELERATION_STRUCTURE_BUILD_FLAG_ALLOW_UPDATE`. -/
def D3D12_RAYTRACING_ACCELERATION_STRUCTURE_BUILD_FLAG_ALLOW_UPDATE : Nat := 1

/-- The flag `D3D12_RAYTRACING_ACCELERATION_STRUCTURE_BUILD_FLAG_PREFER_FAST_TRACE`. -/
def D3D12_RAYTRACING_ACCELERATION_STRUCTURE_BUILD_FLAG_PREFER_FAST_TRACE : Nat := 4

/-- The structure `D3D12_RAYTRACING_INSTANCE_DESC`: `InstanceID` and
`InstanceContributionToHitGroupIndex` are bit fields of 24 bits, `InstanceMask` and
`Flags` bit fields of 8 bits; `AccelerationStructure` is the GPU address of the
bottom-level buffer, kept as the identity of the bottom-level object. -/
structure D3D12_RAYTRACING_INSTANCE_DESC where
  Transform : XMMATRIX
  InstanceID : Nat
  InstanceMask : Nat
  InstanceContributionToHitGroupIndex : Nat
  Flags : Nat
  AccelerationStructure : Nat
deriving DecidableEq, Repr

/-- An object of class `BottomLevelAccelerationStructure`: its identity and the build
flags given to its constructor. -/
structure BottomLevelAccelerationStructure where
  id : Nat
  flags : Nat
deriving DecidableEq, Repr

/-- An object of class `TopLevelAccelerationStructure`: its identity and the build flags
given to its constructor. -/
structure TopLevelAccelerationStructure where
  id : Nat
  flags : Nat
deriving DecidableEq, Repr

/-- The calls made on the acceleration structures and the compute dispatch. -/
inductive Effect where
  /-- The expression `make_shared<BottomLevelAccelerationStructure>(device, flags)`. -/
  | CreateBottomLevel (id : Nat) (flags : Nat)
  /-- The call `bottomLevelAccelerationStructure->Build(commandList, { mesh->GetGeometryDesc() },
  updateOnly)`, the geometry being that of the mesh with identity `mesh`. -/
  | BuildBottomLevel (id : Nat) (mesh : Nat) (updateOnly : Bool)
  /-- The expression `make_unique<TopLevelAccelerationStructure>(device, flags)`. -/
  | CreateTopLevel (id : Nat) (flags : Nat)
  /-- The call `m_topLevelAccelerationStructure->Build(commandList, instanceDescs, updateOnly)`. -/
  | BuildTopLevel (id : Nat) (instanceDescs : List D3D12_RAYTRACING_INSTANCE_DESC)
      (updateOnly : Bool)
  /-- The call `commandList->Dispatch(...)` of `DispatchRays`. -/
  | Dispatch
deriving DecidableEq, Repr

/-- The members of `App::Impl` read or written by the acceleration-structure code. -/
structure Impl where
  m_scene : MyScene
  /-- The map from mesh identity to bottom-level structure. -/
  m_bottomLevelAccelerationStructures : Nat → Option BottomLevelAccelerationStructure
  m_topLevelAccelerationStructure : Option TopLevelAccelerationStructure
  /-- The value of `m_stepTimer.GetFrameCount()`. -/
  frameCount : Nat
  /-- Identity given to the next created object. -/
  nextId : Nat
  /-- External calls made so far. -/
  log : List Effect

/-! ## Top-level acceleration structure -/

/-- The descriptor filled in by one pass of the inner loop of
`CreateTopLevelAccelerationStructure`, `i` being the counter before `i++` and
`bottomLevelAccelerationStructure` the result of the cache lookup. -/
def makeInstanceDesc (i : Nat) (renderItem : RenderItem) (model : Model) (mesh : ModelMesh)
    (bottomLevelAccelerationStructure : BottomLevelAccelerationStructure) :
    D3D12_RAYTRACING_INSTANCE_DESC :=
  let transform := XMMATRIX.mul mesh.Transform renderItem.Transform
  let transform :=
    if model.RightHanded then XMMATRIX.mul transform (XMMATRIX.XMMatrixScaling 1 1 (-1))
    else transform
  let Flags :=
    if renderItem.IsVisible then
      if model.RightHanded then
        D3D12_RAYTRACING_INSTANCE_FLAG_FORCE_OPAQUE
          ||| D3D12_RAYTRACING_INSTANCE_FLAG_TRIANGLE_FRONT_COUNTERCLOCKWISE
      else D3D12_RAYTRACING_INSTANCE_FLAG_FORCE_OPAQUE
    else D3D12_RAYTRACING_INSTANCE_FLAG_FORCE_NON_OPAQUE
  { Transform := transform
    InstanceID := i % 16777216
    InstanceMask := 4294967295 % 256
    InstanceContributionToHitGroupIndex := 0
    Flags := Flags
    AccelerationStructure := bottomLevelAccelerationStructure.id }

/-- The inner loop of `CreateTopLevelAccelerationStructure` over the meshes of a model,
from the value `i` of the counter: the descriptors appended and the counter
afterwards (`UINT`, so `i++` wraps at 2^32); `none` when
`m_bottomLevelAccelerationStructures.at(mesh)` throws. -/
def meshLoop (cache : Nat → Option BottomLevelAccelerationStructure) (renderItem : RenderItem)
    (model : Model) : List ModelMesh → Nat → Option (List D3D12_RAYTRACING_INSTANCE_DESC × Nat)
  | [], i => some ([], i)
  | mesh :: rest, i =>
    match cache mesh.id with
    | none => none
    | some bottomLevelAccelerationStructure =>
      match meshLoop cache renderItem model rest ((i + 1) % 4294967296) with
      | none => none
      | some (instanceDescs, i') =>
        some (makeInstanceDesc i renderItem model mesh bottomLevelAccelerationStructure
          :: instanceDescs, i')

/-- The outer loop of `CreateTopLevelAccelerationStructure` over the render items;
`none` also when `pModel` does not point to an entry of the model dictionary. -/
def renderItemLoop (Models : List Model) (cache : Nat → Option BottomLevelAccelerationStructure) :
    List RenderItem → Nat → Option (List D3D12_RAYTRACING_INSTANCE_DESC × Nat)
  | [], i => some ([], i)
  | renderItem :: rest, i =>
    match Models[renderItem.pModel]? with
    | none => none
    | some model =>
      match meshLoop cache renderItem model model.Meshes i with
      | none => none
      | some (instanceDescs, i') =>
        match renderItemLoop Models cache rest i' with
        | none => none
        | some (instanceDescs', i'') => some (instanceDescs ++ instanceDescs', i'')

/-- The method `App::Impl::CreateTopLevelAccelerationStructure`; `none` when the cache
lookup throws or `m_topLevelAccelerationStructure` is null. -/
def Impl.CreateTopLevelAccelerationStructure (updateOnly : Bool) (s : Impl) : Option Impl :=
  match renderItemLoop s.m_scene.Models s.m_bottomLevelAccelerationStructures
      s.m_scene.RenderItems 0 with
  | none => none
  | some (instanceDescs, _) =>
    match s.m_topLevelAccelerationStructure with
    | none => none
    | some topLevelAccelerationStructure =>
      some { s with
        log := s.log ++
          [Effect.BuildTopLevel topLevelAccelerationStructure.id instanceDescs updateOnly] }

/-! ## Bottom-level acceleration structures -/

/-- The body of the inner loop of `CreateAccelerationStructures`: `try_emplace(mesh)`
and, when an entry was inserted, the creation and the build of the structure. -/
def Impl.buildBottomLevel (s : Impl) (mesh : ModelMesh) : Impl :=
  match s.m_bottomLevelAccelerationStructures mesh.id with
  | some _ => s
  | none =>
    let bottomLevelAccelerationStructure : BottomLevelAccelerationStructure :=
      { id := s.nextId
        flags := D3D12_RAYTRACING_ACCELERATION_STRUCTURE_BUILD_FLAG_PREFER_FAST_TRACE }
    { s with
      m_bottomLevelAccelerationStructures :=
        Function.update s.m_bottomLevelAccelerationStructures mesh.id
          (some bottomLevelAccelerationStructure)
      nextId := s.nextId + 1
      log := s.log ++
        [Effect.CreateBottomLevel bottomLevelAccelerationStructure.id
           bottomLevelAccelerationStructure.flags,
         Effect.BuildBottomLevel bottomLevelAccelerationStructure.id mesh.id false] }

/-- The loop of `CreateAccelerationStructures` over the models of the scene and their
meshes. -/
def Impl.buildBottomLevels (s : Impl) : Impl :=
  s.m_scene.Models.foldl (fun s model => model.Meshes.foldl Impl.buildBottomLevel s) s

/-- The method `App::Impl::CreateAccelerationStructures`. The reset and the submission
of the command list and the wait for the GPU are not modelled. -/
def Impl.CreateAccelerationStructures (s : Impl) : Option Impl :=
  let s := s.buildBottomLevels
  let topLevelAccelerationStructure : TopLevelAccelerationStructure :=
    { id := s.nextId
      flags := D3D12_RAYTRACING_ACCELERATION_STRUCTURE_BUILD_FLAG_PREFER_FAST_TRACE
        ||| D3D12_RAYTRACING_ACCELERATION_STRUCTURE_BUILD_FLAG_ALLOW_UPDATE }
  let s : Impl := { s with
    m_topLevelAccelerationStructure := some topLevelAccelerationStructure
    nextId := s.nextId + 1
    log := s.log ++
      [Effect.CreateTopLevel topLevelAccelerationStructure.id topLevelAccelerationStructure.flags] }
  s.CreateTopLevelAccelerationStructure false

/-! ## Frames and device loss -/

/-- The method `App::Impl::LoadScene` as far as the models go: `load` is the effect of
`m_scene.Models.Load(...)` on the model dictionary. -/
def Impl.LoadScene (load : List Model → List Model) (s : Impl) : Impl :=
  { s with m_scene := { s.m_scene with Models := load s.m_scene.Models } }

/-- The method `App::Impl::CreateDeviceDependentResources` as far as the scene and the
acceleration structures go. -/
def Impl.CreateDeviceDependentResources (load : List Model → List Model) (s : Impl) :
    Option Impl :=
  (s.LoadScene load).CreateAccelerationStructures

/-- The members of a freshly allocated `App::Impl` before its constructor body runs: no
acceleration structure, frame count zero, nothing logged. -/
def emptyImpl (scene : MyScene) : Impl :=
  { m_scene := scene
    m_bottomLevelAccelerationStructures := fun _ => none
    m_topLevelAccelerationStructure := none
    frameCount := 0
    nextId := 0
    log := [] }

/-- The constructor of `App::Impl` as far as the scene and the acceleration structures
go: a scene whose members are those of `MyScene` before loading, no structure, frame
count zero. -/
def Impl.new (load : List Model → List Model) (scene : MyScene) : Option Impl :=
  (emptyImpl scene).CreateDeviceDependentResources load

/-- The method `App::Impl::OnDeviceLost` as far as the scene and the acceleration
structures go. -/
def Impl.OnDeviceLost (s : Impl) : Impl :=
  { s with
    m_scene := { s.m_scene with
      Models := s.m_scene.Models.map fun model => { model with Meshes := [] } }
    m_topLevelAccelerationStructure := none
    m_bottomLevelAccelerationStructures := fun _ => none }

/-- The method `App::Impl::OnDeviceRestored`. -/
def Impl.OnDeviceRestored (load : List Model → List Model) (s : Impl) : Option Impl :=
  s.CreateDeviceDependentResources load

/-- The method `App::Impl::DispatchRays`. -/
def Impl.DispatchRays (s : Impl) : Option Impl :=
  match s.CreateTopLevelAccelerationStructure true with
  | none => none
  | some s => some { s with log := s.log ++ [Effect.Dispatch] }

/-- The method `App::Impl::Render` as far as the acceleration structures go. -/
def Impl.Render (s : Impl) : Option Impl :=
  if s.frameCount = 0 then some s else s.DispatchRays

/-- The method `App::Impl::Tick`, the step timer calling `Update` (which does not touch
the acceleration structures) `updates` times and counting each call in its 32-bit
frame count. -/
def Impl.Tick (updates : Nat) (s : Impl) : Option Impl :=
  Impl.Render { s with frameCount := (s.frameCount + updates) % 4294967296 }

/-- What happens to the application after its construction. -/
inductive Event where
  /-- One call of `Tick` during which the step timer calls `Update` `updates` times. -/
  | Tick (updates : Nat)
  /-- The pair `OnDeviceLost(); OnDeviceRestored();` issued by the device resources. -/
  | DeviceLostAndRestored
deriving DecidableEq, Repr

/-- One event of a run. -/
def Impl.step (load : List Model → List Model) (s : Impl) : Event → Option Impl
  | Event.Tick updates => s.Tick updates
  | Event.DeviceLostAndRestored => s.OnDeviceLost.OnDeviceRestored load

/-- A run: the events in order, stopping at the first one that throws. -/
def Impl.run (load : List Model → List Model) : List Event → Impl → Option Impl
  | [], s => some s
  | event :: rest, s =>
    match s.step load event with
    | none => none
    | some s => Impl.run load rest s

/-! ## Observations on the instance descriptors and the builds -/

/-- A render item points to a model of the dictionary all of whose meshes have an entry
in the cache. -/
def RenderItem.isValid (Models : List Model)
    (cache : Nat → Option BottomLevelAccelerationStructure) (renderItem : RenderItem) : Bool :=
  match Models[renderItem.pModel]? with
  | some model => model.Meshes.all fun mesh => (cache mesh.id).isSome
  | none => false

/-- The number of meshes of the model of a render item. -/
def RenderItem.meshCount (Models : List Model) (renderItem : RenderItem) : Nat :=
  match Models[renderItem.pModel]? with
  | some model => model.Meshes.length
  | none => 0

/-- The (render item, model, mesh) triples in render-item order, then mesh order. -/
def instancePairs (Models : List Model) :
    List RenderItem → List (RenderItem × Model × ModelMesh)
  | [] => []
  | renderItem :: rest =>
    (match Models[renderItem.pModel]? with
      | some model => model.Meshes.map fun mesh => (renderItem, model, mesh)
      | none => []) ++ instancePairs Models rest

/-- The descriptors of a list of triples, the first one being numbered `k`. -/
def pairDescs (cache : Nat → Option BottomLevelAccelerationStructure) :
    List (RenderItem × Model × ModelMesh) → Nat → List D3D12_RAYTRACING_INSTANCE_DESC
  | [], _ => []
  | (renderItem, model, mesh) :: rest, k =>
    makeInstanceDesc (k % 4294967296) renderItem model mesh
      ((cache mesh.id).getD { id := 0, flags := 0 }) :: pairDescs cache rest (k + 1)

/-- The descriptor list of a top-level build, if the effect is one. -/
def Effect.instanceDescs : Effect → Option (List D3D12_RAYTRACING_INSTANCE_DESC)
  | Effect.BuildTopLevel _ instanceDescs _ => some instanceDescs
  | _ => none

/-- The mesh whose bottom-level structure is built, if the effect is such a build. -/
def Effect.builtMesh : Effect → Option Nat
  | Effect.BuildBottomLevel _ mesh _ => some mesh
  | _ => none

/-- The calls that create and build one bottom-level structure for each pair
(identity of the structure, identity of the mesh), in order. -/
def bottomLevelCalls (pairs : List (Nat × Nat)) : List Effect :=
  pairs.flatMap fun p =>
    [Effect.CreateBottomLevel p.1
       D3D12_RAYTRACING_ACCELERATION_STRUCTURE_BUILD_FLAG_PREFER_FAST_TRACE,
     Effect.BuildBottomLevel p.1 p.2 false]

/-- The identities of all meshes of all models, in the order of the loop of
`CreateAccelerationStructures`. -/
def MyScene.meshIds (scene : MyScene) : List Nat :=
  (scene.Models.flatMap fun model => model.Meshes).map fun mesh => mesh.id

/-- In a log, every top-level build with `updateOnly = true` comes after a build with
`updateOnly = false` of the same object and after the creation of that object with
the allow-update flag. -/
def refitsFollowBuilds (log : List Effect) : Prop :=
  ∀ before after id instanceDescs,
    log = before ++ Effect.BuildTopLevel id instanceDescs true :: after →
    (∃ instanceDescs', Effect.BuildTopLevel id instanceDescs' false ∈ before) ∧
    ∃ flags, Effect.CreateTopLevel id flags ∈ before ∧
      flags &&& D3D12_RAYTRACING_ACCELERATION_STRUCTURE_BUILD_FLAG_ALLOW_UPDATE ≠ 0

/-- The log satisfies `refitsFollowBuilds` and the current top-level object, if any, has
been created with the allow-update flag and built with `updateOnly = false`. -/
def Impl.topLevelBuilt (s : Impl) : Prop :=
  refitsFollowBuilds s.log ∧
  ∀ topLevelAccelerationStructure,
    s.m_topLevelAccelerationStructure = some topLevelAccelerationStructure →
    (∃ instanceDescs,
      Effect.BuildTopLevel topLevelAccelerationStructure.id instanceDescs false ∈ s.log) ∧
    ∃ flags, Effect.CreateTopLevel topLevelAccelerationStructure.id flags ∈ s.log ∧
      flags &&& D3D12_RAYTRACING_ACCELERATION_STRUCTURE_BUILD_FLAG_ALLOW_UPDATE ≠ 0

/-- Every render item is valid and the top-level object exists. -/
def Impl.ready (s : Impl) : Prop :=
  (∀ renderItem ∈ s.m_scene.RenderItems,
    renderItem.isValid s.m_scene.Models s.m_bottomLevelAccelerationStructures = true) ∧
  s.m_topLevelAccelerationStructure.isSome = true

/-! ## A concrete scene used to evaluate the definitions -/

/-- Two models sharing the mesh with identity 11: the first, loaded right-handed, has
the meshes 10 and 11, the second, loaded left-handed, the meshes 11 and 12. -/
def sampleModels : List Model :=
  [{ Meshes := [{ id := 10, Transform := XMMATRIX.value 0 },
                { id := 11, Transform := XMMATRIX.value 1 }],
     RightHanded := true },
   { Meshes := [{ id := 11, Transform := XMMATRIX.value 1 },
                { id := 12, Transform := XMMATRIX.value 2 }],
     RightHanded := false }]

/-- The loader that fills the dictionary with `sampleModels`. -/
def sampleLoad : List Model → List Model := fun _ => sampleModels

/-- The scene before loading: two models without meshes and three render items, a
visible one of the first model, a visible one of the second and an invisible one of
the first. -/
def sampleScene : MyScene :=
  { Models := [{ Meshes := [], RightHanded := true }, { Meshes := [], RightHanded := false }]
    RenderItems :=
      [{ pModel := 0, Transform := XMMATRIX.value 100, IsVisible := true },
       { pModel := 1, Transform := XMMATRIX.value 101, IsVisible := true },
       { pModel := 0, Transform := XMMATRIX.value 102, IsVisible := false }] }

/-- The application constructed over `sampleScene` with `sampleLoad`. -/
def sampleImpl : Impl :=
  match Impl.new sampleLoad sampleScene with
  | some s => s
  | none => emptyImpl sampleScene

/-! ## Update or full rebuild of the top-level structure -/

/-- Modelled from the spec: what an object of class `TopLevelAccelerationStructure`
(module `DirectX.RaytracingHelpers`, which is not among the sources) keeps between
builds, namely the build flags given to its constructor and the instance count
established by the last full build. -/
structure TopLevelBuildState where
  flags : Nat
  descCount : Option Nat
deriving DecidableEq, Repr

/-- Modelled from the spec: the decision taken by `TopLevelAccelerationStructure::Build`
(module `DirectX.RaytracingHelpers`, which is not among the sources), following
"`updateOnly=true` is only valid if a prior `updateOnly=false` build established the same
instance count and build-with-update-support flag; otherwise must force a full
rebuild": the build is performed as an update when an update is asked for, the object
was created with the allow-update flag and the last full build established the
given instance count. -/
def TopLevelBuildState.performsUpdate (t : TopLevelBuildState) (instanceDescCount : Nat)
    (updateOnly : Bool) : Bool :=
  updateOnly
    && (t.flags &&& D3D12_RAYTRACING_ACCELERATION_STRUCTURE_BUILD_FLAG_ALLOW_UPDATE != 0)
    && (t.descCount == some instanceDescCount)

/-- Modelled from the spec: the state of the object after
`TopLevelAccelerationStructure::Build` (module `DirectX.RaytracingHelpers`, which is not
among the sources): an update leaves it as it is, a full rebuild, asked for or forced,
establishes the given instance count. -/
def TopLevelBuildState.Build (t : TopLevelBuildState) (instanceDescCount : Nat)
    (updateOnly : Bool) : TopLevelBuildState :=
  if t.performsUpdate instanceDescCount updateOnly then t
  else { t with descCount := some instanceDescCount }

/-- A top-level build of the log together with the way it is performed. -/
structure PerformedBuild where
  id : Nat
  instanceDescCount : Nat
  /-- The argument `updateOnly` of the call. -/
  updateOnly : Bool
  /-- Whether the build is performed as an update. -/
  update : Bool
deriving DecidableEq, Repr

/-- The states of the top-level objects after the calls of a log, from the states
`objects` before it. -/
def objectsAfter (objects : Nat → Option TopLevelBuildState) :
    List Effect → Nat → Option TopLevelBuildState
  | [] => objects
  | Effect.CreateTopLevel id flags :: rest =>
    objectsAfter (Function.update objects id (some { flags := flags, descCount := none })) rest
  | Effect.BuildTopLevel id instanceDescs updateOnly :: rest =>
    objectsAfter
      (Function.update objects id
        ((objects id).map fun t => t.Build instanceDescs.length updateOnly)) rest
  | _ :: rest => objectsAfter objects rest

/-- The top-level builds of a log on created objects, each with the way it is
performed, from the states `objects` before the log. -/
def performedBuilds (objects : Nat → Option TopLevelBuildState) :
    List Effect → List PerformedBuild
  | [] => []
  | Effect.CreateTopLevel id flags :: rest =>
    performedBuilds (Function.update objects id (some { flags := flags, descCount := none }))
      rest
  | Effect.BuildTopLevel id instanceDescs updateOnly :: rest =>
    (match objects id with
      | some t =>
        [{ id := id, instanceDescCount := instanceDescs.length, updateOnly := updateOnly,
           update := t.performsUpdate instanceDescs.length updateOnly }]
      | none => []) ++
    performedBuilds
      (Function.update objects id
        ((objects id).map fun t => t.Build instanceDescs.length updateOnly)) rest
  | _ :: rest => performedBuilds objects rest

/-! ## Progressive accumulation -/

/-- The application together with the members and settings that drive the progressive
accumulation. -/
structure AppFrame where
  app : Impl
  m_isViewChanged : Bool
  m_isMenuOpen : Bool
  /-- The setting `GraphicsSettings.Camera.DepthOfField.IsEnabled`. -/
  DepthOfField_IsEnabled : Bool
  /-- The field `m_shaderBuffers.GlobalData->GetData().AccumulatedFrameIndex` (`UINT`). -/
  AccumulatedFrameIndex : Nat
  /-- The value of `AccumulatedFrameIndex` with which each frame is rendered, in order:
  the value the constant buffer holds when the commands of the frame execute. -/
  rendered : List Nat

/-- What the input devices report during one call of `Update`. -/
structure UpdateInput where
  /-- The test `gamepadStateTracker.menu == GamepadButtonState::PRESSED`. -/
  menuPressed : Bool
  /-- The test `keyboardStateTracker.IsKeyPressed(Key::Escape)`. -/
  escapePressed : Bool
  /-- Whether `UpdateCamera` would call `Translate` or `Rotate` with a non-zero argument. -/
  cameraMoved : Bool
deriving DecidableEq, Repr

/-- What the widgets of the menu return in one frame. -/
structure MenuInput where
  /-- Whether `ImGui::Begin("Menu", &m_isMenuOpen, ...)` clears `m_isMenuOpen`. -/
  closed : Bool
  CollapsingHeader_Settings : Bool
  TreeNode_Graphics : Bool
  TreeNodeEx_Camera : Bool
  SliderFloat_VerticalFieldOfView : Bool
  TreeNodeEx_DepthOfView : Bool
  Checkbox_Enable : Bool
  DragFloat_FocusDistance : Bool
  SliderFloat_ApertureRadius : Bool
  TreeNodeEx_Raytracing : Bool
  SliderInt_MaxTraceRecursionDepth : Bool
  SliderInt_SamplesPerPixel : Bool
deriving DecidableEq, Repr

/-- The method `App::Impl::ProcessInput`: the menu toggles and, with the menu closed,
`UpdateCamera`, which sets `m_isViewChanged` when the camera moves. -/
def AppFrame.ProcessInput (input : UpdateInput) (w : AppFrame) : AppFrame :=
  let w : AppFrame := if input.menuPressed then { w with m_isMenuOpen := !w.m_isMenuOpen } else w
  let w : AppFrame := if input.escapePressed then { w with m_isMenuOpen := !w.m_isMenuOpen } else w
  if w.m_isMenuOpen then w
  else if input.cameraMoved then { w with m_isViewChanged := true }
  else w

/-- The method `App::Impl::UpdateGlobalData`. -/
def AppFrame.UpdateGlobalData (w : AppFrame) : AppFrame :=
  { w with
    AccumulatedFrameIndex :=
      if w.m_isViewChanged then 0 else (w.AccumulatedFrameIndex + 1) % 4294967296 }

/-- The method `App::Impl::Update`. -/
def AppFrame.Update (w : AppFrame) (input : UpdateInput) : AppFrame :=
  (w.ProcessInput input).UpdateGlobalData

/-- The tree node "Camera" of `App::Impl::RenderMenu`, entered when the node is open, as
far as `AccumulatedFrameIndex` and the depth-of-field switch go. -/
def AppFrame.RenderMenu_Camera (menu : MenuInput) (w : AppFrame) : AppFrame :=
  let w : AppFrame :=
    if menu.SliderFloat_VerticalFieldOfView then { w with AccumulatedFrameIndex := 0 } else w
  if menu.TreeNodeEx_DepthOfView then
    let isDepthOfFieldChanged := menu.Checkbox_Enable
    let w : AppFrame :=
      if menu.Checkbox_Enable then { w with DepthOfField_IsEnabled := !w.DepthOfField_IsEnabled }
      else w
    let isDepthOfFieldChanged :=
      if w.DepthOfField_IsEnabled then
        (isDepthOfFieldChanged || menu.DragFloat_FocusDistance) || menu.SliderFloat_ApertureRadius
      else isDepthOfFieldChanged
    if isDepthOfFieldChanged then { w with AccumulatedFrameIndex := 0 } else w
  else w

/-- The tree node "Raytracing" of `App::Impl::RenderMenu`, entered when the node is
open. -/
def AppFrame.RenderMenu_Raytracing (menu : MenuInput) (w : AppFrame) : AppFrame :=
  let w : AppFrame :=
    if menu.SliderInt_MaxTraceRecursionDepth then { w with AccumulatedFrameIndex := 0 } else w
  if menu.SliderInt_SamplesPerPixel then { w with AccumulatedFrameIndex := 0 } else w

/-- The method `App::Impl::RenderMenu` as far as `AccumulatedFrameIndex`, the
depth-of-field switch and the close button of the window go. -/
def AppFrame.RenderMenu (menu : MenuInput) (w : AppFrame) : AppFrame :=
  let w : AppFrame := if menu.closed then { w with m_isMenuOpen := false } else w
  if menu.CollapsingHeader_Settings && menu.TreeNode_Graphics then
    let w : AppFrame := if menu.TreeNodeEx_Camera then w.RenderMenu_Camera menu else w
    if menu.TreeNodeEx_Raytracing then w.RenderMenu_Raytracing menu else w
  else w

/-- The call `m_deviceResources->Present()` of `Render`: the command list is closed and
executed. `DispatchRays` has only recorded the dispatch, and the constant buffer is
written in place through `GetData()`, so the frame is rendered with the value that
`AccumulatedFrameIndex` has at this point. -/
def AppFrame.Present (w : AppFrame) : AppFrame :=
  { w with rendered := w.rendered ++ [w.AccumulatedFrameIndex] }

/-- The method `App::Impl::Render`; `PostProcess` is not modelled. -/
def AppFrame.Render (menu : MenuInput) (w : AppFrame) : Option AppFrame :=
  if w.app.frameCount = 0 then some w
  else
    match w.app.DispatchRays with
    | none => none
    | some app =>
      let w : AppFrame := { w with app := app }
      let w : AppFrame := if w.m_isMenuOpen then w.RenderMenu menu else w
      some w.Present

/-- The call `m_stepTimer.Tick([&] { Update(); })`: the step timer calls `Update` once
for each element of `updates` and counts each call in its 32-bit frame count. -/
def AppFrame.stepTimerTick (updates : List UpdateInput) (w : AppFrame) : AppFrame :=
  let w : AppFrame :=
    { w with app := { w.app with frameCount := (w.app.frameCount + updates.length) % 4294967296 } }
  updates.foldl AppFrame.Update w

/-- The method `App::Impl::Tick`: the updates, `Render`, and `m_isViewChanged = false`. -/
def AppFrame.Tick (updates : List UpdateInput) (menu : MenuInput) (w : AppFrame) :
    Option AppFrame :=
  match (w.stepTimerTick updates).Render menu with
  | none => none
  | some w => some { w with m_isViewChanged := false }

/-- Whether a widget of the node "Camera" after which `RenderMenu` assigns 0 to
`AccumulatedFrameIndex` reports a change: the vertical field of view, or the depth of
field (its switch or, while it stays on, its focus distance or aperture radius). -/
def MenuInput.restartsCamera (menu : MenuInput) (DepthOfField_IsEnabled : Bool) : Bool :=
  menu.SliderFloat_VerticalFieldOfView ||
    (menu.TreeNodeEx_DepthOfView &&
      (menu.Checkbox_Enable ||
        (DepthOfField_IsEnabled &&
          (menu.DragFloat_FocusDistance || menu.SliderFloat_ApertureRadius))))

/-- Whether a widget of the node "Raytracing" reports a change: the maximal trace
recursion depth or the samples per pixel. -/
def MenuInput.restartsRaytracing (menu : MenuInput) : Bool :=
  menu.SliderInt_MaxTraceRecursionDepth || menu.SliderInt_SamplesPerPixel

/-- Whether one of the four kinds of menu change that assign 0 to
`AccumulatedFrameIndex` is made in a rendered menu: its node must be open. -/
def MenuInput.restartsAccumulation (menu : MenuInput) (DepthOfField_IsEnabled : Bool) : Bool :=
  menu.CollapsingHeader_Settings && menu.TreeNode_Graphics &&
    ((menu.TreeNodeEx_Camera && menu.restartsCamera DepthOfField_IsEnabled) ||
      (menu.TreeNodeEx_Raytracing && menu.restartsRaytracing))

/-! ## Concrete frames used to evaluate the definitions -/

/-- The application of `sampleImpl` after its second render item has been removed from
the scene. -/
def shrunkImpl : Impl :=
  { sampleImpl with
    m_scene := { sampleImpl.m_scene with
      RenderItems :=
        [{ pModel := 0, Transform := XMMATRIX.value 100, IsVisible := true },
         { pModel := 0, Transform := XMMATRIX.value 102, IsVisible := false }] } }

/-- No widget of the menu touched. -/
def idleMenu : MenuInput :=
  { closed := false, CollapsingHeader_Settings := true, TreeNode_Graphics := true,
    TreeNodeEx_Camera := true, SliderFloat_VerticalFieldOfView := false,
    TreeNodeEx_DepthOfView := true, Checkbox_Enable := false, DragFloat_FocusDistance := false,
    SliderFloat_ApertureRadius := false, TreeNodeEx_Raytracing := true,
    SliderInt_MaxTraceRecursionDepth := false, SliderInt_SamplesPerPixel := false }

/-- The slider "Samples Per Pixel" moved, no other widget touched. -/
def samplesPerPixelMenu : MenuInput := { idleMenu with SliderInt_SamplesPerPixel := true }

/-- An update during which no button is pressed and the camera does not move. -/
def idleUpdate : UpdateInput :=
  { menuPressed := false, escapePressed := false, cameraMoved := false }

/-- An update during which the camera moves. -/
def movingUpdate : UpdateInput := { idleUpdate with cameraMoved := true }

/-- The application over `sampleScene` after seven frames of accumulation, with the menu
open. -/
def accumulatingFrame : AppFrame :=
  { app := { sampleImpl with frameCount := 8 }
    m_isViewChanged := false
    m_isMenuOpen := true
    DepthOfField_IsEnabled := false
    AccumulatedFrameIndex := 7
    rendered := [0, 1, 2, 3, 4, 5, 6, 7] }

end PhysicallyBasedRaytracer

/-!
Input events of the user interface.

The function `ImGuiEx::FindLatestInputEvent` of `src/Source/ImGuiEx.h`, which searches
the queue of input events of a Dear ImGui context from its end.
-/

namespace ImGuiEx

/-- The enumeration `ImGuiInputEventType` of Dear ImGui. -/
inductive ImGuiInputEventType where
  | ImGuiInputEventType_None
  | ImGuiInputEventType_MousePos
  | ImGuiInputEventType_MouseWheel
  | ImGuiInputEventType_MouseButton
  | ImGuiInputEventType_Key
  | ImGuiInputEventType_Text
  | ImGuiInputEventType_Focus
deriving DecidableEq, Repr

/-- The members of `ImGuiInputEvent` read by `FindLatestInputEvent`: the type and the
members `Key.Key` and `MouseButton.Button` of the union, as `int` values. -/
structure ImGuiInputEvent where
  /-- The member `Type`. -/
  Type_ : ImGuiInputEventType
  Key_Key : Int
  MouseButton_Button : Int
deriving DecidableEq, Repr

/-- The condition of the `if` statement in the loop of `FindLatestInputEvent`. -/
def ImGuiInputEvent.isLatestCandidate (e : ImGuiInputEvent) (type : ImGuiInputEventType)
    (arg : Int) : Bool :=
  decide (e.Type_ = type)
    && (decide (type ≠ ImGuiInputEventType.ImGuiInputEventType_Key) || decide (e.Key_Key = arg))
    && (decide (type ≠ ImGuiInputEventType.ImGuiInputEventType_MouseButton)
      || decide (e.MouseButton_Button = arg))

/-- The loop of `FindLatestInputEvent` from the counter `i = n - 1` downwards (the loop
ends when `i` becomes negative, that is when `n` is 0): the index of the event whose
address is returned, `none` for `nullptr`. -/
def FindLatestInputEvent.loop (InputEventsQueue : List ImGuiInputEvent)
    (type : ImGuiInputEventType) (arg : Int) : Nat → Option Nat
  | 0 => none
  | i + 1 =>
    match InputEventsQueue[i]? with
    | some e =>
      if e.isLatestCandidate type arg then some i
      else FindLatestInputEvent.loop InputEventsQueue type arg i
    | none => FindLatestInputEvent.loop InputEventsQueue type arg i

/-- The function `ImGuiEx::FindLatestInputEvent`, the context being given by its
`InputEventsQueue`; the counter starts at `Size - 1`; `arg` defaults to -1 in the
source. -/
def FindLatestInputEvent (InputEventsQueue : List ImGuiInputEvent)
    (type : ImGuiInputEventType) (arg : Int) : Option Nat :=
  FindLatestInputEvent.loop InputEventsQueue type arg InputEventsQueue.length

/-- A queue with two mouse moves around a key event and a mouse click. -/
def sampleQueue : List ImGuiInputEvent :=
  [{ Type_ := ImGuiInputEventType.ImGuiInputEventType_MousePos, Key_Key := 0,
     MouseButton_Button := 0 },
   { Type_ := ImGuiInputEventType.ImGuiInputEventType_Key, Key_Key := 65,
     MouseButton_Button := 0 },
   { Type_ := ImGuiInputEventType.ImGuiInputEventType_MousePos, Key_Key := 0,
     MouseButton_Button := 0 },
   { Type_ := ImGuiInputEventType.ImGuiInputEventType_MouseButton, Key_Key := 0,
     MouseButton_Button := 1 }]

end ImGuiEx

namespace App

/-! ## Auxiliary lemmas -/

theorem toUINT_of_LONG_nonneg (v : Int) (h0 : 0 ≤ v) (h1 : v < 2147483648) :
    (toUINT v : Int) = v := by
  unfold toUINT
  omega

theorem OnRenderSizeChanged_renderSize (s : Impl) :
    s.OnRenderSizeChanged.m_renderSize = s.m_renderSize := rfl

theorem SelectSuperResolutionMode_ne_Auto (Mode : SuperResolutionMode) (outputSize : SIZE) :
    SelectSuperResolutionMode Mode outputSize ≠ SuperResolutionMode.Auto := by
  unfold SelectSuperResolutionMode
  by_cases h : Mode = SuperResolutionMode.Auto
  · simp only [h, ne_eq, not_true_eq_false, if_false]
    split_ifs <;> simp
  · simp [h]

theorem toDLSSMode_of_ne_Auto (m : SuperResolutionMode) (h : m ≠ SuperResolutionMode.Auto) :
    ∃ d, toDLSSMode m = some d := by
  cases m
  · exact absurd rfl h
  all_goals exact ⟨_, rfl⟩

theorem toFSRMode_of_ne_Auto (m : SuperResolutionMode) (h : m ≠ SuperResolutionMode.Auto) :
    ∃ d, toFSRMode m = some d := by
  cases m
  · exact absurd rfl h
  all_goals exact ⟨_, rfl⟩

/-- The negotiation never takes the `default: throw` branch. -/
theorem SetSuperResolutionOptions_returns (svc : Services) (s : Impl) :
    ∃ s', s.SetSuperResolutionOptions svc = some s' := by
  have hne := SelectSuperResolutionMode_ne_Auto s.Mode s.outputSize
  obtain ⟨d, hd⟩ := toDLSSMode_of_ne_Auto _ hne
  obtain ⟨f, hf⟩ := toFSRMode_of_ne_Auto _ hne
  unfold Impl.SetSuperResolutionOptions
  cases hU : s.Upscaler
  · exact ⟨_, rfl⟩
  · simp only [hd]
    exact ⟨_, rfl⟩
  · simp only [hf]
    cases f
    · exact ⟨_, rfl⟩
    · exact ⟨_, rfl⟩

/-- What every returning call of the negotiation leaves behind: the output size and
the render-texture table are untouched, the three reset requests are set, the
sample-count expression and the RTXDI resources are rebuilt from the render size. -/
theorem SetSuperResolutionOptions_frame (svc : Services) (s s' : Impl)
    (h : s.SetSuperResolutionOptions svc = some s') :
    s'.outputSize = s.outputSize ∧
    s'.m_renderTextures = s.m_renderTextures ∧
    (s'.m_slConstants_reset = true ∧
      s'.m_NRDCommonSettings_accumulationMode = AccumulationMode.CLEAR_AND_RESTART ∧
      s'.m_FSRSettings.Reset = true) ∧
    s'.m_haltonSamplePattern = some
      { numeratorX := s.outputSize.cx, denominatorX := s'.m_renderSize.x,
        numeratorY := s.outputSize.cy, denominatorY := s'.m_renderSize.y } ∧
    s'.m_RTXDIResources =
      { ReSTIRDIContext := some s'.m_renderSize
        NeighborOffsets := some s.nextId
        DIReservoir := some (s.nextId + 1) } ∧
    s'.nextId = s.nextId + 2 := by
  unfold Impl.SetSuperResolutionOptions at h
  split at h
  · cases h
    exact ⟨rfl, rfl, ⟨rfl, rfl, rfl⟩, rfl, rfl, rfl⟩
  · dsimp only at h
    split at h
    · cases h
    · cases h
      exact ⟨rfl, rfl, ⟨rfl, rfl, rfl⟩, rfl, rfl, rfl⟩
  · dsimp only at h
    split at h
    · cases h
    · cases h
      exact ⟨rfl, rfl, ⟨rfl, rfl, rfl⟩, rfl, rfl, rfl⟩
    · cases h
      exact ⟨rfl, rfl, ⟨rfl, rfl, rfl⟩, rfl, rfl, rfl⟩

theorem historyPartner_involutive (name : RenderTextureNames) :
    historyPartner (historyPartner name) = name := by
  cases name <;> rfl

theorem historyPartner_mem (name : RenderTextureNames) :
    historyPartner name ∈ historyNames ↔ name ∈ historyNames := by
  cases name <;> simp [historyPartner, historyNames]

/-- When the eight history keys are present the swap block runs to its end, and the
new table is the old one read through `historyPartner`. -/
theorem Render_historySwap_eq (t : RenderTextures)
    (h : ∀ name ∈ historyNames, (t name).isSome = true) :
    Render_historySwap t = Except.ok (fun name => t (historyPartner name)) := by
  obtain ⟨a1, h1⟩ := Option.isSome_iff_exists.mp
    (h RenderTextureNames.PreviousLinearDepth (by simp [historyNames]))
  obtain ⟨a2, h2⟩ := Option.isSome_iff_exists.mp
    (h RenderTextureNames.LinearDepth (by simp [historyNames]))
  obtain ⟨a3, h3⟩ := Option.isSome_iff_exists.mp
    (h RenderTextureNames.PreviousBaseColorMetalness (by simp [historyNames]))
  obtain ⟨a4, h4⟩ := Option.isSome_iff_exists.mp
    (h RenderTextureNames.BaseColorMetalness (by simp [historyNames]))
  obtain ⟨a5, h5⟩ := Option.isSome_iff_exists.mp
    (h RenderTextureNames.PreviousNormalRoughness (by simp [historyNames]))
  obtain ⟨a6, h6⟩ := Option.isSome_iff_exists.mp
    (h RenderTextureNames.NormalRoughness (by simp [historyNames]))
  obtain ⟨a7, h7⟩ := Option.isSome_iff_exists.mp
    (h RenderTextureNames.PreviousGeometricNormals (by simp [historyNames]))
  obtain ⟨a8, h8⟩ := Option.isSome_iff_exists.mp
    (h RenderTextureNames.GeometricNormals (by simp [historyNames]))
  simp only [Render_historySwap, swapAt, Function.update, h1, h2, h3, h4, h5, h6, h7, h8,
    bind, Except.bind, eq_rec_constant, dite_eq_ite, reduceCtorEq, if_false,
    if_true, Except.ok.injEq]
  funext name
  cases name <;> simp [historyPartner, h1, h2, h3, h4, h5, h6, h7, h8]

/-- Running the swap block on the table it left behind, whether it ended or threw,
gives back the table it started from. -/
theorem Render_historySwap_twice (t : RenderTextures) :
    tableAfter (Render_historySwap (tableAfter (Render_historySwap t))) = t := by
  cases h1 : t RenderTextureNames.PreviousLinearDepth <;>
    cases h2 : t RenderTextureNames.LinearDepth <;>
    try (simp only [Render_historySwap, swapAt, bind, Except.bind, tableAfter, h1, h2])
  cases h3 : t RenderTextureNames.PreviousBaseColorMetalness <;>
    cases h4 : t RenderTextureNames.BaseColorMetalness <;>
    try (simp only [Render_historySwap, swapAt, bind, Except.bind, tableAfter, Function.update,
      h1, h2, h3, h4, eq_rec_constant, dite_eq_ite, reduceCtorEq, if_false, if_true];
         funext name; cases name <;> simp [*])
  cases h5 : t RenderTextureNames.PreviousNormalRoughness <;>
    cases h6 : t RenderTextureNames.NormalRoughness <;>
    try (simp only [Render_historySwap, swapAt, bind, Except.bind, tableAfter, Function.update,
      h1, h2, h3, h4, h5, h6, eq_rec_constant, dite_eq_ite, reduceCtorEq, if_false, if_true];
         funext name; cases name <;> simp [*])
  cases h7 : t RenderTextureNames.PreviousGeometricNormals <;>
    cases h8 : t RenderTextureNames.GeometricNormals <;>
    (simp only [Render_historySwap, swapAt, bind, Except.bind, tableAfter, Function.update,
      h1, h2, h3, h4, h5, h6, h7, h8, eq_rec_constant, dite_eq_ite, reduceCtorEq, if_false,
      if_true];
     funext name; cases name <;> simp [*])

theorem SelectSuperResolutionUpscaler_renderTextures (svc : Services) (s : Impl) :
    (s.SelectSuperResolutionUpscaler svc).m_renderTextures = s.m_renderTextures := by
  unfold Impl.SelectSuperResolutionUpscaler
  split <;> (try split) <;> rfl

/-- The table left by `CreateWindowSizeDependentResources` agrees, away from the five
keys created only when NRD is available, with the table after the first thirteen
creations. -/
theorem CreateWindowSizeDependentResources_renderTextures (svc : Services) (s : Impl) :
    ∃ s', s.CreateWindowSizeDependentResources svc = some s' ∧
      ∀ name, name ≠ RenderTextureNames.NoisyDiffuse → name ≠ RenderTextureNames.NoisySpecular →
        name ≠ RenderTextureNames.DenoisedDiffuse → name ≠ RenderTextureNames.DenoisedSpecular →
        name ≠ RenderTextureNames.Validation →
        s'.m_renderTextures name = (s.CreateGBufferTextures svc).m_renderTextures name := by
  unfold Impl.CreateWindowSizeDependentResources
  dsimp only
  obtain ⟨s', hs'⟩ := SetSuperResolutionOptions_returns svc
    (Impl.SelectSuperResolutionUpscaler svc
      { (if svc.IsNRDAvailable = true then
          Impl.CreateNRDTextures
            { s.CreateGBufferTextures svc with
              log := (s.CreateGBufferTextures svc).log ++
                [Effect.CreateNRD (toUINT16 s.outputSize.cx) (toUINT16 s.outputSize.cy)] }
        else
          { s.CreateGBufferTextures svc with
            log := (s.CreateGBufferTextures svc).log ++
              [Effect.CreateNRD (toUINT16 s.outputSize.cx) (toUINT16 s.outputSize.cy)] }) with
        log := (if svc.IsNRDAvailable = true then
          Impl.CreateNRDTextures
            { s.CreateGBufferTextures svc with
              log := (s.CreateGBufferTextures svc).log ++
                [Effect.CreateNRD (toUINT16 s.outputSize.cx) (toUINT16 s.outputSize.cy)] }
        else
          { s.CreateGBufferTextures svc with
            log := (s.CreateGBufferTextures svc).log ++
              [Effect.CreateNRD (toUINT16 s.outputSize.cx) (toUINT16 s.outputSize.cy)] }).log ++
          [Effect.CreateFSR (toUINT s.outputSize.cx) (toUINT s.outputSize.cy)] })
  refine ⟨s', hs', ?_⟩
  intro name n1 n2 n3 n4 n5
  rw [(SetSuperResolutionOptions_frame svc _ s' hs').2.1,
    SelectSuperResolutionUpscaler_renderTextures]
  cases svc.IsNRDAvailable
  · rfl
  · simp [Impl.CreateNRDTextures, Impl.CreateTexture, Function.update, n1, n2, n3, n4, n5]

/-! ## Theorems on the resolution negotiation -/

/-- C1: for every output size (both axes within the non-negative `LONG` range), when
the upscaler is None, or it is FSR and the quality mode resolves to Native,
`SetSuperResolutionOptions` returns and the render size equals the output size on
both axes. -/
theorem C1_renderSize_eq_outputSize (svc : Services) (s : Impl)
    (hx : 0 ≤ s.outputSize.cx ∧ s.outputSize.cx < 2147483648)
    (hy : 0 ≤ s.outputSize.cy ∧ s.outputSize.cy < 2147483648)
    (h : s.Upscaler = Upscaler.None ∨
      (s.Upscaler = Upscaler.FSR ∧
        SelectSuperResolutionMode s.Mode s.outputSize = SuperResolutionMode.Native)) :
    ∃ s', s.SetSuperResolutionOptions svc = some s' ∧
      (s'.m_renderSize.x : Int) = s.outputSize.cx ∧
      (s'.m_renderSize.y : Int) = s.outputSize.cy := by
  have hsize : ((s.setRenderSizeToOutputSize.OnRenderSizeChanged.m_renderSize.x : Int)
        = s.outputSize.cx) ∧
      ((s.setRenderSizeToOutputSize.OnRenderSizeChanged.m_renderSize.y : Int)
        = s.outputSize.cy) :=
    ⟨toUINT_of_LONG_nonneg _ hx.1 hx.2, toUINT_of_LONG_nonneg _ hy.1 hy.2⟩
  rcases h with h | ⟨h, hmode⟩
  · exact ⟨_, by simp [Impl.SetSuperResolutionOptions, h], hsize⟩
  · exact ⟨_, by simp [Impl.SetSuperResolutionOptions, h, hmode, toFSRMode], hsize⟩

/-- Evaluation of C1 at output 1920x1080 with upscaler None: the render size is 1920x1080. -/
theorem C1_renderSize_eq_outputSize_witness :
    ∃ s', (freshImpl Upscaler.None SuperResolutionMode.Auto).SetSuperResolutionOptions
        twoThirdsServices = some s' ∧
      (s'.m_renderSize.x : Int) = 1920 ∧ (s'.m_renderSize.y : Int) = 1080 :=
  C1_renderSize_eq_outputSize twoThirdsServices (freshImpl Upscaler.None SuperResolutionMode.Auto)
    (by decide) (by decide) (Or.inl rfl)

/-- C2: with the quality mode Auto, `SelectSuperResolutionMode` resolves to Native when
the smaller output dimension is at most 720, to Quality when it is in (720, 1440],
to Performance when it is in (1440, 2160], and to UltraPerformance above; every
non-Auto mode is returned unchanged. -/
theorem C2_SelectSuperResolutionMode_buckets (Mode : SuperResolutionMode) (outputSize : SIZE) :
    (Mode = SuperResolutionMode.Auto → min outputSize.cx outputSize.cy ≤ 720 →
      SelectSuperResolutionMode Mode outputSize = SuperResolutionMode.Native) ∧
    (Mode = SuperResolutionMode.Auto →
      720 < min outputSize.cx outputSize.cy → min outputSize.cx outputSize.cy ≤ 1440 →
      SelectSuperResolutionMode Mode outputSize = SuperResolutionMode.Quality) ∧
    (Mode = SuperResolutionMode.Auto →
      1440 < min outputSize.cx outputSize.cy → min outputSize.cx outputSize.cy ≤ 2160 →
      SelectSuperResolutionMode Mode outputSize = SuperResolutionMode.Performance) ∧
    (Mode = SuperResolutionMode.Auto → 2160 < min outputSize.cx outputSize.cy →
      SelectSuperResolutionMode Mode outputSize = SuperResolutionMode.UltraPerformance) ∧
    (Mode ≠ SuperResolutionMode.Auto → SelectSuperResolutionMode Mode outputSize = Mode) := by
  refine ⟨?_, ?_, ?_, ?_, ?_⟩
  · intro hm h
    simp [SelectSuperResolutionMode, hm, h]
  · intro hm h1 h2
    have : ¬ min outputSize.cx outputSize.cy ≤ 720 := by omega
    simp [SelectSuperResolutionMode, hm, this, h2]
  · intro hm h1 h2
    have a : ¬ min outputSize.cx outputSize.cy ≤ 720 := by omega
    have b : ¬ min outputSize.cx outputSize.cy ≤ 1440 := by omega
    simp [SelectSuperResolutionMode, hm, a, b, h2]
  · intro hm h1
    have a : ¬ min outputSize.cx outputSize.cy ≤ 720 := by omega
    have b : ¬ min outputSize.cx outputSize.cy ≤ 1440 := by omega
    have c : ¬ min outputSize.cx outputSize.cy ≤ 2160 := by omega
    simp [SelectSuperResolutionMode, hm, a, b, c]
  · intro hm
    simp [SelectSuperResolutionMode, hm]

/-- Evaluation of C2 at output 1920x1080 (smaller dimension 1080): Auto resolves to Quality. -/
theorem C2_SelectSuperResolutionMode_buckets_witness :
    SelectSuperResolutionMode SuperResolutionMode.Auto { cx := 1920, cy := 1080 }
      = SuperResolutionMode.Quality :=
  (C2_SelectSuperResolutionMode_buckets SuperResolutionMode.Auto { cx := 1920, cy := 1080 }).2.1
    rfl (by decide) (by decide)

/-- C3 (as stated, refuted): with upscaler DLSS and a service that answers 3840x2160
for a 1920x1080 output, the negotiated render size is 3840x2160, which exceeds the
output size on both axes. -/
theorem C3_renderSize_le_outputSize_counterexample :
    ∃ s', (freshImpl Upscaler.DLSS SuperResolutionMode.Quality).SetSuperResolutionOptions
        oversizeServices = some s' ∧
      (freshImpl Upscaler.DLSS SuperResolutionMode.Quality).outputSize = { cx := 1920, cy := 1080 } ∧
      s'.m_renderSize = { x := 3840, y := 2160 } ∧
      ¬ ((s'.m_renderSize.x : Int) ≤
          (freshImpl Upscaler.DLSS SuperResolutionMode.Quality).outputSize.cx) ∧
      ¬ ((s'.m_renderSize.y : Int) ≤
          (freshImpl Upscaler.DLSS SuperResolutionMode.Quality).outputSize.cy) :=
  ⟨_, rfl, rfl, rfl, by decide, by decide⟩

/-- C3 (amended): for every upscaler and quality mode and every output size within the
non-negative `LONG` range, if the DLSS query answers a size within the output size
it was asked about and the FSR query succeeds with such a size, then
`SetSuperResolutionOptions` returns and the render size is at most the output size
on both axes. -/
theorem C3_renderSize_le_outputSize_of_bounded_services (svc : Services) (s : Impl)
    (hx : 0 ≤ s.outputSize.cx ∧ s.outputSize.cx < 2147483648)
    (hy : 0 ≤ s.outputSize.cy ∧ s.outputSize.cy < 2147483648)
    (hDLSS : ∀ options, (svc.slDLSSGetOptimalSettings options).1 ≤ options.outputWidth ∧
      (svc.slDLSSGetOptimalSettings options).2 ≤ options.outputHeight)
    (hFSR : ∀ displayWidth displayHeight mode, ∃ r,
      svc.ffxFsr2GetRenderResolutionFromQualityMode displayWidth displayHeight mode = some r ∧
      r.1 ≤ displayWidth ∧ r.2 ≤ displayHeight) :
    ∃ s', s.SetSuperResolutionOptions svc = some s' ∧
      (s'.m_renderSize.x : Int) ≤ s.outputSize.cx ∧
      (s'.m_renderSize.y : Int) ≤ s.outputSize.cy := by
  have hX := toUINT_of_LONG_nonneg _ hx.1 hx.2
  have hY := toUINT_of_LONG_nonneg _ hy.1 hy.2
  obtain ⟨s', hs'⟩ := SetSuperResolutionOptions_returns svc s
  refine ⟨s', hs', ?_⟩
  unfold Impl.SetSuperResolutionOptions at hs'
  split at hs'
  · cases hs'
    exact ⟨le_of_eq hX, le_of_eq hY⟩
  · dsimp only at hs'
    split at hs'
    · cases hs'
    · cases hs'
      rename_i mode _
      have hb := hDLSS
        { mode := mode, outputWidth := toUINT s.outputSize.cx,
          outputHeight := toUINT s.outputSize.cy }
      simp only [OnRenderSizeChanged_renderSize]
      have h1 : (svc.slDLSSGetOptimalSettings
          { mode := mode, outputWidth := toUINT s.outputSize.cx,
            outputHeight := toUINT s.outputSize.cy }).1 ≤ toUINT s.outputSize.cx := hb.1
      have h2 : (svc.slDLSSGetOptimalSettings
          { mode := mode, outputWidth := toUINT s.outputSize.cx,
            outputHeight := toUINT s.outputSize.cy }).2 ≤ toUINT s.outputSize.cy := hb.2
      constructor
      · omega
      · omega
  · dsimp only at hs'
    split at hs'
    · cases hs'
    · cases hs'
      exact ⟨le_of_eq hX, le_of_eq hY⟩
    · cases hs'
      rename_i mode _
      obtain ⟨r, hr, hr1, hr2⟩ := hFSR (toUINT s.outputSize.cx) (toUINT s.outputSize.cy) mode
      simp only [OnRenderSizeChanged_renderSize, hr]
      constructor
      · show ((r.1 : Nat) : Int) ≤ _
        omega
      · show ((r.2 : Nat) : Int) ≤ _
        omega

/-- Evaluation of the amended C3 with the two-thirds services: DLSS in Auto mode on a
1920x1080 output negotiates a render size within 1920x1080. -/
theorem C3_renderSize_le_outputSize_of_bounded_services_witness :
    ∃ s', (freshImpl Upscaler.DLSS SuperResolutionMode.Auto).SetSuperResolutionOptions
        twoThirdsServices = some s' ∧
      (s'.m_renderSize.x : Int) ≤ 1920 ∧ (s'.m_renderSize.y : Int) ≤ 1080 :=
  C3_renderSize_le_outputSize_of_bounded_services twoThirdsServices
    (freshImpl Upscaler.DLSS SuperResolutionMode.Auto) (by decide) (by decide)
    (fun options => ⟨Nat.div_le_of_le_mul (by omega), Nat.div_le_of_le_mul (by omega)⟩)
    (fun displayWidth displayHeight _ => ⟨_, rfl,
      Nat.div_le_of_le_mul (by omega), Nat.div_le_of_le_mul (by omega)⟩)

/-- C4 (as stated, refuted): two negotiations in a row on a 1920x1080 output with
upscaler None give the same render size, yet the second call again creates the
ReSTIR DI context, the neighbor offsets and a DI reservoir with a new identity. -/
theorem C4_negotiation_idempotent_counterexample :
    ∃ s1 s2,
      (freshImpl Upscaler.None SuperResolutionMode.Auto).SetSuperResolutionOptions
        twoThirdsServices = some s1 ∧
      s1.SetSuperResolutionOptions twoThirdsServices = some s2 ∧
      s2.m_renderSize = s1.m_renderSize ∧
      s2.log = s1.log ++ [Effect.CreateReSTIRDIContext 1920 1080, Effect.CreateNeighborOffsets,
        Effect.CreateDIReservoir] ∧
      s1.m_RTXDIResources.DIReservoir = some 1 ∧ s2.m_RTXDIResources.DIReservoir = some 3 :=
  ⟨_, _, rfl, rfl, rfl, rfl, rfl, rfl⟩

/-- C4 (amended): after a negotiation that returned, a second negotiation with the same
output size, upscaler, quality mode and services returns with the same render
size and the same sample-count operands and leaves the render-texture table
untouched; like every call it sets the three reset requests and creates the
ReSTIR DI context, the neighbor offsets and the DI reservoir anew. -/
theorem C4_renegotiation_same_renderSize (svc : Services) (s s1 : Impl)
    (h : s.SetSuperResolutionOptions svc = some s1) :
    ∃ s2, s1.SetSuperResolutionOptions svc = some s2 ∧
      s2.m_renderSize = s1.m_renderSize ∧
      s2.m_haltonSamplePattern = s1.m_haltonSamplePattern ∧
      s2.m_renderTextures = s1.m_renderTextures ∧
      (s2.m_slConstants_reset = true ∧
        s2.m_NRDCommonSettings_accumulationMode = AccumulationMode.CLEAR_AND_RESTART ∧
        s2.m_FSRSettings.Reset = true) ∧
      (∃ pre, s2.log = s1.log ++ pre ++
        [Effect.CreateReSTIRDIContext s1.m_renderSize.x s1.m_renderSize.y,
         Effect.CreateNeighborOffsets, Effect.CreateDIReservoir]) ∧
      s2.m_RTXDIResources.NeighborOffsets = some s1.nextId ∧
      s2.m_RTXDIResources.DIReservoir = some (s1.nextId + 1) := by
  obtain ⟨s2, h2⟩ := SetSuperResolutionOptions_returns svc s1
  obtain ⟨ho1, -, -, hp1, -, -⟩ := SetSuperResolutionOptions_frame svc s s1 h
  obtain ⟨ho2, ht2, hr2, hp2, hx2, -⟩ := SetSuperResolutionOptions_frame svc s1 s2 h2
  have hsize : s2.m_renderSize = s1.m_renderSize := by
    unfold Impl.SetSuperResolutionOptions at h h2
    split at h
    · rename_i hU
      cases h
      simp [Impl.OnRenderSizeChanged, Impl.setRenderSizeToOutputSize,
        Impl.ResetTemporalAccumulation, hU] at h2
      subst h2
      rfl
    · rename_i hU
      dsimp only at h
      split at h
      · cases h
      · rename_i mode hmode
        cases h
        simp [Impl.OnRenderSizeChanged, Impl.setRenderSizeToOutputSize,
          Impl.ResetTemporalAccumulation, hU, hmode] at h2
        subst h2
        rfl
    · rename_i hU
      dsimp only at h
      split at h
      · cases h
      · rename_i hmode
        cases h
        simp [Impl.OnRenderSizeChanged, Impl.setRenderSizeToOutputSize,
          Impl.ResetTemporalAccumulation, hU, hmode] at h2
        subst h2
        rfl
      · rename_i mode hmode
        cases h
        simp [Impl.OnRenderSizeChanged, Impl.setRenderSizeToOutputSize,
          Impl.ResetTemporalAccumulation, hU, hmode] at h2
        subst h2
        cases hq : svc.ffxFsr2GetRenderResolutionFromQualityMode
          (toUINT s.outputSize.cx) (toUINT s.outputSize.cy) mode <;>
          simp [Impl.OnRenderSizeChanged, Impl.ResetTemporalAccumulation, hq]
  have hlog : ∃ pre, s2.log = s1.log ++ pre ++
      [Effect.CreateReSTIRDIContext s1.m_renderSize.x s1.m_renderSize.y,
       Effect.CreateNeighborOffsets, Effect.CreateDIReservoir] := by
    rw [← hsize]
    unfold Impl.SetSuperResolutionOptions at h2
    split at h2
    · cases h2
      exact ⟨[], by simp [Impl.OnRenderSizeChanged, Impl.setRenderSizeToOutputSize,
        Impl.ResetTemporalAccumulation]⟩
    · dsimp only at h2
      split at h2
      · cases h2
      · cases h2
        exact ⟨_, rfl⟩
    · dsimp only at h2
      split at h2
      · cases h2
      · cases h2
        exact ⟨[], by simp [Impl.OnRenderSizeChanged, Impl.setRenderSizeToOutputSize,
          Impl.ResetTemporalAccumulation]⟩
      · cases h2
        exact ⟨[], by simp [Impl.OnRenderSizeChanged, Impl.ResetTemporalAccumulation]⟩
  refine ⟨s2, h2, hsize, ?_, ht2, hr2, hlog, ?_, ?_⟩
  · rw [hp2, hp1, hsize, ho1]
  · rw [hx2]
  · rw [hx2]

/-- Evaluation of the amended C4 on the fresh 1920x1080 application with DLSS in Auto
mode: the second negotiation returns with the render size of the first. -/
theorem C4_renegotiation_same_renderSize_witness :
    ∃ s1, (freshImpl Upscaler.DLSS SuperResolutionMode.Auto).SetSuperResolutionOptions
        twoThirdsServices = some s1 ∧
      s1.m_renderSize = { x := 1280, y := 720 } ∧
      ∃ s2, s1.SetSuperResolutionOptions twoThirdsServices = some s2 ∧
        s2.m_renderSize = s1.m_renderSize :=
  ⟨_, rfl, rfl,
    (C4_renegotiation_same_renderSize twoThirdsServices
      (freshImpl Upscaler.DLSS SuperResolutionMode.Auto) _ rfl).imp fun _ hs => ⟨hs.1, hs.2.1⟩⟩

/-- C5 (as stated, refuted): for the output size 0x1080 with upscaler None the
negotiation returns instead of rejecting, the render size is 0x1080, and the
ratio of `OnRenderSizeChanged` is formed with the denominator 0 on the x axis. -/
theorem C5_zero_output_rejected_counterexample :
    ∃ s', zeroWidthImpl.SetSuperResolutionOptions twoThirdsServices = some s' ∧
      zeroWidthImpl.outputSize = { cx := 0, cy := 1080 } ∧
      s'.m_renderSize = { x := 0, y := 1080 } ∧
      s'.m_haltonSamplePattern = some
        { numeratorX := 0, denominatorX := 0, numeratorY := 1080, denominatorY := 1080 } ∧
      s'.m_haltonSamplePattern.map SampleCountExpr.dividesByZero = some true :=
  ⟨_, rfl, rfl, rfl, rfl, rfl⟩

/-- C5 (amended): the negotiation has no rejection path: for every output size
`SetSuperResolutionOptions` returns, and the ratio of `OnRenderSizeChanged` takes the
output size as numerators and the negotiated render size as denominators; when the
output size is positive on both axes (within the `LONG` range) and the upscaler
is None, or FSR with the mode resolving to Native, neither denominator is zero. -/
theorem C5_negotiation_returns_and_denominators (svc : Services) (s : Impl) :
    ∃ s' e, s.SetSuperResolutionOptions svc = some s' ∧
      s'.m_haltonSamplePattern = some e ∧
      e.numeratorX = s.outputSize.cx ∧ e.numeratorY = s.outputSize.cy ∧
      e.denominatorX = s'.m_renderSize.x ∧ e.denominatorY = s'.m_renderSize.y ∧
      ((0 < s.outputSize.cx ∧ s.outputSize.cx < 2147483648) →
        (0 < s.outputSize.cy ∧ s.outputSize.cy < 2147483648) →
        (s.Upscaler = Upscaler.None ∨
          (s.Upscaler = Upscaler.FSR ∧
            SelectSuperResolutionMode s.Mode s.outputSize = SuperResolutionMode.Native)) →
        e.dividesByZero = false) := by
  obtain ⟨s', hs'⟩ := SetSuperResolutionOptions_returns svc s
  obtain ⟨-, -, -, hp, -, -⟩ := SetSuperResolutionOptions_frame svc s s' hs'
  refine ⟨s', _, hs', hp, rfl, rfl, rfl, rfl, ?_⟩
  intro hx hy hU
  have hsize : (s'.m_renderSize.x : Int) = s.outputSize.cx ∧
      (s'.m_renderSize.y : Int) = s.outputSize.cy := by
    have hX := toUINT_of_LONG_nonneg _ (le_of_lt hx.1) hx.2
    have hY := toUINT_of_LONG_nonneg _ (le_of_lt hy.1) hy.2
    rcases hU with hU | ⟨hU, hmode⟩
    · simp [Impl.SetSuperResolutionOptions, hU] at hs'
      subst hs'
      exact ⟨hX, hY⟩
    · simp [Impl.SetSuperResolutionOptions, hU, hmode, toFSRMode] at hs'
      subst hs'
      exact ⟨hX, hY⟩
  have h1 : s'.m_renderSize.x ≠ 0 := by omega
  have h2 : s'.m_renderSize.y ≠ 0 := by omega
  simp [SampleCountExpr.dividesByZero, h1, h2]

/-- Evaluation of the amended C5 on the fresh 1920x1080 application with upscaler
None: the negotiation returns and no denominator of the ratio is zero. -/
theorem C5_negotiation_returns_and_denominators_witness :
    ∃ s' e, (freshImpl Upscaler.None SuperResolutionMode.Auto).SetSuperResolutionOptions
        twoThirdsServices = some s' ∧
      s'.m_haltonSamplePattern = some e ∧ e.dividesByZero = false := by
  obtain ⟨s', e, hs, he, -, -, -, -, hz⟩ :=
    C5_negotiation_returns_and_denominators twoThirdsServices
      (freshImpl Upscaler.None SuperResolutionMode.Auto)
  exact ⟨s', e, hs, he, hz (by decide) (by decide) (Or.inl rfl)⟩

/-- C6: every negotiation, and so every one that changes the render size, returns
with a temporal reset requested for each consumer: the Streamline constants have
`reset = true`, the NRD accumulation mode is `CLEAR_AND_RESTART` and the FSR
settings have `Reset = true`. -/
theorem C6_negotiation_requests_temporal_reset (svc : Services) (s : Impl) :
    ∃ s', s.SetSuperResolutionOptions svc = some s' ∧
      s'.m_slConstants_reset = true ∧
      s'.m_NRDCommonSettings_accumulationMode = AccumulationMode.CLEAR_AND_RESTART ∧
      s'.m_FSRSettings.Reset = true := by
  obtain ⟨s', hs'⟩ := SetSuperResolutionOptions_returns svc s
  exact ⟨s', hs', (SetSuperResolutionOptions_frame svc s s' hs').2.2.1⟩

/-- C7 (as stated, refuted): after the resources are created for a 1920x1080 output
with upscaler None, switching the upscaler to DLSS negotiates the render size
1280x720, yet the LinearDepth and PreviousLinearDepth entries of the render-texture
table are the very textures created before, of size 1920x1080. -/
theorem C7_textures_reallocated_counterexample :
    ∃ s1 s2,
      (freshImpl Upscaler.None SuperResolutionMode.Auto).CreateWindowSizeDependentResources
        twoThirdsServices = some s1 ∧
      s1.m_renderSize = { x := 1920, y := 1080 } ∧
      Impl.SetSuperResolutionOptions twoThirdsServices { s1 with Upscaler := Upscaler.DLSS }
        = some s2 ∧
      s2.m_renderSize = { x := 1280, y := 720 } ∧
      s2.m_renderTextures RenderTextureNames.LinearDepth
        = s1.m_renderTextures RenderTextureNames.LinearDepth ∧
      (s2.m_renderTextures RenderTextureNames.LinearDepth).map Texture.size
        = some { x := 1920, y := 1080 } ∧
      s2.m_renderTextures RenderTextureNames.PreviousLinearDepth
        = s1.m_renderTextures RenderTextureNames.PreviousLinearDepth ∧
      (s2.m_renderTextures RenderTextureNames.PreviousLinearDepth).map Texture.size
        = some { x := 1920, y := 1080 } :=
  ⟨_, _, rfl, rfl, rfl, rfl, rfl, rfl, rfl, rfl⟩

/-- C7 (amended): a negotiation never touches the render-texture table: whatever
render size it yields, every entry (history textures included) is the same texture
as before, with the size it was created with; what is created anew for the render
size is the ReSTIR DI context, with the new render width and height, together
with the neighbor offsets and the DI reservoir. -/
theorem C7_negotiation_keeps_render_textures (svc : Services) (s s' : Impl)
    (h : s.SetSuperResolutionOptions svc = some s') :
    (∀ name, s'.m_renderTextures name = s.m_renderTextures name) ∧
    s'.m_RTXDIResources.ReSTIRDIContext = some s'.m_renderSize ∧
    s'.m_RTXDIResources.NeighborOffsets = some s.nextId ∧
    s'.m_RTXDIResources.DIReservoir = some (s.nextId + 1) := by
  obtain ⟨-, ht, -, -, hx, -⟩ := SetSuperResolutionOptions_frame svc s s' h
  refine ⟨fun name => by rw [ht], ?_, ?_, ?_⟩ <;> rw [hx]

/-- Evaluation of the amended C7 after the resources are created for a 1920x1080 output
with upscaler None and the upscaler is switched to FSR in Quality mode: the render
size becomes 1280x720, every entry of the table is the texture it was before, and
the ReSTIR DI context has the size 1280x720. -/
theorem C7_negotiation_keeps_render_textures_witness :
    ∃ s1 s2,
      (freshImpl Upscaler.None SuperResolutionMode.Quality).CreateWindowSizeDependentResources
        twoThirdsServices = some s1 ∧
      Impl.SetSuperResolutionOptions twoThirdsServices { s1 with Upscaler := Upscaler.FSR }
        = some s2 ∧
      s1.m_renderSize = { x := 1920, y := 1080 } ∧
      s2.m_renderSize = { x := 1280, y := 720 } ∧
      (∀ name, s2.m_renderTextures name = s1.m_renderTextures name) ∧
      s2.m_RTXDIResources.ReSTIRDIContext = some { x := 1280, y := 720 } :=
  ⟨_, _, rfl, rfl, rfl, rfl,
    (C7_negotiation_keeps_render_textures twoThirdsServices
      { createdImpl with Upscaler := Upscaler.FSR } _ rfl).1,
    (C7_negotiation_keeps_render_textures twoThirdsServices
      { createdImpl with Upscaler := Upscaler.FSR } _ rfl).2.1⟩

/-! ## Theorems on the history textures -/

/-- C8: for every render-texture table, running the swap block of `Render` on the table
that a first run left behind gives back the original table, so every name denotes
the buffer it denoted at first; and when the table holds the eight history textures
both runs go to their end. -/
theorem C8_historySwap_involution (t : RenderTextures) :
    tableAfter (Render_historySwap (tableAfter (Render_historySwap t))) = t ∧
    ((∀ name ∈ historyNames, (t name).isSome = true) →
      ∃ t1, Render_historySwap t = Except.ok t1 ∧ Render_historySwap t1 = Except.ok t) := by
  refine ⟨Render_historySwap_twice t, fun h => ⟨_, Render_historySwap_eq t h, ?_⟩⟩
  rw [Render_historySwap_eq]
  · congr 1
    funext name
    rw [historyPartner_involutive]
  · intro name hn
    exact h _ ((historyPartner_mem name).mpr hn)

/-- Evaluation of C8 on the table created for the 1920x1080 application: both swap
blocks run to their end and two swaps give back that table. -/
theorem C8_historySwap_involution_witness :
    ∃ t1, Render_historySwap createdImpl.m_renderTextures = Except.ok t1 ∧
      Render_historySwap t1 = Except.ok createdImpl.m_renderTextures :=
  (C8_historySwap_involution createdImpl.m_renderTextures).2 (by decide)

/-- C9: for every render-texture table holding the eight history textures, one swap
block runs to its end and leaves a table with the same keys and the same set of buffers, in which the
buffers of each of the four Previous/Current pairs are exchanged and every other
key denotes the buffer it denoted before. -/
theorem C9_historySwap_relabels (t : RenderTextures)
    (h : ∀ name ∈ historyNames, (t name).isSome = true) :
    ∃ t1, Render_historySwap t = Except.ok t1 ∧
      (∀ name, (t1 name).isSome = (t name).isSome) ∧
      (∀ buffer, (∃ name, t1 name = some buffer) ↔ (∃ name, t name = some buffer)) ∧
      (t1 RenderTextureNames.PreviousLinearDepth = t RenderTextureNames.LinearDepth ∧
        t1 RenderTextureNames.LinearDepth = t RenderTextureNames.PreviousLinearDepth) ∧
      (t1 RenderTextureNames.PreviousBaseColorMetalness = t RenderTextureNames.BaseColorMetalness ∧
        t1 RenderTextureNames.BaseColorMetalness
          = t RenderTextureNames.PreviousBaseColorMetalness) ∧
      (t1 RenderTextureNames.PreviousNormalRoughness = t RenderTextureNames.NormalRoughness ∧
        t1 RenderTextureNames.NormalRoughness = t RenderTextureNames.PreviousNormalRoughness) ∧
      (t1 RenderTextureNames.PreviousGeometricNormals = t RenderTextureNames.GeometricNormals ∧
        t1 RenderTextureNames.GeometricNormals = t RenderTextureNames.PreviousGeometricNormals) ∧
      (∀ name, name ∉ historyNames → t1 name = t name) := by
  refine ⟨_, Render_historySwap_eq t h, ?_, ?_, ⟨rfl, rfl⟩, ⟨rfl, rfl⟩, ⟨rfl, rfl⟩, ⟨rfl, rfl⟩, ?_⟩
  · intro name
    by_cases hn : name ∈ historyNames
    · rw [h name hn, h _ ((historyPartner_mem name).mpr hn)]
    · have : historyPartner name = name := by
        cases name <;> first | rfl | exact absurd (by simp [historyNames]) hn
      simp only [this]
  · intro buffer
    constructor
    · rintro ⟨name, hb⟩
      exact ⟨historyPartner name, hb⟩
    · rintro ⟨name, hb⟩
      exact ⟨historyPartner name, by simpa only [historyPartner_involutive] using hb⟩
  · intro name hn
    have : historyPartner name = name := by
      cases name <;> first | rfl | exact absurd (by simp [historyNames]) hn
    simp only [this]

/-- Evaluation of C9 on the table created for the 1920x1080 application: after one swap
LinearDepth denotes the buffer created as PreviousLinearDepth (identity 2) and Color
still denotes the buffer with identity 0. -/
theorem C9_historySwap_relabels_witness :
    ∃ t1, Render_historySwap createdImpl.m_renderTextures = Except.ok t1 ∧
      (t1 RenderTextureNames.LinearDepth).map Texture.id = some 2 ∧
      (t1 RenderTextureNames.PreviousLinearDepth).map Texture.id = some 3 ∧
      (t1 RenderTextureNames.Color).map Texture.id = some 0 := by
  obtain ⟨t1, h1, -, -, hd, -, -, -, hrest⟩ :=
    C9_historySwap_relabels createdImpl.m_renderTextures (by decide)
  refine ⟨t1, h1, ?_, ?_, ?_⟩
  · rw [hd.2]
    rfl
  · rw [hd.1]
    rfl
  · rw [hrest RenderTextureNames.Color (by decide)]
    rfl

/-- C10 (evaluation of the code): for every application state and services,
`CreateWindowSizeDependentResources` returns with the PreviousBaseColorMetalness
texture in format `R16G16B16A16_FLOAT` and the BaseColorMetalness texture in format
`R8G8B8A8_UNORM`: the two textures of this history pair have the same size but not
the same pixel format. The linear depth, normal/roughness and geometric normals
pairs each have one format and one size. -/
theorem C10_BaseColorMetalness_pair_formats_differ (svc : Services) (s : Impl) :
    ∃ s' previous current, s.CreateWindowSizeDependentResources svc = some s' ∧
      s'.m_renderTextures RenderTextureNames.PreviousBaseColorMetalness = some previous ∧
      s'.m_renderTextures RenderTextureNames.BaseColorMetalness = some current ∧
      previous.format = DXGI_FORMAT.R16G16B16A16_FLOAT ∧
      current.format = DXGI_FORMAT.R8G8B8A8_UNORM ∧
      previous.format ≠ current.format ∧
      previous.size = current.size ∧
      ∀ pair ∈ [(RenderTextureNames.PreviousLinearDepth, RenderTextureNames.LinearDepth),
          (RenderTextureNames.PreviousNormalRoughness, RenderTextureNames.NormalRoughness),
          (RenderTextureNames.PreviousGeometricNormals, RenderTextureNames.GeometricNormals)],
        ∃ p c, s'.m_renderTextures pair.1 = some p ∧ s'.m_renderTextures pair.2 = some c ∧
          p.format = c.format ∧ p.size = c.size := by
  obtain ⟨s', hs', ht⟩ := CreateWindowSizeDependentResources_renderTextures svc s
  refine ⟨s', _, _, hs',
    ht RenderTextureNames.PreviousBaseColorMetalness (by decide) (by decide) (by decide)
      (by decide) (by decide),
    ht RenderTextureNames.BaseColorMetalness (by decide) (by decide) (by decide)
      (by decide) (by decide),
    rfl, rfl, ?_, rfl, ?_⟩
  · show DXGI_FORMAT.R16G16B16A16_FLOAT ≠ DXGI_FORMAT.R8G8B8A8_UNORM
    decide
  · intro pair hp
    simp only [List.mem_cons, List.mem_singleton, List.not_mem_nil, or_false] at hp
    rcases hp with rfl | rfl | rfl
    · exact ⟨_, _, ht _ (by decide) (by decide) (by decide) (by decide) (by decide),
        ht _ (by decide) (by decide) (by decide) (by decide) (by decide), rfl, rfl⟩
    · exact ⟨_, _, ht _ (by decide) (by decide) (by decide) (by decide) (by decide),
        ht _ (by decide) (by decide) (by decide) (by decide) (by decide), rfl, rfl⟩
    · exact ⟨_, _, ht _ (by decide) (by decide) (by decide) (by decide) (by decide),
        ht _ (by decide) (by decide) (by decide) (by decide) (by decide), rfl, rfl⟩

/-! ## Auxiliary lemmas on the post-processing of a frame -/

theorem IsDLSS_IsFSR_exclusive (svc : Services) (s : Impl) :
    ¬ (s.IsDLSSSuperResolutionEnabled svc = true ∧ s.IsFSRSuperResolutionEnabled svc = true) := by
  unfold Impl.IsDLSSSuperResolutionEnabled Impl.IsFSRSuperResolutionEnabled
  cases s.Upscaler <;> simp

theorem IsDLSSSuperResolutionEnabled_congr (svc : Services) (s s' : Impl)
    (h : s'.Upscaler = s.Upscaler) :
    s'.IsDLSSSuperResolutionEnabled svc = s.IsDLSSSuperResolutionEnabled svc := by
  unfold Impl.IsDLSSSuperResolutionEnabled
  rw [h]

theorem IsFSRSuperResolutionEnabled_congr (svc : Services) (s s' : Impl)
    (h : s'.Upscaler = s.Upscaler) :
    s'.IsFSRSuperResolutionEnabled svc = s.IsFSRSuperResolutionEnabled svc := by
  unfold Impl.IsFSRSuperResolutionEnabled
  rw [h]

/-- The effects of `ProcessNRD` when the textures it reads are present. -/
theorem ProcessNRD_eq (g : GraphicsSettings) (s : Impl)
    (h : ∀ name ∈ NRDTextureNames, (s.m_renderTextures name).isSome = true) :
    ∃ s' calls, s.ProcessNRD g = some s' ∧ s'.log = s.log ++ calls ∧
      s'.m_renderTextures = s.m_renderTextures ∧ s'.Upscaler = s.Upscaler ∧
      s'.m_renderSize = s.m_renderSize ∧ s'.m_FSRSettings = s.m_FSRSettings ∧
      s'.m_slConstants_reset = s.m_slConstants_reset ∧
      s'.m_NRDCommonSettings_accumulationMode = AccumulationMode.CONTINUE ∧
      calls.filterMap Effect.stage = [Stage.Denoise] ∧
      calls.filterMap Effect.pingPong = [] ∧
      (∀ e ∈ calls, e.colorRead = none) ∧
      calls.filterMap Effect.accumulationMode = [s.m_NRDCommonSettings_accumulationMode] ∧
      calls.filterMap Effect.streamlineReset = [] ∧
      calls.filterMap Effect.FSRReset = [] := by
  obtain ⟨t1, h1⟩ := Option.isSome_iff_exists.mp
    (h RenderTextureNames.LinearDepth (by simp [NRDTextureNames]))
  obtain ⟨t2, h2⟩ := Option.isSome_iff_exists.mp
    (h RenderTextureNames.BaseColorMetalness (by simp [NRDTextureNames]))
  obtain ⟨t3, h3⟩ := Option.isSome_iff_exists.mp
    (h RenderTextureNames.NormalRoughness (by simp [NRDTextureNames]))
  obtain ⟨t4, h4⟩ := Option.isSome_iff_exists.mp
    (h RenderTextureNames.DenoisedDiffuse (by simp [NRDTextureNames]))
  obtain ⟨t5, h5⟩ := Option.isSome_iff_exists.mp
    (h RenderTextureNames.DenoisedSpecular (by simp [NRDTextureNames]))
  obtain ⟨t6, h6⟩ := Option.isSome_iff_exists.mp
    (h RenderTextureNames.MotionVectors (by simp [NRDTextureNames]))
  obtain ⟨t7, h7⟩ := Option.isSome_iff_exists.mp
    (h RenderTextureNames.NoisyDiffuse (by simp [NRDTextureNames]))
  obtain ⟨t8, h8⟩ := Option.isSome_iff_exists.mp
    (h RenderTextureNames.NoisySpecular (by simp [NRDTextureNames]))
  obtain ⟨t9, h9⟩ := Option.isSome_iff_exists.mp
    (h RenderTextureNames.Validation (by simp [NRDTextureNames]))
  obtain ⟨t10, h10⟩ := Option.isSome_iff_exists.mp
    (h RenderTextureNames.EmissiveColor (by simp [NRDTextureNames]))
  obtain ⟨t11, h11⟩ := Option.isSome_iff_exists.mp
    (h RenderTextureNames.Color (by simp [NRDTextureNames]))
  refine ⟨{ s with
      log := s.log ++
        [Effect.NRDTag [t1, t6, t2, t3, t7, t8, t4, t5, t9],
         Effect.NRDSetConstants s.m_NRDCommonSettings_accumulationMode,
         Effect.NRDDenoise g.NRD_Denoiser] ++
        [Effect.DenoisedCompositionProcess t1 t2 t10 t3 t4 t5 t11]
      m_NRDCommonSettings_accumulationMode := AccumulationMode.CONTINUE },
    [Effect.NRDTag [t1, t6, t2, t3, t7, t8, t4, t5, t9],
      Effect.NRDSetConstants s.m_NRDCommonSettings_accumulationMode,
      Effect.NRDDenoise g.NRD_Denoiser,
      Effect.DenoisedCompositionProcess t1 t2 t10 t3 t4 t5 t11], ?_, ?_, ?_⟩
  · simp only [Impl.ProcessNRD, h1, h2, h3, h4, h5, h6, h7, h8, h9, h10, h11,
      Option.bind_eq_bind, Option.some_bind]
  · simp
  · refine ⟨rfl, rfl, rfl, rfl, rfl, rfl, rfl, rfl, ?_, rfl, rfl, rfl⟩
    intro e he
    simp only [List.mem_cons, List.mem_singleton, List.not_mem_nil, or_false] at he
    rcases he with rfl | rfl | rfl | rfl <;> rfl

/-- The effects of the upscaler block when the textures it reads are present. -/
theorem SuperResolution_eq (svc : Services) (q : ColorBuffers)
    (depth motionVectors color finalColor : Texture)
    (hd : q.app.m_renderTextures RenderTextureNames.NormalizedDepth = some depth)
    (hm : q.app.m_renderTextures RenderTextureNames.MotionVectors = some motionVectors)
    (hc : q.app.m_renderTextures RenderTextureNames.Color = some color)
    (hf : q.app.m_renderTextures RenderTextureNames.FinalColor = some finalColor) :
    ∃ q' calls, q.SuperResolution svc = some q' ∧ q'.app.log = q.app.log ++ calls ∧
      q'.app.m_renderTextures = q.app.m_renderTextures ∧
      q'.app.m_renderSize = q.app.m_renderSize ∧
      calls.filterMap Effect.stage =
        (if q.app.IsDLSSSuperResolutionEnabled svc = true then [Stage.DLSS]
          else if q.app.IsFSRSuperResolutionEnabled svc = true then [Stage.FSR] else []) ∧
      calls.filterMap Effect.pingPong =
        (if (q.app.IsDLSSSuperResolutionEnabled svc || q.app.IsFSRSuperResolutionEnabled svc)
            = true then [(color, finalColor)] else []) ∧
      (∀ e ∈ calls, e.colorRead = none) ∧
      q'.inColor =
        (if (q.app.IsDLSSSuperResolutionEnabled svc || q.app.IsFSRSuperResolutionEnabled svc)
          = true then q.outColor else q.inColor) ∧
      q'.outColor =
        (if (q.app.IsDLSSSuperResolutionEnabled svc || q.app.IsFSRSuperResolutionEnabled svc)
          = true then q.inColor else q.outColor) := by
  cases hD : q.app.IsDLSSSuperResolutionEnabled svc
  · cases hF : q.app.IsFSRSuperResolutionEnabled svc
    · refine ⟨q, [], ?_, by simp, rfl, rfl, rfl, rfl, by simp, rfl, rfl⟩
      simp [ColorBuffers.SuperResolution, hD, hF]
    · refine ⟨⟨{ q.app with
            log := q.app.log ++
              [Effect.FSRSetConstants
                { q.app.m_FSRSettings with RenderSize := q.app.m_renderSize }] ++
              [Effect.FSRDispatch depth motionVectors color finalColor]
            m_FSRSettings := { RenderSize := q.app.m_renderSize, Reset := false } },
          q.outColor, q.inColor⟩,
        [Effect.FSRSetConstants { q.app.m_FSRSettings with RenderSize := q.app.m_renderSize },
          Effect.FSRDispatch depth motionVectors color finalColor],
        ?_, ?_, rfl, rfl, rfl, rfl, ?_, rfl, rfl⟩
      · simp only [ColorBuffers.SuperResolution, hD, hF, Impl.ProcessFSRSuperResolution, hd, hm,
          hc, hf, Option.bind_eq_bind, Option.some_bind, Option.map_some', if_true,
          Bool.false_eq_true, if_false]
      · simp
      · intro e he
        simp only [List.mem_cons, List.mem_singleton, List.not_mem_nil, or_false] at he
        rcases he with rfl | rfl <;> rfl
  · refine ⟨⟨{ q.app with
          log := q.app.log ++
            [Effect.DLSSEvaluate depth motionVectors color finalColor q.app.m_renderSize] },
        q.outColor, q.inColor⟩,
      [Effect.DLSSEvaluate depth motionVectors color finalColor q.app.m_renderSize],
      ?_, rfl, rfl, rfl, rfl, rfl, ?_, rfl, rfl⟩
    · simp only [ColorBuffers.SuperResolution, hD, Impl.ProcessDLSSSuperResolution, hd, hm,
        hc, hf, Option.bind_eq_bind, Option.some_bind, Option.map_some', if_true]
    · intro e he
      simp only [List.mem_singleton] at he
      subst he
      rfl

/-- The effects of the sharpening block. -/
theorem NIS_eq (features : StreamlineFeatures) (g : GraphicsSettings) (q : ColorBuffers) :
    ∃ calls, (q.NIS features g).app.log = q.app.log ++ calls ∧
      (q.NIS features g).app.m_renderTextures = q.app.m_renderTextures ∧
      (q.NIS features g).app.m_renderSize = q.app.m_renderSize ∧
      calls.filterMap Effect.stage = (if IsNISEnabled features g = true then [Stage.NIS] else []) ∧
      calls.filterMap Effect.pingPong =
        (if IsNISEnabled features g = true then [(q.inColor, q.outColor)] else []) ∧
      (∀ e ∈ calls, e.colorRead = none) ∧
      (q.NIS features g).inColor = (if IsNISEnabled features g = true then q.outColor else q.inColor) ∧
      (q.NIS features g).outColor
        = (if IsNISEnabled features g = true then q.inColor else q.outColor) := by
  unfold ColorBuffers.NIS
  cases IsNISEnabled features g
  · exact ⟨[], by simp, rfl, rfl, rfl, rfl, by simp, rfl, rfl⟩
  · refine ⟨[Effect.NISEvaluate q.inColor q.outColor], rfl, rfl, rfl, rfl, rfl, ?_, rfl, rfl⟩
    intro e he
    simp only [List.mem_singleton] at he
    subst he
    rfl

/-- The effects of the chromatic aberration block. -/
theorem ChromaticAberration_eq (g : GraphicsSettings) (q : ColorBuffers) :
    ∃ calls, (q.ChromaticAberration g).app.log = q.app.log ++ calls ∧
      (q.ChromaticAberration g).app.m_renderTextures = q.app.m_renderTextures ∧
      (q.ChromaticAberration g).app.m_renderSize = q.app.m_renderSize ∧
      calls.filterMap Effect.stage =
        (if g.IsChromaticAberrationEnabled = true then [Stage.ChromaticAberration] else []) ∧
      calls.filterMap Effect.pingPong =
        (if g.IsChromaticAberrationEnabled = true then [(q.inColor, q.outColor)] else []) ∧
      (∀ e ∈ calls, e.colorRead = none) ∧
      (q.ChromaticAberration g).inColor
        = (if g.IsChromaticAberrationEnabled = true then q.outColor else q.inColor) ∧
      (q.ChromaticAberration g).outColor
        = (if g.IsChromaticAberrationEnabled = true then q.inColor else q.outColor) := by
  unfold ColorBuffers.ChromaticAberration
  cases g.IsChromaticAberrationEnabled
  · exact ⟨[], by simp, rfl, rfl, rfl, rfl, by simp, rfl, rfl⟩
  · refine ⟨[Effect.ChromaticAberrationProcess q.inColor q.outColor], rfl, rfl, rfl, rfl, rfl, ?_,
      rfl, rfl⟩
    intro e he
    simp only [List.mem_singleton] at he
    subst he
    rfl

/-- The effects of the bloom block. -/
theorem Bloom_eq (g : GraphicsSettings) (q : ColorBuffers) :
    ∃ calls, (q.Bloom g).app.log = q.app.log ++ calls ∧
      (q.Bloom g).app.m_renderTextures = q.app.m_renderTextures ∧
      (q.Bloom g).app.m_renderSize = q.app.m_renderSize ∧
      calls.filterMap Effect.stage = (if g.Bloom_IsEnabled = true then [Stage.Bloom] else []) ∧
      calls.filterMap Effect.pingPong =
        (if g.Bloom_IsEnabled = true then [(q.inColor, q.outColor)] else []) ∧
      (∀ e ∈ calls, e.colorRead = none) ∧
      (q.Bloom g).inColor = (if g.Bloom_IsEnabled = true then q.outColor else q.inColor) ∧
      (q.Bloom g).outColor = (if g.Bloom_IsEnabled = true then q.inColor else q.outColor) := by
  unfold ColorBuffers.Bloom
  cases g.Bloom_IsEnabled
  · exact ⟨[], by simp, rfl, rfl, rfl, rfl, by simp, rfl, rfl⟩
  · refine ⟨[Effect.BloomProcess q.inColor q.outColor], rfl, rfl, rfl, rfl, rfl, ?_, rfl, rfl⟩
    intro e he
    simp only [List.mem_singleton] at he
    subst he
    rfl

/-- The stages of a chain assembled in the fixed order form a sublist of that order
and contain exactly the enabled ones. -/
theorem stage_order_props (bN bD bF bS bC bB bG bV : Bool) (ks : List Stage)
    (hex : ¬ (bD = true ∧ bF = true))
    (hks : ks = (if bN = true then [Stage.Denoise] else []) ++
      (if bD = true then [Stage.DLSS] else if bF = true then [Stage.FSR] else []) ++
      (if bS = true then [Stage.NIS] else []) ++
      (if bC = true then [Stage.ChromaticAberration] else []) ++
      (if bB = true then [Stage.Bloom] else []) ++
      (if bG = true then [Stage.FrameGeneration] else []) ++ [Stage.ToneMapping] ++
      (if (bN && bV) = true then [Stage.ValidationOverlay] else [])) :
    ks.Sublist fixedOrder ∧
      (Stage.Denoise ∈ ks ↔ bN = true) ∧ (Stage.DLSS ∈ ks ↔ bD = true) ∧
      (Stage.FSR ∈ ks ↔ bF = true) ∧ (Stage.NIS ∈ ks ↔ bS = true) ∧
      (Stage.ChromaticAberration ∈ ks ↔ bC = true) ∧ (Stage.Bloom ∈ ks ↔ bB = true) ∧
      (Stage.FrameGeneration ∈ ks ↔ bG = true) ∧ (Stage.ToneMapping ∈ ks ↔ true = true) ∧
      (Stage.ValidationOverlay ∈ ks ↔ (bN && bV) = true) := by
  subst hks
  cases bN <;> cases bD <;> cases bF <;> cases bS <;> cases bC <;> cases bB <;> cases bG <;>
    cases bV <;> first | (clear hex; decide) | exact absurd ⟨rfl, rfl⟩ hex

/-- Four conditional swaps in a row: the calls alternate between the two buffers and the
buffer left as input is the one written last. -/
theorem pingPong_chain_props (c f i1 o1 i2 o2 i3 o3 i4 : Texture) (b1 b2 b3 b4 : Bool)
    (pp : List (Texture × Texture))
    (hi1 : i1 = if b1 = true then f else c) (ho1 : o1 = if b1 = true then c else f)
    (hi2 : i2 = if b2 = true then o1 else i1) (ho2 : o2 = if b2 = true then i1 else o1)
    (hi3 : i3 = if b3 = true then o2 else i2) (ho3 : o3 = if b3 = true then i2 else o2)
    (hi4 : i4 = if b4 = true then o3 else i3)
    (hpp : pp = (if b1 = true then [(c, f)] else []) ++ (if b2 = true then [(i1, o1)] else []) ++
      (if b3 = true then [(i2, o2)] else []) ++ (if b4 = true then [(i3, o3)] else [])) :
    alternates c f pp ∧ (∀ p ∈ pp, p = (c, f) ∨ p = (f, c)) ∧
      i4 = ((pp.getLast?).map Prod.snd).getD c := by
  subst hpp hi4 ho3 hi3 ho2 hi2 ho1 hi1
  cases b1 <;> cases b2 <;> cases b3 <;> cases b4 <;> simp [alternates]

/-- The body of `PostProcessGraphics` as a sequence of its blocks. -/
theorem PostProcessGraphics_eq (svc : Services) (features : StreamlineFeatures)
    (g : GraphicsSettings) (s : Impl) :
    s.PostProcessGraphics svc features g =
      (if IsNRDEnabled svc g = true then s.PrepareStreamline.ProcessNRD g
        else some s.PrepareStreamline).bind fun s1 =>
      (s1.m_renderTextures RenderTextureNames.Color).bind fun inColor =>
      (s1.m_renderTextures RenderTextureNames.FinalColor).bind fun outColor =>
      (ColorBuffers.SuperResolution svc ⟨s1, inColor, outColor⟩).bind fun q =>
      (if IsDLSSFrameGenerationEnabled features g = true then
          (((q.NIS features g).ChromaticAberration g).Bloom g).app.ProcessDLSSFrameGeneration
            (((q.NIS features g).ChromaticAberration g).Bloom g).inColor
        else some (((q.NIS features g).ChromaticAberration g).Bloom g).app).bind fun s5 =>
      if (IsNRDEnabled svc g && g.NRD_IsValidationOverlayEnabled) = true then
        ((s5.ProcessToneMapping
            (((q.NIS features g).ChromaticAberration g).Bloom g).inColor).m_renderTextures
          RenderTextureNames.Validation).map fun validation =>
            (s5.ProcessToneMapping
              (((q.NIS features g).ChromaticAberration g).Bloom g).inColor).ProcessAlphaBlending
              validation
      else some (s5.ProcessToneMapping
        (((q.NIS features g).ChromaticAberration g).Bloom g).inColor) := by
  unfold Impl.PostProcessGraphics
  cases IsNRDEnabled svc g <;> cases IsDLSSFrameGenerationEnabled features g <;> rfl

/-- The effects of `ProcessFSRSuperResolution` when the textures it reads are present. -/
theorem ProcessFSRSuperResolution_eq (s : Impl)
    (h : ∀ name ∈ upscalerTextureNames, (s.m_renderTextures name).isSome = true) :
    ∃ s' calls, s.ProcessFSRSuperResolution = some s' ∧ s'.log = s.log ++ calls ∧
      s'.m_renderTextures = s.m_renderTextures ∧
      s'.m_slConstants_reset = s.m_slConstants_reset ∧
      s'.m_NRDCommonSettings_accumulationMode = s.m_NRDCommonSettings_accumulationMode ∧
      s'.m_FSRSettings.Reset = false ∧
      calls.filterMap Effect.FSRReset = [s.m_FSRSettings.Reset] ∧
      calls.filterMap Effect.accumulationMode = [] ∧
      calls.filterMap Effect.streamlineReset = [] := by
  obtain ⟨t1, h1⟩ := Option.isSome_iff_exists.mp
    (h RenderTextureNames.NormalizedDepth (by simp [upscalerTextureNames]))
  obtain ⟨t2, h2⟩ := Option.isSome_iff_exists.mp
    (h RenderTextureNames.MotionVectors (by simp [upscalerTextureNames]))
  obtain ⟨t3, h3⟩ := Option.isSome_iff_exists.mp
    (h RenderTextureNames.Color (by simp [upscalerTextureNames]))
  obtain ⟨t4, h4⟩ := Option.isSome_iff_exists.mp
    (h RenderTextureNames.FinalColor (by simp [upscalerTextureNames]))
  refine ⟨{ s with
      log := s.log ++
        [Effect.FSRSetConstants { s.m_FSRSettings with RenderSize := s.m_renderSize }] ++
        [Effect.FSRDispatch t1 t2 t3 t4]
      m_FSRSettings := { RenderSize := s.m_renderSize, Reset := false } },
    [Effect.FSRSetConstants { s.m_FSRSettings with RenderSize := s.m_renderSize },
      Effect.FSRDispatch t1 t2 t3 t4], ?_, ?_, rfl, rfl, rfl, rfl, rfl, rfl, rfl⟩
  · simp only [Impl.ProcessFSRSuperResolution, h1, h2, h3, h4, Option.bind_eq_bind,
      Option.some_bind]
  · simp

/-! ## Theorems on the post-processing of a frame -/

/-- C11: when the denoiser, both upscalers, sharpening, chromatic aberration, bloom and
frame generation are all disabled, `PostProcessGraphics` returns and the only calls
it makes are the hand-over of the Streamline constants and one tone mapping, whose
input is the texture the table holds under Color; the table itself is unchanged. -/
theorem C11_all_disabled_only_tone_mapping (svc : Services)
    (features : StreamlineFeatures) (g : GraphicsSettings) (s : Impl) (color finalColor : Texture)
    (hColor : s.m_renderTextures RenderTextureNames.Color = some color)
    (hFinalColor : s.m_renderTextures RenderTextureNames.FinalColor = some finalColor)
    (hNRD : IsNRDEnabled svc g = false)
    (hDLSS : s.IsDLSSSuperResolutionEnabled svc = false)
    (hFSR : s.IsFSRSuperResolutionEnabled svc = false)
    (hNIS : IsNISEnabled features g = false)
    (hCA : g.IsChromaticAberrationEnabled = false)
    (hBloom : g.Bloom_IsEnabled = false)
    (hFG : IsDLSSFrameGenerationEnabled features g = false) :
    ∃ s', s.PostProcessGraphics svc features g = some s' ∧
      s'.log = s.log ++
        [Effect.StreamlineSetConstants s.m_slConstants_reset, Effect.ToneMappingProcess color] ∧
      (s'.log.drop s.log.length).filterMap Effect.stage = [Stage.ToneMapping] ∧
      s'.m_renderTextures = s.m_renderTextures := by
  have hD : s.PrepareStreamline.IsDLSSSuperResolutionEnabled svc = false := hDLSS
  have hF : s.PrepareStreamline.IsFSRSuperResolutionEnabled svc = false := hFSR
  have hc : s.PrepareStreamline.m_renderTextures RenderTextureNames.Color = some color := hColor
  have hf : s.PrepareStreamline.m_renderTextures RenderTextureNames.FinalColor
      = some finalColor := hFinalColor
  have hlog : (s.PrepareStreamline.ProcessToneMapping color).log = s.log ++
      [Effect.StreamlineSetConstants s.m_slConstants_reset, Effect.ToneMappingProcess color] := by
    simp [Impl.PrepareStreamline, Impl.ProcessToneMapping]
  refine ⟨s.PrepareStreamline.ProcessToneMapping color, ?_, hlog, ?_, rfl⟩
  · rw [PostProcessGraphics_eq]
    simp [hNRD, hFG, hc, hf, ColorBuffers.SuperResolution, hD, hF, ColorBuffers.NIS, hNIS,
      ColorBuffers.ChromaticAberration, hCA, ColorBuffers.Bloom, hBloom]
  · rw [hlog, List.drop_left]
    rfl

/-- Evaluation of C11 on the created 1920x1080 application with every setting off: the
frame hands the constants to Streamline and tone-maps the texture with identity 0,
which is the Color texture. -/
theorem C11_all_disabled_only_tone_mapping_witness :
    ∃ color finalColor,
      createdImpl.m_renderTextures RenderTextureNames.Color = some color ∧
      createdImpl.m_renderTextures RenderTextureNames.FinalColor = some finalColor ∧
      color.id = 0 ∧
      ∃ s', createdImpl.PostProcessGraphics twoThirdsServices allFeatures allOffSettings
          = some s' ∧
        s'.log = createdImpl.log ++
          [Effect.StreamlineSetConstants createdImpl.m_slConstants_reset,
            Effect.ToneMappingProcess color] := by
  refine ⟨_, _, rfl, rfl, rfl, ?_⟩
  obtain ⟨s', h1, h2, -, -⟩ := C11_all_disabled_only_tone_mapping twoThirdsServices allFeatures
    allOffSettings createdImpl _ _ rfl rfl rfl rfl rfl rfl rfl rfl rfl
  exact ⟨s', h1, h2⟩

/-- C12 (amended): for every combination of settings and availabilities, when the
textures read by the frame are present, `PostProcessGraphics` returns and invokes
exactly the stages whose guard holds (for frame generation: setting on, DLSS-G
available and Reflex enabled; for the validation overlay: setting on and NRD
enabled), in the fixed order; the swapping stages are called with (Color, FinalColor)
or (FinalColor, Color), each reading what the previous one wrote, starting from
Color; frame-generation tagging and tone mapping read the buffer written last. -/
theorem C12_stages_in_fixed_order_with_alternating_buffers (svc : Services)
    (features : StreamlineFeatures) (g : GraphicsSettings) (s : Impl) (color finalColor : Texture)
    (hColor : s.m_renderTextures RenderTextureNames.Color = some color)
    (hFinalColor : s.m_renderTextures RenderTextureNames.FinalColor = some finalColor)
    (hUpscaler : ∀ name ∈ upscalerTextureNames, (s.m_renderTextures name).isSome = true)
    (hNRD : IsNRDEnabled svc g = true →
      ∀ name ∈ NRDTextureNames, (s.m_renderTextures name).isSome = true) :
    ∃ s' calls, s.PostProcessGraphics svc features g = some s' ∧
      s'.log = s.log ++ calls ∧
      (∀ stage, stage ∈ calls.filterMap Effect.stage ↔
        stageEnabled svc features g s stage = true) ∧
      (calls.filterMap Effect.stage).Sublist fixedOrder ∧
      alternates color finalColor (calls.filterMap Effect.pingPong) ∧
      (∀ p ∈ calls.filterMap Effect.pingPong,
        p = (color, finalColor) ∨ p = (finalColor, color)) ∧
      (∀ e ∈ calls, ∀ b, e.colorRead = some b →
        b = (((calls.filterMap Effect.pingPong).getLast?).map Prod.snd).getD color) ∧
      (color ≠ finalColor → ∀ p ∈ calls.filterMap Effect.pingPong, p.1 ≠ p.2) := by
  obtain ⟨depth, hdepth⟩ := Option.isSome_iff_exists.mp
    (hUpscaler RenderTextureNames.NormalizedDepth (by simp [upscalerTextureNames]))
  obtain ⟨mv, hmv⟩ := Option.isSome_iff_exists.mp
    (hUpscaler RenderTextureNames.MotionVectors (by simp [upscalerTextureNames]))
  -- the denoiser
  have hstep1 : ∃ s1 N,
      (if IsNRDEnabled svc g = true then s.PrepareStreamline.ProcessNRD g
        else some s.PrepareStreamline) = some s1 ∧
      s1.log = s.PrepareStreamline.log ++ N ∧ s1.m_renderTextures = s.m_renderTextures ∧
      s1.Upscaler = s.Upscaler ∧
      N.filterMap Effect.stage = (if IsNRDEnabled svc g = true then [Stage.Denoise] else []) ∧
      N.filterMap Effect.pingPong = [] ∧ (∀ e ∈ N, e.colorRead = none) := by
    cases hN : IsNRDEnabled svc g
    · exact ⟨s.PrepareStreamline, [], by simp, by simp, rfl, rfl, by simp, rfl, by simp⟩
    · obtain ⟨s1, N, h1, h2, h3, h4, -, -, -, -, h5, h6, h7, -⟩ :=
        ProcessNRD_eq g s.PrepareStreamline (hNRD hN)
      exact ⟨s1, N, by simpa using h1, h2, h3, h4, by simp [h5], h6, h7⟩
  obtain ⟨s1, N, hs1, hlog1, htex1, hUp1, hNk, hNp, hNc⟩ := hstep1
  have hc1 : s1.m_renderTextures RenderTextureNames.Color = some color := by rw [htex1, hColor]
  have hf1 : s1.m_renderTextures RenderTextureNames.FinalColor = some finalColor := by
    rw [htex1, hFinalColor]
  -- the upscaler block
  obtain ⟨q1, U, hq1, hlogq1, htexq1, -, hUk, hUp, hUc, hi1, ho1⟩ :=
    SuperResolution_eq svc ⟨s1, color, finalColor⟩ depth mv color finalColor
      (by rw [htex1, hdepth]) (by rw [htex1, hmv]) hc1 hf1
  rw [IsDLSSSuperResolutionEnabled_congr svc s s1 hUp1,
    IsFSRSuperResolutionEnabled_congr svc s s1 hUp1] at hUk hUp hi1 ho1
  -- sharpening, chromatic aberration, bloom
  obtain ⟨S, hl2, ht2, -, hSk, hSp, hSc, hi2, ho2⟩ := NIS_eq features g q1
  obtain ⟨C, hl3, ht3, -, hCk, hCp, hCc, hi3, ho3⟩ :=
    ChromaticAberration_eq g (q1.NIS features g)
  obtain ⟨B, hl4, ht4, -, hBk, hBp, hBc, hi4, -⟩ :=
    Bloom_eq g ((q1.NIS features g).ChromaticAberration g)
  have htex4 : (((q1.NIS features g).ChromaticAberration g).Bloom g).app.m_renderTextures
      = s.m_renderTextures := by rw [ht4, ht3, ht2, htexq1, htex1]
  -- frame generation
  have hstep5 : ∃ s5 F,
      (if IsDLSSFrameGenerationEnabled features g = true then
          (((q1.NIS features g).ChromaticAberration g).Bloom g).app.ProcessDLSSFrameGeneration
            (((q1.NIS features g).ChromaticAberration g).Bloom g).inColor
        else some (((q1.NIS features g).ChromaticAberration g).Bloom g).app) = some s5 ∧
      s5.log = (((q1.NIS features g).ChromaticAberration g).Bloom g).app.log ++ F ∧
      s5.m_renderTextures = s.m_renderTextures ∧
      F.filterMap Effect.stage =
        (if IsDLSSFrameGenerationEnabled features g = true then [Stage.FrameGeneration] else []) ∧
      F.filterMap Effect.pingPong = [] ∧
      (∀ e ∈ F, ∀ b, e.colorRead = some b →
        b = (((q1.NIS features g).ChromaticAberration g).Bloom g).inColor) := by
    cases hG : IsDLSSFrameGenerationEnabled features g
    · exact ⟨(((q1.NIS features g).ChromaticAberration g).Bloom g).app, [], by simp, by simp,
        htex4, by simp, rfl, by simp⟩
    · refine ⟨{ (((q1.NIS features g).ChromaticAberration g).Bloom g).app with
          log := (((q1.NIS features g).ChromaticAberration g).Bloom g).app.log ++
            [Effect.DLSSGTag depth mv (((q1.NIS features g).ChromaticAberration g).Bloom g).inColor
              (((q1.NIS features g).ChromaticAberration g).Bloom g).app.m_renderSize] },
        [Effect.DLSSGTag depth mv (((q1.NIS features g).ChromaticAberration g).Bloom g).inColor
          (((q1.NIS features g).ChromaticAberration g).Bloom g).app.m_renderSize],
        ?_, rfl, htex4, rfl, rfl, ?_⟩
      · simp only [Impl.ProcessDLSSFrameGeneration, htex4, hdepth, hmv, if_true,
          Option.bind_eq_bind, Option.some_bind]
      · intro e he b hb
        simp only [List.mem_singleton] at he
        subst he
        simpa [Effect.colorRead] using hb.symm
  obtain ⟨s5, F, hs5, hlog5, htex5, hFk, hFp, hFc⟩ := hstep5
  -- the validation overlay
  have hstep7 : ∃ s7 V,
      (if (IsNRDEnabled svc g && g.NRD_IsValidationOverlayEnabled) = true then
          ((s5.ProcessToneMapping
              (((q1.NIS features g).ChromaticAberration g).Bloom g).inColor).m_renderTextures
            RenderTextureNames.Validation).map fun validation =>
              (s5.ProcessToneMapping
                (((q1.NIS features g).ChromaticAberration g).Bloom g).inColor).ProcessAlphaBlending
                validation
        else some (s5.ProcessToneMapping
          (((q1.NIS features g).ChromaticAberration g).Bloom g).inColor)) = some s7 ∧
      s7.log = s5.log ++
        [Effect.ToneMappingProcess (((q1.NIS features g).ChromaticAberration g).Bloom g).inColor]
        ++ V ∧
      V.filterMap Effect.stage =
        (if (IsNRDEnabled svc g && g.NRD_IsValidationOverlayEnabled) = true then
          [Stage.ValidationOverlay] else []) ∧
      V.filterMap Effect.pingPong = [] ∧ (∀ e ∈ V, e.colorRead = none) := by
    cases hV : (IsNRDEnabled svc g && g.NRD_IsValidationOverlayEnabled)
    · exact ⟨s5.ProcessToneMapping (((q1.NIS features g).ChromaticAberration g).Bloom g).inColor,
        [], by simp, by simp [Impl.ProcessToneMapping], by simp, rfl, by simp⟩
    · have hN : IsNRDEnabled svc g = true := by
        cases hN : IsNRDEnabled svc g
        · simp [hN] at hV
        · rfl
      obtain ⟨v, hv⟩ := Option.isSome_iff_exists.mp
        (hNRD hN RenderTextureNames.Validation (by simp [NRDTextureNames]))
      have hv5 : (s5.ProcessToneMapping
          (((q1.NIS features g).ChromaticAberration g).Bloom g).inColor).m_renderTextures
          RenderTextureNames.Validation = some v := by
        show s5.m_renderTextures RenderTextureNames.Validation = some v
        rw [htex5, hv]
      refine ⟨(s5.ProcessToneMapping
          (((q1.NIS features g).ChromaticAberration g).Bloom g).inColor).ProcessAlphaBlending v,
        [Effect.AlphaBlendingDraw v], ?_, ?_, rfl, rfl, ?_⟩
      · simp only [hv5, if_true, Option.map_some']
      · simp [Impl.ProcessAlphaBlending, Impl.ProcessToneMapping]
      · intro e he
        simp only [List.mem_singleton] at he
        subst he
        rfl
  obtain ⟨s7, V, hs7, hlog7, hVk, hVp, hVc⟩ := hstep7
  have hex := IsDLSS_IsFSR_exclusive svc s
  have hk : ([Effect.StreamlineSetConstants s.m_slConstants_reset] ++ N ++ U ++ S ++ C ++ B ++ F ++
        [Effect.ToneMappingProcess (((q1.NIS features g).ChromaticAberration g).Bloom g).inColor]
        ++ V).filterMap Effect.stage
      = (if IsNRDEnabled svc g = true then [Stage.Denoise] else []) ++
        (if s.IsDLSSSuperResolutionEnabled svc = true then [Stage.DLSS]
          else if s.IsFSRSuperResolutionEnabled svc = true then [Stage.FSR] else []) ++
        (if IsNISEnabled features g = true then [Stage.NIS] else []) ++
        (if g.IsChromaticAberrationEnabled = true then [Stage.ChromaticAberration] else []) ++
        (if g.Bloom_IsEnabled = true then [Stage.Bloom] else []) ++
        (if IsDLSSFrameGenerationEnabled features g = true then [Stage.FrameGeneration] else []) ++
        [Stage.ToneMapping] ++
        (if (IsNRDEnabled svc g && g.NRD_IsValidationOverlayEnabled) = true then
          [Stage.ValidationOverlay] else []) := by
    simp only [List.filterMap_append, hNk, hUk, hSk, hCk, hBk, hFk, hVk]
    rfl
  have hp : ([Effect.StreamlineSetConstants s.m_slConstants_reset] ++ N ++ U ++ S ++ C ++ B ++ F ++
        [Effect.ToneMappingProcess (((q1.NIS features g).ChromaticAberration g).Bloom g).inColor]
        ++ V).filterMap Effect.pingPong
      = (if (s.IsDLSSSuperResolutionEnabled svc || s.IsFSRSuperResolutionEnabled svc) = true
          then [(color, finalColor)] else []) ++
        (if IsNISEnabled features g = true then [(q1.inColor, q1.outColor)] else []) ++
        (if g.IsChromaticAberrationEnabled = true then
          [((q1.NIS features g).inColor, (q1.NIS features g).outColor)] else []) ++
        (if g.Bloom_IsEnabled = true then
          [(((q1.NIS features g).ChromaticAberration g).inColor,
            ((q1.NIS features g).ChromaticAberration g).outColor)] else []) := by
    simp only [List.filterMap_append, hNp, hUp, hSp, hCp, hBp, hFp, hVp]
    simp [Effect.pingPong]
  obtain ⟨hsub, hm1, hm2, hm3, hm4, hm5, hm6, hm7, hm8, hm9⟩ :=
    stage_order_props _ _ _ _ _ _ _ _ _ hex hk
  obtain ⟨halt, hpairs, hlast⟩ :=
    pingPong_chain_props color finalColor _ _ _ _ _ _ _ _ _ _ _ _ hi1 ho1 hi2 ho2 hi3 ho3 hi4 hp
  refine ⟨s7, [Effect.StreamlineSetConstants s.m_slConstants_reset] ++ N ++ U ++ S ++ C ++ B ++ F
      ++ [Effect.ToneMappingProcess (((q1.NIS features g).ChromaticAberration g).Bloom g).inColor]
      ++ V, ?_, ?_, ?_, hsub, halt, hpairs, ?_, ?_⟩
  · rw [PostProcessGraphics_eq, hs1]
    simp only [Option.bind_eq_bind, Option.some_bind, hc1, hf1, hq1, hs5, hs7]
  · rw [hlog7, hlog5, hl4, hl3, hl2, hlogq1, hlog1]
    simp only [Impl.PrepareStreamline, List.append_assoc]
  · intro stage
    cases stage
    · exact hm1
    · exact hm2
    · exact hm3
    · exact hm4
    · exact hm5
    · exact hm6
    · exact hm7
    · exact hm8
    · exact hm9
  · intro e he b hb
    rw [← hlast]
    simp only [List.mem_append, List.mem_singleton] at he
    rcases he with (((((((he | he) | he) | he) | he) | he) | he) | he) | he
    · subst he
      simp [Effect.colorRead] at hb
    · rw [hNc e he] at hb
      cases hb
    · rw [hUc e he] at hb
      cases hb
    · rw [hSc e he] at hb
      cases hb
    · rw [hCc e he] at hb
      cases hb
    · rw [hBc e he] at hb
      cases hb
    · exact hFc e he b hb
    · subst he
      simpa [Effect.colorRead] using hb.symm
    · rw [hVc e he] at hb
      cases hb
  · intro hne p hp
    rcases hpairs p hp with rfl | rfl
    · exact hne
    · exact fun h => hne h.symm

/-- C12 (as stated, refuted): on the created application, with frame generation switched on
and DLSS-G available but Reflex off, the frame invokes tone mapping only: the
frame-generation tagging is not invoked. -/
theorem C12_frame_generation_needs_reflex_counterexample :
    frameGenerationWithoutReflexSettings.IsDLSSFrameGenerationEnabled = true ∧
    allFeatures.kFeatureDLSS_G = true ∧
    frameGenerationWithoutReflexSettings.ReflexMode = ReflexMode.eOff ∧
    ∃ s', createdImpl.PostProcessGraphics twoThirdsServices allFeatures
        frameGenerationWithoutReflexSettings = some s' ∧
      (s'.log.drop createdImpl.log.length).filterMap Effect.stage = [Stage.ToneMapping] :=
  ⟨rfl, rfl, rfl, _, rfl, rfl⟩

/-- Evaluation of the amended C12 on the created application with DLSS selected and
`sampleSettings`: the frame returns and its stages are a sublist of the fixed order
with alternating buffers starting at the Color texture (identity 0). -/
theorem C12_stages_in_fixed_order_with_alternating_buffers_witness :
    ∃ color finalColor,
      upscaledImpl.m_renderTextures RenderTextureNames.Color = some color ∧
      upscaledImpl.m_renderTextures RenderTextureNames.FinalColor = some finalColor ∧
      color.id = 0 ∧ finalColor.id = 1 ∧
      ∃ s' calls, upscaledImpl.PostProcessGraphics twoThirdsServices allFeatures sampleSettings
          = some s' ∧
        s'.log = upscaledImpl.log ++ calls ∧
        (calls.filterMap Effect.stage).Sublist fixedOrder ∧
        alternates color finalColor (calls.filterMap Effect.pingPong) := by
  refine ⟨_, _, rfl, rfl, rfl, rfl, ?_⟩
  obtain ⟨s', calls, h1, h2, -, h4, h5, -⟩ :=
    C12_stages_in_fixed_order_with_alternating_buffers twoThirdsServices allFeatures
      sampleSettings upscaledImpl _ _ rfl rfl (by decide) (fun _ => by decide)
  exact ⟨s', calls, h1, h2, h4, h5⟩

/-- C13: `SelectSuperResolutionUpscaler` turns a selected but unavailable DLSS into FSR
when FSR is available and into None otherwise, a selected but unavailable FSR into
DLSS when DLSS is available and into None otherwise, and leaves the application as
it is when the selection is None or an available upscaler; afterwards the selection
is None or available, a second call changes nothing, and no member other than the
selection is written. -/
theorem C13_SelectSuperResolutionUpscaler_fallback (svc : Services) (s : Impl) :
    (s.Upscaler = Upscaler.DLSS → svc.IsDLSSAvailable = false →
      (s.SelectSuperResolutionUpscaler svc).Upscaler
        = if svc.IsFSRAvailable then Upscaler.FSR else Upscaler.None) ∧
    (s.Upscaler = Upscaler.FSR → svc.IsFSRAvailable = false →
      (s.SelectSuperResolutionUpscaler svc).Upscaler
        = if svc.IsDLSSAvailable then Upscaler.DLSS else Upscaler.None) ∧
    (IsSelectable svc s.Upscaler = true → s.SelectSuperResolutionUpscaler svc = s) ∧
    IsSelectable svc (s.SelectSuperResolutionUpscaler svc).Upscaler = true ∧
    (s.SelectSuperResolutionUpscaler svc).SelectSuperResolutionUpscaler svc
      = s.SelectSuperResolutionUpscaler svc ∧
    s.SelectSuperResolutionUpscaler svc
      = { s with Upscaler := (s.SelectSuperResolutionUpscaler svc).Upscaler } := by
  unfold Impl.SelectSuperResolutionUpscaler IsSelectable
  cases hU : s.Upscaler <;> cases hD : svc.IsDLSSAvailable <;> cases hF : svc.IsFSRAvailable <;>
    simp [hU, hD, hF] <;> (cases s; simp_all)

/-- Evaluation of C13: with DLSS selected, DLSS unavailable and FSR available the
selection becomes FSR. -/
theorem C13_SelectSuperResolutionUpscaler_fallback_witness :
    ((freshImpl Upscaler.DLSS SuperResolutionMode.Auto).SelectSuperResolutionUpscaler
      noDLSSServices).Upscaler = Upscaler.FSR :=
  (C13_SelectSuperResolutionUpscaler_fallback noDLSSServices
    (freshImpl Upscaler.DLSS SuperResolutionMode.Auto)).1 rfl rfl

/-- C14: after `ResetTemporalAccumulation`, two runs in a row of a consumer hand the
request to its service the first time and the cleared value the second time:
`PrepareStreamline` passes reset = true and then false, `ProcessNRD` passes
CLEAR_AND_RESTART and then CONTINUE, `ProcessFSRSuperResolution` passes Reset = true
and then false; the first run of one consumer leaves the requests of the other two
pending. -/
theorem C14_temporal_reset_consumed_once (g : GraphicsSettings) (s : Impl)
    (hNRD : ∀ name ∈ NRDTextureNames, (s.m_renderTextures name).isSome = true)
    (hUpscaler : ∀ name ∈ upscalerTextureNames, (s.m_renderTextures name).isSome = true) :
    (s.ResetTemporalAccumulation.PrepareStreamline.log.filterMap Effect.streamlineReset
        = s.log.filterMap Effect.streamlineReset ++ [true] ∧
      s.ResetTemporalAccumulation.PrepareStreamline.PrepareStreamline.log.filterMap
          Effect.streamlineReset
        = s.log.filterMap Effect.streamlineReset ++ [true, false] ∧
      s.ResetTemporalAccumulation.PrepareStreamline.m_NRDCommonSettings_accumulationMode
        = AccumulationMode.CLEAR_AND_RESTART ∧
      s.ResetTemporalAccumulation.PrepareStreamline.m_FSRSettings.Reset = true) ∧
    (∃ s1 s2, s.ResetTemporalAccumulation.ProcessNRD g = some s1 ∧ s1.ProcessNRD g = some s2 ∧
      s1.log.filterMap Effect.accumulationMode
        = s.log.filterMap Effect.accumulationMode ++ [AccumulationMode.CLEAR_AND_RESTART] ∧
      s2.log.filterMap Effect.accumulationMode
        = s.log.filterMap Effect.accumulationMode
          ++ [AccumulationMode.CLEAR_AND_RESTART, AccumulationMode.CONTINUE] ∧
      s1.m_slConstants_reset = true ∧ s1.m_FSRSettings.Reset = true) ∧
    (∃ s1 s2, s.ResetTemporalAccumulation.ProcessFSRSuperResolution = some s1 ∧
      s1.ProcessFSRSuperResolution = some s2 ∧
      s1.log.filterMap Effect.FSRReset = s.log.filterMap Effect.FSRReset ++ [true] ∧
      s2.log.filterMap Effect.FSRReset = s.log.filterMap Effect.FSRReset ++ [true, false] ∧
      s1.m_slConstants_reset = true ∧
      s1.m_NRDCommonSettings_accumulationMode = AccumulationMode.CLEAR_AND_RESTART) := by
  refine ⟨⟨?_, ?_, rfl, rfl⟩, ?_, ?_⟩
  · simp [Impl.PrepareStreamline, Impl.ResetTemporalAccumulation, Effect.streamlineReset]
  · simp [Impl.PrepareStreamline, Impl.ResetTemporalAccumulation, Effect.streamlineReset]
  · obtain ⟨s1, calls1, h1, hl1, ht1, -, -, hf1, hr1, hm1, -, -, -, ha1, -, -⟩ :=
      ProcessNRD_eq g s.ResetTemporalAccumulation hNRD
    obtain ⟨s2, calls2, h2, hl2, -, -, -, -, -, -, -, -, -, ha2, -, -⟩ :=
      ProcessNRD_eq g s1 (by rw [ht1]; exact hNRD)
    refine ⟨s1, s2, h1, h2, ?_, ?_, hr1, ?_⟩
    · rw [hl1, List.filterMap_append, ha1]
      rfl
    · rw [hl2, hl1, List.filterMap_append, List.filterMap_append, ha1, ha2, hm1]
      simp [Impl.ResetTemporalAccumulation]
    · rw [hf1]
      rfl
  · obtain ⟨s1, calls1, h1, hl1, ht1, hr1, hm1, hf1, ha1, -, -⟩ :=
      ProcessFSRSuperResolution_eq s.ResetTemporalAccumulation hUpscaler
    obtain ⟨s2, calls2, h2, hl2, -, -, -, -, ha2, -, -⟩ :=
      ProcessFSRSuperResolution_eq s1 (by rw [ht1]; exact hUpscaler)
    refine ⟨s1, s2, h1, h2, ?_, ?_, hr1, hm1⟩
    · rw [hl1, List.filterMap_append, ha1]
      rfl
    · rw [hl2, hl1, List.filterMap_append, List.filterMap_append, ha1, ha2, hf1]
      simp [Impl.ResetTemporalAccumulation]

/-- Evaluation of C14 on the created 1920x1080 application, whose log holds no consumer
call yet: two runs of `ProcessNRD` after the request pass CLEAR_AND_RESTART and then
CONTINUE. -/
theorem C14_temporal_reset_consumed_once_witness :
    ∃ s1 s2, createdImpl.ResetTemporalAccumulation.ProcessNRD sampleSettings = some s1 ∧
      s1.ProcessNRD sampleSettings = some s2 ∧
      s2.log.filterMap Effect.accumulationMode
        = createdImpl.log.filterMap Effect.accumulationMode
          ++ [AccumulationMode.CLEAR_AND_RESTART, AccumulationMode.CONTINUE] := by
  obtain ⟨-, ⟨s1, s2, h1, h2, -, h4, -⟩, -⟩ :=
    C14_temporal_reset_consumed_once sampleSettings createdImpl (by decide) (by decide)
  exact ⟨s1, s2, h1, h2, h4⟩

/-- C15 (as stated, refuted): with no reset requested, moving the field-of-view slider from
90 to 60 degrees changes the lens of the camera controller and leaves the Streamline
reset flag clear, the NRD mode CONTINUE and the FSR reset flag clear. -/
theorem C15_lens_change_requests_reset_counterexample :
    sampleSettingsWindow.app.resetRequests = (false, AccumulationMode.CONTINUE, false) ∧
    (sampleSettingsWindow.CameraNode sliderMovedInput).m_cameraController
      ≠ sampleSettingsWindow.m_cameraController ∧
    (sampleSettingsWindow.CameraNode sliderMovedInput).m_cameraController.HorizontalFieldOfView
      = 0x42700000 ∧
    (sampleSettingsWindow.CameraNode sliderMovedInput).app.resetRequests
      = (false, AccumulationMode.CONTINUE, false) := by
  decide

/-- C15 (amended): when the field-of-view slider of the open Camera node is moved,
`SetLens` is applied with the new angle and the aspect ratio the controller had, and
the application, its temporal reset requests included, is what the Jitter checkbox
left: unchanged when the checkbox was not clicked, with the three requests set when
it was. -/
theorem C15_field_of_view_change_applies_lens_only (ui : CameraNodeInput) (w : SettingsWindow)
    (value : FLOAT) (hOpen : ui.TreeNodeEx = true)
    (hSlider : ui.SliderFloat_HorizontalFieldOfView = some value) :
    (w.CameraNode ui).m_cameraController
      = { HorizontalFieldOfView := value, AspectRatio := w.m_cameraController.AspectRatio } ∧
    (w.CameraNode ui).Camera.HorizontalFieldOfView = value ∧
    (ui.Checkbox_Jitter = false → (w.CameraNode ui).app = w.app) ∧
    (ui.Checkbox_Jitter = true →
      (w.CameraNode ui).app = w.app.ResetTemporalAccumulation ∧
      (w.CameraNode ui).app.resetRequests = (true, AccumulationMode.CLEAR_AND_RESTART, true)) := by
  unfold SettingsWindow.CameraNode
  cases hJ : ui.Checkbox_Jitter <;> simp [hOpen, hSlider, Impl.resetRequests,
    Impl.ResetTemporalAccumulation]

/-- Evaluation of the amended C15 on `sampleSettingsWindow` with the slider moved to
60 degrees: the lens holds the new angle and the application is unchanged. -/
theorem C15_field_of_view_change_applies_lens_only_witness :
    (sampleSettingsWindow.CameraNode sliderMovedInput).m_cameraController
      = { HorizontalFieldOfView := 0x42700000, AspectRatio := 0x3FE38E39 } ∧
    (sampleSettingsWindow.CameraNode sliderMovedInput).app.resetRequests
      = sampleSettingsWindow.app.resetRequests :=
  ⟨(C15_field_of_view_change_applies_lens_only sliderMovedInput sampleSettingsWindow 0x42700000
      rfl rfl).1,
    congrArg Impl.resetRequests
      ((C15_field_of_view_change_applies_lens_only sliderMovedInput sampleSettingsWindow
        0x42700000 rfl rfl).2.2.1 rfl)⟩

/-! ## Auxiliary lemmas on the colour buffers of a frame -/

/-- A list that splits around an element with a property no other element has splits
in one way only. -/
theorem split_unique {α : Type} (p : α → Prop) (P Q : List α) (u : α) :
    ∀ (before after : List α) (e : α), P ++ u :: Q = before ++ e :: after →
      (∀ x ∈ P, ¬ p x) → (∀ x ∈ Q, ¬ p x) → p e → before = P ∧ e = u ∧ after = Q := by
  induction P with
  | nil =>
    intro before after e h _ hQ he
    cases before with
    | nil =>
      simp only [List.nil_append, List.cons.injEq] at h
      exact ⟨rfl, h.1.symm, h.2.symm⟩
    | cons b bs =>
      simp only [List.nil_append, List.cons_append, List.cons.injEq] at h
      exact absurd he (hQ e (by rw [h.2]; simp))
  | cons x P' ih =>
    intro before after e h hP hQ he
    cases before with
    | nil =>
      simp only [List.nil_append, List.cons_append, List.cons.injEq] at h
      exact absurd he (by rw [← h.1]; exact hP x (List.mem_cons_self _ _))
    | cons b bs =>
      simp only [List.cons_append, List.cons.injEq] at h
      obtain ⟨h1, h2, h3⟩ := ih bs after e h.2 (fun y hy => hP y (List.mem_cons_of_mem _ hy)) hQ he
      exact ⟨by rw [h.1, h1], h2, h3⟩

/-- The colour input of an effect is the input of its buffer pair or the buffer it
reads. -/
theorem colorInput_eq (e : Effect) :
    e.colorInput = (e.pingPong.map Prod.fst).orElse fun _ => e.colorRead := by
  cases e <;> rfl

theorem filterMap_colorInput_of_colorRead_none (calls : List Effect)
    (h : ∀ e ∈ calls, e.colorRead = none) :
    calls.filterMap Effect.colorInput = (calls.filterMap Effect.pingPong).map Prod.fst := by
  induction calls with
  | nil => rfl
  | cons e rest ih =>
    have he := h e (List.mem_cons_self _ _)
    have hrest := ih fun x hx => h x (List.mem_cons_of_mem _ hx)
    have hci := colorInput_eq e
    rw [he] at hci
    cases hp : e.pingPong with
    | none =>
      rw [hp] at hci
      simp only [List.filterMap_cons, hp, hci, Option.map_none', Option.orElse, hrest]
    | some p =>
      rw [hp] at hci
      simp only [List.filterMap_cons, hp, hci, Option.map_some', Option.orElse, hrest,
        List.map_cons]

/-- The stages of the elements of a block that invokes at most one stage. -/
theorem stage_of_mem (calls : List Effect) (b : Bool) (k0 : Stage)
    (h : calls.filterMap Effect.stage = if b = true then [k0] else []) :
    ∀ e ∈ calls, ∀ k, e.stage = some k → k = k0 := by
  intro e he k hk
  have hmem : k ∈ calls.filterMap Effect.stage := List.mem_filterMap.2 ⟨e, he, hk⟩
  rw [h] at hmem
  cases b
  · simp at hmem
  · simpa using hmem

/-- The first colour input of the stages after the upscaler block is the logical input
at that point. -/
theorem first_consumer_props (i1 o1 i2 o2 i3 o3 x : Texture) (bS bC bB bG : Bool)
    (ci : List Texture)
    (hi2 : i2 = if bS = true then o1 else i1) (hi3 : i3 = if bC = true then o2 else i2)
    (hx : x = if bB = true then o3 else i3)
    (hci : ci = (if bS = true then [i1] else []) ++ (if bC = true then [i2] else []) ++
      (if bB = true then [i3] else []) ++ (if bG = true then [x] else []) ++ [x]) :
    ci.head? = some i1 := by
  subst hci hx hi3 hi2
  cases bS <;> cases bC <;> cases bB <;> cases bG <;> rfl

/-- The calls of `ProcessNRD` when the textures it reads are present: the last one is the
denoised composition, which writes into the texture the table holds under Color. -/
theorem ProcessNRD_calls (g : GraphicsSettings) (s : Impl) (color : Texture)
    (hColor : s.m_renderTextures RenderTextureNames.Color = some color)
    (h : ∀ name ∈ NRDTextureNames, (s.m_renderTextures name).isSome = true) :
    ∃ s' resources linearDepth baseColorMetalness emissiveColor normalRoughness denoisedDiffuse
        denoisedSpecular,
      s.ProcessNRD g = some s' ∧
      s'.log = s.log ++
        [Effect.NRDTag resources, Effect.NRDSetConstants s.m_NRDCommonSettings_accumulationMode,
          Effect.NRDDenoise g.NRD_Denoiser,
          Effect.DenoisedCompositionProcess linearDepth baseColorMetalness emissiveColor
            normalRoughness denoisedDiffuse denoisedSpecular color] ∧
      s'.m_renderTextures = s.m_renderTextures ∧ s'.Upscaler = s.Upscaler ∧
      s'.m_renderSize = s.m_renderSize := by
  obtain ⟨t1, h1⟩ := Option.isSome_iff_exists.mp
    (h RenderTextureNames.LinearDepth (by simp [NRDTextureNames]))
  obtain ⟨t2, h2⟩ := Option.isSome_iff_exists.mp
    (h RenderTextureNames.BaseColorMetalness (by simp [NRDTextureNames]))
  obtain ⟨t3, h3⟩ := Option.isSome_iff_exists.mp
    (h RenderTextureNames.NormalRoughness (by simp [NRDTextureNames]))
  obtain ⟨t4, h4⟩ := Option.isSome_iff_exists.mp
    (h RenderTextureNames.DenoisedDiffuse (by simp [NRDTextureNames]))
  obtain ⟨t5, h5⟩ := Option.isSome_iff_exists.mp
    (h RenderTextureNames.DenoisedSpecular (by simp [NRDTextureNames]))
  obtain ⟨t6, h6⟩ := Option.isSome_iff_exists.mp
    (h RenderTextureNames.MotionVectors (by simp [NRDTextureNames]))
  obtain ⟨t7, h7⟩ := Option.isSome_iff_exists.mp
    (h RenderTextureNames.NoisyDiffuse (by simp [NRDTextureNames]))
  obtain ⟨t8, h8⟩ := Option.isSome_iff_exists.mp
    (h RenderTextureNames.NoisySpecular (by simp [NRDTextureNames]))
  obtain ⟨t9, h9⟩ := Option.isSome_iff_exists.mp
    (h RenderTextureNames.Validation (by simp [NRDTextureNames]))
  obtain ⟨t10, h10⟩ := Option.isSome_iff_exists.mp
    (h RenderTextureNames.EmissiveColor (by simp [NRDTextureNames]))
  refine ⟨{ s with
      log := s.log ++
        [Effect.NRDTag [t1, t6, t2, t3, t7, t8, t4, t5, t9],
         Effect.NRDSetConstants s.m_NRDCommonSettings_accumulationMode,
         Effect.NRDDenoise g.NRD_Denoiser] ++
        [Effect.DenoisedCompositionProcess t1 t2 t10 t3 t4 t5 color]
      m_NRDCommonSettings_accumulationMode := AccumulationMode.CONTINUE },
    [t1, t6, t2, t3, t7, t8, t4, t5, t9], t1, t2, t10, t3, t4, t5, ?_, ?_, rfl, rfl, rfl⟩
  · simp only [Impl.ProcessNRD, h1, h2, h3, h4, h5, h6, h7, h8, h9, h10, hColor,
      Option.bind_eq_bind, Option.some_bind]
  · simp

/-- The calls of the upscaler block when the textures it reads are present: at most one
call has a buffer pair, the upscaler call, which reads the texture held under Color
and writes the one held under FinalColor. -/
theorem SuperResolution_calls (svc : Services) (q : ColorBuffers)
    (depth motionVectors color finalColor : Texture)
    (hd : q.app.m_renderTextures RenderTextureNames.NormalizedDepth = some depth)
    (hm : q.app.m_renderTextures RenderTextureNames.MotionVectors = some motionVectors)
    (hc : q.app.m_renderTextures RenderTextureNames.Color = some color)
    (hf : q.app.m_renderTextures RenderTextureNames.FinalColor = some finalColor) :
    ∃ q' calls, q.SuperResolution svc = some q' ∧ q'.app.log = q.app.log ++ calls ∧
      q'.app.m_renderTextures = q.app.m_renderTextures ∧
      q'.inColor =
        (if (q.app.IsDLSSSuperResolutionEnabled svc || q.app.IsFSRSuperResolutionEnabled svc)
          = true then q.outColor else q.inColor) ∧
      q'.outColor =
        (if (q.app.IsDLSSSuperResolutionEnabled svc || q.app.IsFSRSuperResolutionEnabled svc)
          = true then q.inColor else q.outColor) ∧
      (((q.app.IsDLSSSuperResolutionEnabled svc || q.app.IsFSRSuperResolutionEnabled svc) = false ∧
          calls = []) ∨
        ((q.app.IsDLSSSuperResolutionEnabled svc || q.app.IsFSRSuperResolutionEnabled svc) = true ∧
          ∃ pre u, calls = pre ++ [u] ∧
            (∀ e ∈ pre, e.stage = none ∧ e.pingPong = none ∧ e.colorInput = none) ∧
            (u.stage = some Stage.DLSS ∨ u.stage = some Stage.FSR) ∧
            u.pingPong = some (color, finalColor) ∧ u.colorInput = some color)) := by
  cases hD : q.app.IsDLSSSuperResolutionEnabled svc
  · cases hF : q.app.IsFSRSuperResolutionEnabled svc
    · refine ⟨q, [], ?_, by simp, rfl, rfl, rfl, Or.inl ⟨rfl, rfl⟩⟩
      simp [ColorBuffers.SuperResolution, hD, hF]
    · refine ⟨⟨{ q.app with
            log := q.app.log ++
              [Effect.FSRSetConstants
                { q.app.m_FSRSettings with RenderSize := q.app.m_renderSize }] ++
              [Effect.FSRDispatch depth motionVectors color finalColor]
            m_FSRSettings := { RenderSize := q.app.m_renderSize, Reset := false } },
          q.outColor, q.inColor⟩,
        [Effect.FSRSetConstants { q.app.m_FSRSettings with RenderSize := q.app.m_renderSize },
          Effect.FSRDispatch depth motionVectors color finalColor],
        ?_, ?_, rfl, rfl, rfl,
        Or.inr ⟨rfl,
          [Effect.FSRSetConstants { q.app.m_FSRSettings with RenderSize := q.app.m_renderSize }],
          Effect.FSRDispatch depth motionVectors color finalColor, rfl, ?_, Or.inr rfl, rfl,
          rfl⟩⟩
      · simp only [ColorBuffers.SuperResolution, hD, hF, Impl.ProcessFSRSuperResolution, hd, hm,
          hc, hf, Option.bind_eq_bind, Option.some_bind, Option.map_some', if_true,
          Bool.false_eq_true, if_false]
      · simp
      · intro e he
        simp only [List.mem_singleton] at he
        subst he
        exact ⟨rfl, rfl, rfl⟩
  · refine ⟨⟨{ q.app with
          log := q.app.log ++
            [Effect.DLSSEvaluate depth motionVectors color finalColor q.app.m_renderSize] },
        q.outColor, q.inColor⟩,
      [Effect.DLSSEvaluate depth motionVectors color finalColor q.app.m_renderSize],
      ?_, rfl, rfl, rfl, rfl,
      Or.inr ⟨rfl, [],
        Effect.DLSSEvaluate depth motionVectors color finalColor q.app.m_renderSize, rfl, ?_,
        Or.inl rfl, rfl, rfl⟩⟩
    · simp only [ColorBuffers.SuperResolution, hD, Impl.ProcessDLSSSuperResolution, hd, hm,
        hc, hf, Option.bind_eq_bind, Option.some_bind, Option.map_some', if_true]
    · intro e he
      cases he

theorem filterMap_eq_nil_of_forall {α β : Type} (f : α → Option β) (l : List α)
    (h : ∀ e ∈ l, f e = none) : l.filterMap f = [] := by
  induction l with
  | nil => rfl
  | cons e rest ih =>
    rw [List.filterMap_cons, h e (List.mem_cons_self _ _)]
    exact ih fun x hx => h x (List.mem_cons_of_mem _ hx)

/-- The part of `PostProcessGraphics` after the upscaler block: it returns, none of its
calls is the denoiser or an upscaler, and the first colour input among its calls is
the logical input left by the upscaler block. -/
theorem PostProcessGraphics_tail (svc : Services) (features : StreamlineFeatures)
    (g : GraphicsSettings) (q : ColorBuffers) (depth motionVectors : Texture)
    (hd : q.app.m_renderTextures RenderTextureNames.NormalizedDepth = some depth)
    (hm : q.app.m_renderTextures RenderTextureNames.MotionVectors = some motionVectors)
    (hv : (IsNRDEnabled svc g && g.NRD_IsValidationOverlayEnabled) = true →
      (q.app.m_renderTextures RenderTextureNames.Validation).isSome = true) :
    ∃ s7 R,
      ((if IsDLSSFrameGenerationEnabled features g = true then
          (((q.NIS features g).ChromaticAberration g).Bloom g).app.ProcessDLSSFrameGeneration
            (((q.NIS features g).ChromaticAberration g).Bloom g).inColor
        else some (((q.NIS features g).ChromaticAberration g).Bloom g).app).bind fun s5 =>
      if (IsNRDEnabled svc g && g.NRD_IsValidationOverlayEnabled) = true then
        ((s5.ProcessToneMapping
            (((q.NIS features g).ChromaticAberration g).Bloom g).inColor).m_renderTextures
          RenderTextureNames.Validation).map fun validation =>
            (s5.ProcessToneMapping
              (((q.NIS features g).ChromaticAberration g).Bloom g).inColor).ProcessAlphaBlending
              validation
      else some (s5.ProcessToneMapping
        (((q.NIS features g).ChromaticAberration g).Bloom g).inColor)) = some s7 ∧
      s7.log = q.app.log ++ R ∧
      (∀ e ∈ R, e.stage ≠ some Stage.Denoise ∧ e.stage ≠ some Stage.DLSS ∧
        e.stage ≠ some Stage.FSR) ∧
      (R.filterMap Effect.colorInput).head? = some q.inColor := by
  obtain ⟨S, hl2, ht2, -, hSk, hSp, hSc, hi2, ho2⟩ := NIS_eq features g q
  obtain ⟨C, hl3, ht3, -, hCk, hCp, hCc, hi3, ho3⟩ :=
    ChromaticAberration_eq g (q.NIS features g)
  obtain ⟨B, hl4, ht4, -, hBk, hBp, hBc, hi4, -⟩ :=
    Bloom_eq g ((q.NIS features g).ChromaticAberration g)
  have htex4 : (((q.NIS features g).ChromaticAberration g).Bloom g).app.m_renderTextures
      = q.app.m_renderTextures := by rw [ht4, ht3, ht2]
  have hstep5 : ∃ s5 F,
      (if IsDLSSFrameGenerationEnabled features g = true then
          (((q.NIS features g).ChromaticAberration g).Bloom g).app.ProcessDLSSFrameGeneration
            (((q.NIS features g).ChromaticAberration g).Bloom g).inColor
        else some (((q.NIS features g).ChromaticAberration g).Bloom g).app) = some s5 ∧
      s5.log = (((q.NIS features g).ChromaticAberration g).Bloom g).app.log ++ F ∧
      s5.m_renderTextures = q.app.m_renderTextures ∧
      F.filterMap Effect.stage =
        (if IsDLSSFrameGenerationEnabled features g = true then [Stage.FrameGeneration] else []) ∧
      F.filterMap Effect.colorInput =
        (if IsDLSSFrameGenerationEnabled features g = true then
          [(((q.NIS features g).ChromaticAberration g).Bloom g).inColor] else []) := by
    cases hG : IsDLSSFrameGenerationEnabled features g
    · exact ⟨(((q.NIS features g).ChromaticAberration g).Bloom g).app, [], by simp, by simp,
        htex4, by simp, by simp⟩
    · refine ⟨{ (((q.NIS features g).ChromaticAberration g).Bloom g).app with
          log := (((q.NIS features g).ChromaticAberration g).Bloom g).app.log ++
            [Effect.DLSSGTag depth motionVectors
              (((q.NIS features g).ChromaticAberration g).Bloom g).inColor
              (((q.NIS features g).ChromaticAberration g).Bloom g).app.m_renderSize] },
        [Effect.DLSSGTag depth motionVectors
          (((q.NIS features g).ChromaticAberration g).Bloom g).inColor
          (((q.NIS features g).ChromaticAberration g).Bloom g).app.m_renderSize],
        ?_, rfl, htex4, rfl, rfl⟩
      simp only [Impl.ProcessDLSSFrameGeneration, htex4, hd, hm, if_true,
        Option.bind_eq_bind, Option.some_bind]
  obtain ⟨s5, F, hs5, hlog5, htex5, hFk, hFc⟩ := hstep5
  have hstep7 : ∃ s7 V,
      (if (IsNRDEnabled svc g && g.NRD_IsValidationOverlayEnabled) = true then
          ((s5.ProcessToneMapping
              (((q.NIS features g).ChromaticAberration g).Bloom g).inColor).m_renderTextures
            RenderTextureNames.Validation).map fun validation =>
              (s5.ProcessToneMapping
                (((q.NIS features g).ChromaticAberration g).Bloom g).inColor).ProcessAlphaBlending
                validation
        else some (s5.ProcessToneMapping
          (((q.NIS features g).ChromaticAberration g).Bloom g).inColor)) = some s7 ∧
      s7.log = s5.log ++
        [Effect.ToneMappingProcess (((q.NIS features g).ChromaticAberration g).Bloom g).inColor]
        ++ V ∧
      V.filterMap Effect.stage =
        (if (IsNRDEnabled svc g && g.NRD_IsValidationOverlayEnabled) = true then
          [Stage.ValidationOverlay] else []) ∧
      V.filterMap Effect.colorInput = [] := by
    cases hV : (IsNRDEnabled svc g && g.NRD_IsValidationOverlayEnabled)
    · exact ⟨s5.ProcessToneMapping (((q.NIS features g).ChromaticAberration g).Bloom g).inColor,
        [], by simp, by simp [Impl.ProcessToneMapping], by simp, rfl⟩
    · obtain ⟨v, hv'⟩ := Option.isSome_iff_exists.mp (hv hV)
      have hv5 : (s5.ProcessToneMapping
          (((q.NIS features g).ChromaticAberration g).Bloom g).inColor).m_renderTextures
          RenderTextureNames.Validation = some v := by
        show s5.m_renderTextures RenderTextureNames.Validation = some v
        rw [htex5, hv']
      refine ⟨(s5.ProcessToneMapping
          (((q.NIS features g).ChromaticAberration g).Bloom g).inColor).ProcessAlphaBlending v,
        [Effect.AlphaBlendingDraw v], ?_, ?_, rfl, rfl⟩
      · simp only [hv5, if_true, Option.map_some']
      · simp [Impl.ProcessAlphaBlending, Impl.ProcessToneMapping]
  obtain ⟨s7, V, hs7, hlog7, hVk, hVc⟩ := hstep7
  refine ⟨s7, S ++ C ++ B ++ F
      ++ [Effect.ToneMappingProcess (((q.NIS features g).ChromaticAberration g).Bloom g).inColor]
      ++ V, ?_, ?_, ?_, ?_⟩
  · rw [hs5]
    simp only [Option.some_bind, hs7]
  · rw [hlog7, hlog5, hl4, hl3, hl2]
    simp only [List.append_assoc]
  · intro e he
    simp only [List.mem_append, List.mem_singleton] at he
    have key : ∀ k, e.stage = some k →
        k = Stage.NIS ∨ k = Stage.ChromaticAberration ∨ k = Stage.Bloom ∨
          k = Stage.FrameGeneration ∨ k = Stage.ToneMapping ∨ k = Stage.ValidationOverlay := by
      intro k hk
      rcases he with ((((he | he) | he) | he) | he) | he
      · exact Or.inl (stage_of_mem S _ _ hSk e he k hk)
      · exact Or.inr (Or.inl (stage_of_mem C _ _ hCk e he k hk))
      · exact Or.inr (Or.inr (Or.inl (stage_of_mem B _ _ hBk e he k hk)))
      · exact Or.inr (Or.inr (Or.inr (Or.inl (stage_of_mem F _ _ hFk e he k hk))))
      · subst he
        simp only [Effect.stage, Option.some.injEq] at hk
        exact Or.inr (Or.inr (Or.inr (Or.inr (Or.inl hk.symm))))
      · exact Or.inr (Or.inr (Or.inr (Or.inr (Or.inr (stage_of_mem V _ _ hVk e he k hk)))))
    refine ⟨fun h => ?_, fun h => ?_, fun h => ?_⟩ <;>
      rcases key _ h with h' | h' | h' | h' | h' | h' <;> cases h'
  · have hS := filterMap_colorInput_of_colorRead_none S hSc
    have hC := filterMap_colorInput_of_colorRead_none C hCc
    have hB := filterMap_colorInput_of_colorRead_none B hBc
    rw [hSp] at hS
    rw [hCp] at hC
    rw [hBp] at hB
    refine first_consumer_props q.inColor q.outColor (q.NIS features g).inColor
      (q.NIS features g).outColor ((q.NIS features g).ChromaticAberration g).inColor
      ((q.NIS features g).ChromaticAberration g).outColor
      (((q.NIS features g).ChromaticAberration g).Bloom g).inColor
      (IsNISEnabled features g) g.IsChromaticAberrationEnabled g.Bloom_IsEnabled
      (IsDLSSFrameGenerationEnabled features g) _ hi2 hi3 hi4 ?_
    simp only [List.filterMap_append, hS, hC, hB, hFc, hVc, List.append_nil]
    cases IsNISEnabled features g <;> cases g.IsChromaticAberrationEnabled <;>
      cases g.Bloom_IsEnabled <;> cases IsDLSSFrameGenerationEnabled features g <;>
      simp [Effect.colorInput]

/-! ## Theorems on the fixed buffers of the upscalers and the denoiser -/

/-- C25: in a frame whose textures are present, whenever a call of the frame is an
upscaler (DLSS or FSR), it reads the texture held under Color and writes the one
held under FinalColor, and no swapping stage has been called before it, so these
are the logical input and output at that point; whenever a call is the denoised
composition, it writes into the texture held under Color, and the first colour
input among the calls after it is that texture. Such calls are made when the
upscaler, respectively the denoiser, is enabled. -/
theorem C25_fixed_buffers_agree_with_logical_slots (svc : Services)
    (features : StreamlineFeatures) (g : GraphicsSettings) (s : Impl) (color finalColor : Texture)
    (hColor : s.m_renderTextures RenderTextureNames.Color = some color)
    (hFinalColor : s.m_renderTextures RenderTextureNames.FinalColor = some finalColor)
    (hUpscaler : ∀ name ∈ upscalerTextureNames, (s.m_renderTextures name).isSome = true)
    (hNRD : IsNRDEnabled svc g = true →
      ∀ name ∈ NRDTextureNames, (s.m_renderTextures name).isSome = true) :
    ∃ s' calls, s.PostProcessGraphics svc features g = some s' ∧
      s'.log = s.log ++ calls ∧
      (∀ before e after, calls = before ++ e :: after →
        (e.stage = some Stage.DLSS ∨ e.stage = some Stage.FSR) →
        e.pingPong = some (color, finalColor) ∧ before.filterMap Effect.pingPong = []) ∧
      ((s.IsDLSSSuperResolutionEnabled svc || s.IsFSRSuperResolutionEnabled svc) = true →
        ∃ e ∈ calls, e.stage = some Stage.DLSS ∨ e.stage = some Stage.FSR) ∧
      (∀ before e after, calls = before ++ e :: after → e.stage = some Stage.Denoise →
        e.compositionOutput = some color ∧
        (after.filterMap Effect.colorInput).head? = some color) ∧
      (IsNRDEnabled svc g = true → ∃ e ∈ calls, e.stage = some Stage.Denoise) := by
  obtain ⟨depth, hdepth⟩ := Option.isSome_iff_exists.mp
    (hUpscaler RenderTextureNames.NormalizedDepth (by simp [upscalerTextureNames]))
  obtain ⟨mv, hmv⟩ := Option.isSome_iff_exists.mp
    (hUpscaler RenderTextureNames.MotionVectors (by simp [upscalerTextureNames]))
  -- the denoiser
  have hstep1 : ∃ s1 N,
      (if IsNRDEnabled svc g = true then s.PrepareStreamline.ProcessNRD g
        else some s.PrepareStreamline) = some s1 ∧
      s1.log = s.PrepareStreamline.log ++ N ∧ s1.m_renderTextures = s.m_renderTextures ∧
      s1.Upscaler = s.Upscaler ∧
      ((IsNRDEnabled svc g = false ∧ N = []) ∨
        (IsNRDEnabled svc g = true ∧ ∃ pre c, N = pre ++ [c] ∧
          (∀ e ∈ pre, e.stage = none ∧ e.pingPong = none ∧ e.colorInput = none) ∧
          c.stage = some Stage.Denoise ∧ c.pingPong = none ∧ c.colorInput = none ∧
          c.compositionOutput = some color)) := by
    cases hN : IsNRDEnabled svc g
    · exact ⟨s.PrepareStreamline, [], by simp, by simp, rfl, rfl, Or.inl ⟨rfl, rfl⟩⟩
    · obtain ⟨s1, r, l, b, e, n, dd, ds, h1, h2, h3, h4, -⟩ :=
        ProcessNRD_calls g s.PrepareStreamline color hColor (hNRD hN)
      refine ⟨s1, _, by simpa using h1, h2, h3, h4, Or.inr ⟨rfl,
        [Effect.NRDTag r,
          Effect.NRDSetConstants s.PrepareStreamline.m_NRDCommonSettings_accumulationMode,
          Effect.NRDDenoise g.NRD_Denoiser],
        Effect.DenoisedCompositionProcess l b e n dd ds color, rfl, ?_, rfl, rfl, rfl, rfl⟩⟩
      intro x hx
      simp only [List.mem_cons, List.mem_singleton, List.not_mem_nil, or_false] at hx
      rcases hx with rfl | rfl | rfl <;> exact ⟨rfl, rfl, rfl⟩
  obtain ⟨s1, N, hs1, hlog1, htex1, hUp1, hN⟩ := hstep1
  have hc1 : s1.m_renderTextures RenderTextureNames.Color = some color := by rw [htex1, hColor]
  have hf1 : s1.m_renderTextures RenderTextureNames.FinalColor = some finalColor := by
    rw [htex1, hFinalColor]
  -- the upscaler block
  obtain ⟨q1, U, hq1, hlogq1, htexq1, hi1, -, hU⟩ :=
    SuperResolution_calls svc ⟨s1, color, finalColor⟩ depth mv color finalColor
      (by rw [htex1, hdepth]) (by rw [htex1, hmv]) hc1 hf1
  rw [IsDLSSSuperResolutionEnabled_congr svc s s1 hUp1,
    IsFSRSuperResolutionEnabled_congr svc s s1 hUp1] at hi1 hU
  -- the stages after it
  obtain ⟨s7, R, hs7, hlog7, hRk, hRc⟩ := PostProcessGraphics_tail svc features g q1 depth mv
    (by rw [htexq1, htex1, hdepth]) (by rw [htexq1, htex1, hmv])
    (fun hV => by
      have hN' : IsNRDEnabled svc g = true := by
        cases hN' : IsNRDEnabled svc g
        · simp [hN'] at hV
        · rfl
      rw [htexq1, htex1]
      exact hNRD hN' RenderTextureNames.Validation (by simp [NRDTextureNames]))
  have hNfacts : ∀ e ∈ N, (e.stage = none ∨ e.stage = some Stage.Denoise) ∧
      e.pingPong = none ∧ e.colorInput = none := by
    intro e he
    rcases hN with ⟨-, rfl⟩ | ⟨-, pre, c, rfl, hpre, hc, hcp, hcc, -⟩
    · cases he
    · simp only [List.mem_append, List.mem_singleton] at he
      rcases he with he | rfl
      · exact ⟨Or.inl (hpre e he).1, (hpre e he).2⟩
      · exact ⟨Or.inr hc, hcp, hcc⟩
  have hUfacts : ∀ e ∈ U, e.stage ≠ some Stage.Denoise := by
    intro e he
    rcases hU with ⟨-, rfl⟩ | ⟨-, pre, u, rfl, hpre, hu, -⟩
    · cases he
    · simp only [List.mem_append, List.mem_singleton] at he
      rcases he with he | rfl
      · rw [(hpre e he).1]
        exact fun h => by cases h
      · rcases hu with hu | hu <;> rw [hu] <;> exact fun h => by cases h
  refine ⟨s7, [Effect.StreamlineSetConstants s.m_slConstants_reset] ++ N ++ U ++ R,
    ?_, ?_, ?_, ?_, ?_, ?_⟩
  · rw [PostProcessGraphics_eq, hs1]
    simp only [Option.some_bind, hc1, hf1, hq1]
    exact hs7
  · rw [hlog7, hlogq1, hlog1]
    simp only [Impl.PrepareStreamline, List.append_assoc]
  · intro before e after hsplit he
    rcases hU with ⟨-, rfl⟩ | ⟨-, pre, u, rfl, hpre, hu, hup, -⟩
    · exfalso
      have hmem : e ∈ [Effect.StreamlineSetConstants s.m_slConstants_reset] ++ N ++ [] ++ R := by
        rw [hsplit]
        simp
      simp only [List.mem_append, List.mem_singleton, List.not_mem_nil, or_false] at hmem
      rcases hmem with (rfl | hmem) | hmem
      · rcases he with he | he <;> cases he
      · rcases (hNfacts e hmem).1 with h | h <;> rw [h] at he <;> rcases he with he | he <;>
          cases he
      · rcases he with he | he
        · exact (hRk e hmem).2.1 he
        · exact (hRk e hmem).2.2 he
    · have hsplit' : ([Effect.StreamlineSetConstants s.m_slConstants_reset] ++ N ++ pre) ++ u :: R
          = before ++ e :: after := by
        rw [← hsplit]
        simp only [List.append_assoc, List.singleton_append, List.cons_append, List.nil_append]
      have hP : ∀ x ∈ [Effect.StreamlineSetConstants s.m_slConstants_reset] ++ N ++ pre,
          ¬ (x.stage = some Stage.DLSS ∨ x.stage = some Stage.FSR) := by
        intro x hx hp
        simp only [List.mem_append, List.mem_singleton] at hx
        rcases hx with (rfl | hx) | hx
        · rcases hp with hp | hp <;> cases hp
        · rcases (hNfacts x hx).1 with h | h <;> rw [h] at hp <;> rcases hp with hp | hp <;>
            cases hp
        · rw [(hpre x hx).1] at hp
          rcases hp with hp | hp <;> cases hp
      have hQ : ∀ x ∈ R, ¬ (x.stage = some Stage.DLSS ∨ x.stage = some Stage.FSR) := by
        intro x hx hp
        rcases hp with hp | hp
        · exact (hRk x hx).2.1 hp
        · exact (hRk x hx).2.2 hp
      obtain ⟨hb, heu, -⟩ := split_unique
        (fun x : Effect => x.stage = some Stage.DLSS ∨ x.stage = some Stage.FSR) _ _ _ _ _ _
        hsplit' hP hQ he
      subst hb heu
      refine ⟨hup, ?_⟩
      apply filterMap_eq_nil_of_forall
      intro x hx
      simp only [List.mem_append, List.mem_singleton] at hx
      rcases hx with (rfl | hx) | hx
      · rfl
      · exact (hNfacts x hx).2.1
      · exact (hpre x hx).2.1
  · intro hup
    rcases hU with ⟨hoff, -⟩ | ⟨-, pre, u, rfl, -, hu, -⟩
    · rw [hup] at hoff
      cases hoff
    · exact ⟨u, by simp, hu⟩
  · intro before e after hsplit he
    rcases hN with ⟨-, rfl⟩ | ⟨-, pre, c, rfl, hpre, hc, -, -, hco⟩
    · exfalso
      have hmem : e ∈ [Effect.StreamlineSetConstants s.m_slConstants_reset] ++ [] ++ U ++ R := by
        rw [hsplit]
        simp
      simp only [List.mem_append, List.mem_singleton, List.not_mem_nil, or_false] at hmem
      rcases hmem with (rfl | hmem) | hmem
      · cases he
      · exact hUfacts e hmem he
      · exact (hRk e hmem).1 he
    · have hsplit' : ([Effect.StreamlineSetConstants s.m_slConstants_reset] ++ pre) ++ c :: (U ++ R)
          = before ++ e :: after := by
        rw [← hsplit]
        simp only [List.append_assoc, List.singleton_append, List.cons_append, List.nil_append]
      have hP : ∀ x ∈ [Effect.StreamlineSetConstants s.m_slConstants_reset] ++ pre,
          ¬ (x.stage = some Stage.Denoise) := by
        intro x hx hp
        simp only [List.mem_append, List.mem_singleton] at hx
        rcases hx with rfl | hx
        · cases hp
        · rw [(hpre x hx).1] at hp
          cases hp
      have hQ : ∀ x ∈ U ++ R, ¬ (x.stage = some Stage.Denoise) := by
        intro x hx hp
        simp only [List.mem_append] at hx
        rcases hx with hx | hx
        · exact hUfacts x hx hp
        · exact (hRk x hx).1 hp
      obtain ⟨-, hec, ha⟩ := split_unique
        (fun x : Effect => x.stage = some Stage.Denoise) _ _ _ _ _ _ hsplit' hP hQ he
      subst hec ha
      refine ⟨hco, ?_⟩
      rw [List.filterMap_append]
      rcases hU with ⟨hoff, rfl⟩ | ⟨-, pre', u, rfl, hpre', -, -, huc⟩
      · rw [hoff] at hi1
        simp only [Bool.false_eq_true, if_false] at hi1
        rw [List.filterMap_nil, List.nil_append, hRc, hi1]
      · rw [List.filterMap_append,
          filterMap_eq_nil_of_forall _ pre' fun x hx => (hpre' x hx).2.2]
        simp [huc]
  · intro hon
    rcases hN with ⟨hoff, -⟩ | ⟨-, pre, c, rfl, -, hc, -⟩
    · rw [hon] at hoff
      cases hoff
    · exact ⟨c, by simp, hc⟩

/-- Evaluation of C25 on the created application with DLSS selected and
`sampleSettings`: the frame returns, the denoised composition writes into the Color
texture (identity 0), and the DLSS call, which comes next among the stages, reads it
and writes the FinalColor texture (identity 1). -/
theorem C25_fixed_buffers_agree_with_logical_slots_witness :
    ∃ color finalColor,
      upscaledImpl.m_renderTextures RenderTextureNames.Color = some color ∧
      upscaledImpl.m_renderTextures RenderTextureNames.FinalColor = some finalColor ∧
      color.id = 0 ∧ finalColor.id = 1 ∧
      ∃ s' calls, upscaledImpl.PostProcessGraphics twoThirdsServices allFeatures sampleSettings
          = some s' ∧
        s'.log = upscaledImpl.log ++ calls ∧
        (∃ e ∈ calls, (e.stage = some Stage.DLSS ∨ e.stage = some Stage.FSR) ∧
          e.pingPong = some (color, finalColor)) ∧
        ∃ e ∈ calls, e.stage = some Stage.Denoise ∧ e.compositionOutput = some color := by
  refine ⟨_, _, rfl, rfl, rfl, rfl, ?_⟩
  obtain ⟨s', calls, h1, h2, h3, h4, h5, h6⟩ :=
    C25_fixed_buffers_agree_with_logical_slots twoThirdsServices allFeatures
      sampleSettings upscaledImpl _ _ rfl rfl (by decide) (fun _ => by decide)
  refine ⟨s', calls, h1, h2, ?_, ?_⟩
  · obtain ⟨e, he, hs⟩ := h4 rfl
    obtain ⟨before, after, hsplit⟩ := List.append_of_mem he
    exact ⟨e, he, hs, (h3 before e after hsplit hs).1⟩
  · obtain ⟨e, he, hs⟩ := h6 rfl
    obtain ⟨before, after, hsplit⟩ := List.append_of_mem he
    exact ⟨e, he, hs, (h5 before e after hsplit hs).1⟩

/-! ## Theorems on the mode switches of the negotiation -/

/-- C28: for every configured mode and every output size `SelectSuperResolutionMode` returns
a mode other than Auto; the mode switches of the DLSS and of the FSR case reach
their `default: throw` for Auto only, so on the selected mode both take a regular
case, and `SetSuperResolutionOptions` returns for every upscaler, mode and output
size. -/
theorem C28_mode_switch_default_unreachable (svc : Services) (s : Impl) :
    (∀ (Mode : SuperResolutionMode) (outputSize : SIZE),
      SelectSuperResolutionMode Mode outputSize ≠ SuperResolutionMode.Auto) ∧
    (∀ m, toDLSSMode m = none ↔ m = SuperResolutionMode.Auto) ∧
    (∀ m, toFSRMode m = none ↔ m = SuperResolutionMode.Auto) ∧
    (∀ (Mode : SuperResolutionMode) (outputSize : SIZE),
      (∃ mode, toDLSSMode (SelectSuperResolutionMode Mode outputSize) = some mode) ∧
      ∃ mode, toFSRMode (SelectSuperResolutionMode Mode outputSize) = some mode) ∧
    ∃ s', s.SetSuperResolutionOptions svc = some s' := by
  refine ⟨SelectSuperResolutionMode_ne_Auto, ?_, ?_, ?_, SetSuperResolutionOptions_returns svc s⟩
  · intro m
    cases m <;> simp [toDLSSMode]
  · intro m
    cases m <;> simp [toFSRMode]
  · intro Mode outputSize
    exact ⟨toDLSSMode_of_ne_Auto _ (SelectSuperResolutionMode_ne_Auto Mode outputSize),
      toFSRMode_of_ne_Auto _ (SelectSuperResolutionMode_ne_Auto Mode outputSize)⟩

/-! ## Auxiliary lemmas on the scene loading and the frame path -/

theorem FramePath_refl (ready : Bool) (s : SceneLoader) : FramePath ready s (s, none) :=
  ⟨rfl, rfl, rfl, [], by simp, fun _ h => by cases h⟩

theorem FramePath_andThen (ready : Bool) (s : SceneLoader) (r : SceneLoader × Option Thrown)
    (f : SceneLoader → SceneLoader × Option Thrown) (hr : FramePath ready s r)
    (hf : ∀ s1 : SceneLoader, s1.m_scene = s.m_scene → s1.m_futures_Scene = s.m_futures_Scene →
      FramePath ready s1 (f s1)) :
    FramePath ready s (andThen r f) := by
  obtain ⟨s1, thrown⟩ := r
  cases thrown with
  | some t => exact hr
  | none =>
    obtain ⟨h1, h2, h3, new, h4, h5⟩ := hr
    obtain ⟨g1, g2, g3, new', g4, g5⟩ := hf s1 h1 h2
    refine ⟨g1.trans h1, g2.trans h2, g3.trans h3, new ++ new', ?_, ?_⟩
    · show (f s1).1.calls = _
      rw [g4, h4, List.append_assoc]
    · intro call hc
      rcases List.mem_append.1 hc with hc | hc
      · exact h5 call hc
      · exact g5 call hc

theorem IsSceneReady_congr (s s1 : SceneLoader) (h1 : s1.m_scene = s.m_scene)
    (h2 : s1.m_futures_Scene = s.m_futures_Scene) : s1.IsSceneReady = s.IsSceneReady := by
  unfold SceneLoader.IsSceneReady SceneLoader.IsSceneLoading
  rw [h1, h2]

theorem FramePath_invoke (ready : Bool) (input : FrameInput) (call : FrameCall) (s : SceneLoader)
    (h : call.usesScene = true → ready = true) : FramePath ready s (s.invoke input call) :=
  ⟨rfl, rfl, rfl, [call], rfl, fun c hc => by
    simp only [List.mem_singleton] at hc
    subst hc
    exact h⟩

theorem FramePath_Update (input : FrameInput) (s : SceneLoader) :
    FramePath s.IsSceneReady s (s.Update input) := by
  unfold SceneLoader.Update
  cases h : s.IsSceneReady
  · exact FramePath_refl _ s
  · exact FramePath_invoke _ input _ s fun _ => rfl

theorem FramePath_stepTimerTick (input : FrameInput) (n : Nat) (s : SceneLoader) :
    FramePath s.IsSceneReady s (s.stepTimerTick input n) := by
  induction n generalizing s with
  | zero => exact FramePath_refl _ s
  | succ n ih =>
    unfold SceneLoader.stepTimerTick
    have h1 : FramePath s.IsSceneReady s
        (SceneLoader.Update input { s with frameCount := (s.frameCount + 1) % 4294967296 }) :=
      FramePath_Update input { s with frameCount := (s.frameCount + 1) % 4294967296 }
    refine FramePath_andThen _ s _ _ h1 ?_
    intro s1 hs1 hs2
    rw [← IsSceneReady_congr s s1 hs1 hs2]
    exact ih s1

theorem FramePath_Render_scene (input : FrameInput) (s : SceneLoader) :
    FramePath s.IsSceneReady s (s.Render_scene input) := by
  unfold SceneLoader.Render_scene
  cases h : s.IsSceneReady
  · exact FramePath_refl _ s
  · simp only [if_true]
    refine FramePath_andThen _ s _ _ (FramePath_andThen _ s _ _ (FramePath_andThen _ s _ _ ?_ ?_) ?_)
      ?_
    · cases input.IsStatic
      · exact FramePath_andThen _ s _ _ (FramePath_invoke _ input _ s fun _ => rfl)
          fun s1 _ _ => FramePath_invoke _ input _ s1 fun _ => rfl
      · exact FramePath_refl _ s
    · intro s1 _ _
      cases input.hasLights
      · exact FramePath_refl _ s1
      · exact FramePath_invoke _ input _ s1 fun _ => rfl
    · intro s1 _ _
      exact FramePath_invoke _ input _ s1 fun _ => rfl
    · intro s1 _ _
      exact FramePath_invoke _ input _ s1 fun _ => rfl

theorem SameScene_trans (s s1 s2 : SceneLoader) (h1 : SameScene s s1) (h2 : SameScene s1 s2) :
    SameScene s s2 :=
  ⟨h2.1.trans h1.1, h2.2.1.trans h1.2.1, h2.2.2.1.trans h1.2.2.1, h2.2.2.2.1.trans h1.2.2.2.1,
    h2.2.2.2.2.trans h1.2.2.2.2⟩

/-- The windows of the interface touch neither the scene nor the exception slot. -/
theorem RenderUI_post (input : FrameInput) (s : SceneLoader) :
    SameScene s
      (((s.RenderFileDialog input).RenderSettingsWindow input).RenderLoadingSceneWindow input) := by
  have h1 : SameScene s (s.RenderFileDialog input) := by
    unfold SceneLoader.RenderFileDialog
    cases input.FileDialog <;> exact ⟨rfl, rfl, rfl, rfl, rfl⟩
  have h2 : ∀ s1 : SceneLoader, SameScene s1 (s1.RenderSettingsWindow input) := by
    intro s1
    unfold SceneLoader.RenderSettingsWindow
    cases input.WindowSetting <;> cases input.HDRSetting <;>
      cases input.SuperResolutionSetting <;> exact ⟨rfl, rfl, rfl, rfl, rfl⟩
  have h3 : ∀ s1 : SceneLoader, SameScene s1 (s1.RenderLoadingSceneWindow input) := by
    intro s1
    unfold SceneLoader.RenderLoadingSceneWindow
    cases (s1.m_sceneErrorMessage != "" && input.errorWindowClosed) <;>
      exact ⟨rfl, rfl, rfl, rfl, rfl⟩
  exact SameScene_trans _ _ _ (SameScene_trans _ _ _ h1 (h2 _)) (h3 _)

theorem FramePath_RenderUI (ready : Bool) (input : FrameInput) (s : SceneLoader) :
    FramePath ready s (s.RenderUI input) := by
  unfold SceneLoader.RenderUI
  refine FramePath_andThen _ s _ _ (FramePath_invoke _ input _ s fun h => by cases h) ?_
  intro s1 _ _
  obtain ⟨h1, h2, h3, h4, -⟩ := RenderUI_post input s1
  exact ⟨h1, h2, h3, [], by rw [List.append_nil]; exact h4, fun _ h => by cases h⟩

theorem FramePath_historySwap (ready : Bool) (input : FrameInput) (s : SceneLoader) :
    FramePath ready s (s.historySwap input) := by
  unfold SceneLoader.historySwap
  cases Render_historySwap s.app.m_renderTextures <;>
    exact ⟨rfl, rfl, rfl, [], by simp, fun _ h => by cases h⟩

theorem FramePath_Render (input : FrameInput) (s : SceneLoader) :
    FramePath s.IsSceneReady s (s.Render input) := by
  unfold SceneLoader.Render
  by_cases h : s.frameCount = 0
  · rw [if_pos h]
    exact FramePath_refl _ s
  · rw [if_neg h]
    refine FramePath_andThen _ s _ _
      (FramePath_andThen _ s _ _ (FramePath_Render_scene input s) ?_) ?_
    · intro s1 _ _
      cases input.IsVisible
      · exact FramePath_refl _ s1
      · exact FramePath_RenderUI _ input s1
    · intro s1 _ _
      exact FramePath_historySwap _ input s1

/-- The poll of the scene future records no call that uses the scene and leaves the
exception slot alone. -/
theorem pollSceneFuture_spec (features : StreamlineFeatures) (g : GraphicsSettings)
    (s : SceneLoader) :
    (s.pollSceneFuture features g).m_exception = s.m_exception ∧
      (s.pollSceneFuture features g).app = s.app ∧
      (s.pollSceneFuture features g).frameCount = s.frameCount ∧
      (s.pollSceneFuture features g).m_futures_LoadScene = s.m_futures_LoadScene ∧
      (∀ future, s.m_futures_Scene = some future → future.ready = false →
        (s.pollSceneFuture features g).m_futures_Scene = some future) ∧
      ∃ new, (s.pollSceneFuture features g).calls = s.calls ++ new ∧
        ∀ call ∈ new, call.usesScene = false := by
  have hite : ∀ (c : Bool) (s1 : SceneLoader) (call : FrameCall),
      call.usesScene = false →
      (if c = true then { s1 with calls := s1.calls ++ [call] } else s1).m_exception
          = s1.m_exception ∧
      (if c = true then { s1 with calls := s1.calls ++ [call] } else s1).app = s1.app ∧
      (if c = true then { s1 with calls := s1.calls ++ [call] } else s1).frameCount
          = s1.frameCount ∧
      (if c = true then { s1 with calls := s1.calls ++ [call] } else s1).m_futures_LoadScene
          = s1.m_futures_LoadScene ∧
      (if c = true then { s1 with calls := s1.calls ++ [call] } else s1).m_futures_Scene
          = s1.m_futures_Scene ∧
      ∃ new, (if c = true then { s1 with calls := s1.calls ++ [call] } else s1).calls
          = s1.calls ++ new ∧ ∀ call ∈ new, call.usesScene = false := by
    intro c s1 call hcall
    cases c
    · exact ⟨rfl, rfl, rfl, rfl, rfl, [], by simp, fun _ h => by cases h⟩
    · exact ⟨rfl, rfl, rfl, rfl, rfl, [call], rfl, fun c hc => by
        simp only [List.mem_singleton] at hc
        subst hc
        exact hcall⟩
  have hSet : ∀ (enable : Bool) (s1 : SceneLoader),
      (s1.SetFrameGenerationOptions enable).m_exception = s1.m_exception ∧
      (s1.SetFrameGenerationOptions enable).app = s1.app ∧
      (s1.SetFrameGenerationOptions enable).frameCount = s1.frameCount ∧
      (s1.SetFrameGenerationOptions enable).m_futures_LoadScene = s1.m_futures_LoadScene ∧
      (s1.SetFrameGenerationOptions enable).m_futures_Scene = s1.m_futures_Scene ∧
      ∃ new, (s1.SetFrameGenerationOptions enable).calls = s1.calls ++ new ∧
        ∀ call ∈ new, call.usesScene = false := by
    intro enable s1
    exact hite _
      { s1 with m_DLSSGOptions_mode := if enable = true then DLSSGMode.eAuto else DLSSGMode.eOff }
      _ rfl
  rcases hf : s.m_futures_Scene with _ | future
  · have key : s.pollSceneFuture features g = s := by
      unfold SceneLoader.pollSceneFuture
      rw [hf]
    rw [key]
    exact ⟨rfl, rfl, rfl, rfl, fun _ h _ => (by cases h), [], by simp, fun _ h => by cases h⟩
  · cases hr : future.ready
    · cases hm : (s.m_DLSSGOptions_mode != DLSSGMode.eOff)
      · have key : s.pollSceneFuture features g = s := by
          unfold SceneLoader.pollSceneFuture
          rw [hf]
          simp only [hr, hm, Bool.false_eq_true, if_false]
        rw [key]
        exact ⟨rfl, rfl, rfl, rfl, fun future' hfut _ => by rw [hf, ← hfut], [], by simp,
          fun _ h => by cases h⟩
      · have key : s.pollSceneFuture features g = s.SetFrameGenerationOptions false := by
          unfold SceneLoader.pollSceneFuture
          rw [hf]
          simp only [hr, hm, Bool.false_eq_true, if_false, if_true]
        rw [key]
        obtain ⟨h1, h2, h3, h4, h5, h6⟩ := hSet false s
        exact ⟨h1, h2, h3, h4, fun future' hfut _ => by rw [h5, hf, ← hfut], h6⟩
    · have hcontra : ∀ future', some future = some future' → future'.ready = false → False := by
        intro future' hfut hnr
        cases hfut
        rw [hr] at hnr
        cases hnr
      cases hm : (s.m_scene.isSome && s.m_DLSSGOptions_mode == DLSSGMode.eOff
          && IsDLSSFrameGenerationEnabled features g)
      · have key : s.pollSceneFuture features g = { s with m_futures_Scene := none } := by
          unfold SceneLoader.pollSceneFuture
          rw [hf]
          simp only [hr, hm, Bool.false_eq_true, if_false, if_true]
        rw [key]
        exact ⟨rfl, rfl, rfl, rfl, fun future' hfut hnr => (hcontra future' hfut hnr).elim,
          [], by simp, fun _ h => by cases h⟩
      · have key : s.pollSceneFuture features g
            = SceneLoader.SetFrameGenerationOptions
                (g.IsDLSSFrameGenerationEnabled && g.ReflexMode != ReflexMode.eOff)
                { s with m_futures_Scene := none } := by
          unfold SceneLoader.pollSceneFuture
          rw [hf]
          simp only [hr, hm, if_true]
        rw [key]
        obtain ⟨h1, h2, h3, h4, -, h6⟩ := hSet
          (g.IsDLSSFrameGenerationEnabled && g.ReflexMode != ReflexMode.eOff)
          { s with m_futures_Scene := none }
        exact ⟨h1, h2, h3, h4, fun future' hfut hnr => (hcontra future' hfut hnr).elim, h6⟩

/-- The method `LoadScene` records no call and leaves the exception slot alone. -/
theorem LoadScene_frame (parse : String → Except Thrown Nat) (filePath : String)
    (s s' : SceneLoader) (h : s.LoadScene parse filePath = Except.ok s') :
    s'.calls = s.calls ∧ s'.m_exception = s.m_exception ∧ s'.m_scene = s.m_scene := by
  unfold SceneLoader.LoadScene at h
  cases hp : parse filePath with
  | ok sceneDesc =>
    simp only [hp, Except.ok.injEq] at h
    subst h
    exact ⟨rfl, rfl, rfl⟩
  | error thrown =>
    cases thrown with
    | exception what =>
      simp only [hp, Except.ok.injEq] at h
      subst h
      exact ⟨rfl, rfl, rfl⟩
    | other id => simp [hp] at h

theorem Quiet_refl (s : SceneLoader) : Quiet s (s, none) :=
  ⟨rfl, [], by simp, fun _ h => by cases h⟩

theorem Quiet_andThen (s : SceneLoader) (r : SceneLoader × Option Thrown)
    (f : SceneLoader → SceneLoader × Option Thrown) (hr : Quiet s r)
    (hf : ∀ s1 : SceneLoader, Quiet s1 (f s1)) : Quiet s (andThen r f) := by
  obtain ⟨s1, thrown⟩ := r
  cases thrown with
  | some t => exact hr
  | none =>
    obtain ⟨h1, new, h2, h3⟩ := hr
    obtain ⟨g1, new', g2, g3⟩ := hf s1
    refine ⟨g1.trans h1, new ++ new', ?_, ?_⟩
    · show (f s1).1.calls = _
      rw [g2, h2, List.append_assoc]
    · intro call hc
      rcases List.mem_append.1 hc with hc | hc
      · exact h3 call hc
      · exact g3 call hc

/-- A sequence of two statements that do not throw does not throw. -/
theorem andThen_snd_none (r : SceneLoader × Option Thrown)
    (f : SceneLoader → SceneLoader × Option Thrown) (hr : r.2 = none)
    (hf : ∀ s1 : SceneLoader, (f s1).2 = none) : (andThen r f).2 = none := by
  obtain ⟨s1, thrown⟩ := r
  have ht : thrown = none := hr
  subst ht
  exact hf s1

/-- A deferred entry that makes one call which does not use the scene. -/
theorem runDeferredCall_spec (input : FrameInput) (call : FrameCall) (registered : Bool)
    (erase : SceneLoader → SceneLoader) (s : SceneLoader) (hcall : call.usesScene = false)
    (herase : ∀ s1 : SceneLoader, SameScene s1 (erase s1)) :
    Quiet s (s.runDeferredCall input call registered erase) ∧
      (input.throws call = none → (s.runDeferredCall input call registered erase).2 = none) := by
  unfold SceneLoader.runDeferredCall
  cases registered
  · exact ⟨Quiet_refl s, fun _ => rfl⟩
  · simp only [if_true]
    refine ⟨Quiet_andThen s _ _ ?_ ?_, fun h => andThen_snd_none _ _ h fun _ => rfl⟩
    · exact ⟨rfl, [call], rfl, fun c hc => by
        simp only [List.mem_singleton] at hc
        subst hc
        exact hcall⟩
    · intro s1
      obtain ⟨-, -, h3, h4, -⟩ := herase s1
      exact ⟨h3, [], by rw [List.append_nil]; exact h4, fun _ h => by cases h⟩

/-- The deferred `LoadScene` records no call and leaves the exception slot alone; it
throws only what the constructor of the scene description throws out of `LoadScene`. -/
theorem runDeferredLoadScene_spec (parse : String → Except Thrown Nat) (s : SceneLoader) :
    Quiet s (s.runDeferredLoadScene parse) ∧
      ((∀ filePath id, parse filePath ≠ Except.error (Thrown.other id)) →
        (s.runDeferredLoadScene parse).2 = none) := by
  unfold SceneLoader.runDeferredLoadScene
  cases hd : s.m_futures_LoadScene with
  | none => exact ⟨Quiet_refl s, fun _ => rfl⟩
  | some filePath =>
    dsimp only
    cases hl : s.LoadScene parse filePath with
    | ok s' =>
      obtain ⟨h1, h2, -⟩ := LoadScene_frame parse filePath s s' hl
      exact ⟨⟨h2, [], by rw [List.append_nil]; exact h1, fun _ h => by cases h⟩, fun _ => rfl⟩
    | error thrown =>
      refine ⟨Quiet_refl s, fun hParse => ?_⟩
      exfalso
      unfold SceneLoader.LoadScene at hl
      cases hp : parse filePath with
      | ok sceneDesc => simp [hp] at hl
      | error t =>
        cases t with
        | exception what => simp [hp] at hl
        | other id => exact hParse filePath id hp

/-- The deferred futures record no call that uses the scene and leave the exception slot
alone; they do not throw when their calls return and the constructor of the scene
description throws nothing but `std::exception`s. -/
theorem runDeferred_spec (parse : String → Except Thrown Nat) (input : FrameInput)
    (s : SceneLoader) :
    Quiet s (s.runDeferred parse input) ∧
      (input.throws FrameCall.RequestHDR = none →
        input.throws FrameCall.SetSuperResolutionOptions = none →
        input.throws FrameCall.WindowModeApply = none →
        (∀ filePath id, parse filePath ≠ Except.error (Thrown.other id)) →
        (s.runDeferred parse input).2 = none) := by
  have e1 : ∀ s1 : SceneLoader, SameScene s1 { s1 with m_futures_HDRSetting := false } :=
    fun _ => ⟨rfl, rfl, rfl, rfl, rfl⟩
  have e2 : ∀ s1 : SceneLoader,
      SameScene s1 { s1 with m_futures_SuperResolutionSetting := false } :=
    fun _ => ⟨rfl, rfl, rfl, rfl, rfl⟩
  have e3 : ∀ s1 : SceneLoader, SameScene s1 { s1 with m_futures_WindowSetting := false } :=
    fun _ => ⟨rfl, rfl, rfl, rfl, rfl⟩
  unfold SceneLoader.runDeferred
  refine ⟨?_, fun h1 h2 h3 hParse => ?_⟩
  · refine Quiet_andThen s _ _ (Quiet_andThen s _ _ (Quiet_andThen s _ _ ?_ ?_) ?_) ?_
    · exact (runDeferredCall_spec input FrameCall.RequestHDR _ _ s rfl e1).1
    · exact fun s1 => (runDeferredLoadScene_spec parse s1).1
    · exact fun s1 =>
        (runDeferredCall_spec input FrameCall.SetSuperResolutionOptions _ _ s1 rfl e2).1
    · exact fun s1 => (runDeferredCall_spec input FrameCall.WindowModeApply _ _ s1 rfl e3).1
  · refine andThen_snd_none _ _ (andThen_snd_none _ _ (andThen_snd_none _ _ ?_ ?_) ?_) ?_
    · exact (runDeferredCall_spec input FrameCall.RequestHDR _ _ s rfl e1).2 h1
    · exact fun s1 => (runDeferredLoadScene_spec parse s1).2 hParse
    · exact fun s1 =>
        (runDeferredCall_spec input FrameCall.SetSuperResolutionOptions _ _ s1 rfl e2).2 h2
    · exact fun s1 =>
        (runDeferredCall_spec input FrameCall.WindowModeApply _ _ s1 rfl e3).2 h3

/-- The statements of `Tick` before its last block leave the exception slot alone, and
every call they record that uses the scene is made with the scene ready after the
poll of the scene future. -/
theorem Tick_frame_spec (parse : String → Except Thrown Nat) (features : StreamlineFeatures)
    (g : GraphicsSettings) (input : FrameInput) (s : SceneLoader) :
    (s.Tick_frame parse features g input).1.m_exception = s.m_exception ∧
      ∃ new, (s.Tick_frame parse features g input).1.calls = s.calls ++ new ∧
        ∀ call ∈ new, call.usesScene = true →
          (s.pollSceneFuture features g).IsSceneReady = true := by
  obtain ⟨hp1, -, -, -, -, new0, hp2, hp3⟩ := pollSceneFuture_spec features g s
  have hpath : FramePath (s.pollSceneFuture features g).IsSceneReady (s.pollSceneFuture features g)
      (andThen ((s.pollSceneFuture features g).stepTimerTick input input.updates)
        (SceneLoader.Render input)) := by
    refine FramePath_andThen _ _ _ _ (FramePath_stepTimerTick input _ _) ?_
    intro s1 hs1 hs2
    rw [← IsSceneReady_congr _ s1 hs1 hs2]
    exact FramePath_Render input s1
  obtain ⟨-, -, h3, new1, h4, h5⟩ := hpath
  unfold SceneLoader.Tick_frame
  generalize andThen ((s.pollSceneFuture features g).stepTimerTick input input.updates)
    (SceneLoader.Render input) = r at h3 h4 h5
  obtain ⟨s1, thrown⟩ := r
  have hcalls : s1.calls = s.calls ++ (new0 ++ new1) := by
    have h4' : s1.calls = (s.pollSceneFuture features g).calls ++ new1 := h4
    rw [h4', hp2, List.append_assoc]
  have hok : ∀ call ∈ new0 ++ new1, call.usesScene = true →
      (s.pollSceneFuture features g).IsSceneReady = true := by
    intro call hc hu
    rcases List.mem_append.1 hc with hc | hc
    · rw [hp3 call hc] at hu
      cases hu
    · exact h5 call hc hu
  cases thrown with
  | some t => exact ⟨h3.trans hp1, _, hcalls, hok⟩
  | none =>
    obtain ⟨⟨hd2, new2, hd1, hd3⟩, -⟩ := runDeferred_spec parse input s1
    refine ⟨?_, (new0 ++ new1) ++ new2, ?_, ?_⟩
    · show (s1.runDeferred parse input).1.m_exception = _
      rw [hd2]
      exact h3.trans hp1
    · show (s1.runDeferred parse input).1.calls = _
      rw [hd1, hcalls, List.append_assoc]
    · intro call hc hu
      rcases List.mem_append.1 hc with hc | hc
      · exact hok call hc hu
      · rw [hd3 call hc] at hu
        cases hu

/-- The task returns when a statement throws a `std::exception`: the text is recorded and
the scene released. -/
theorem task_exception (step : LoadStep) (what : String) (s : SceneLoader) :
    ∃ s', s.task (some (step, Thrown.exception what)) = Except.ok s' ∧
      s'.m_sceneErrorMessage = what ∧ s'.m_exception = s.m_exception ∧ s'.m_scene = none := by
  cases step <;> exact ⟨_, rfl, rfl, rfl, rfl⟩

/-- The task returns when a statement throws another object: it is stored in the
exception slot unless the slot is taken. -/
theorem task_other (step : LoadStep) (id : Nat) (s : SceneLoader) :
    ∃ s', s.task (some (step, Thrown.other id)) = Except.ok s' ∧
      s'.m_exception = some (s.m_exception.getD (Thrown.other id)) ∧
      s'.m_sceneErrorMessage = s.m_sceneErrorMessage := by
  cases hs : s.m_exception <;> cases step <;> refine ⟨_, rfl, ?_, ?_⟩ <;>
    simp [SceneLoader.Release, runSteps, taskSteps, LoadStep.run, hs]

/-- The task returns when no statement throws. -/
theorem task_none (s : SceneLoader) :
    ∃ s', s.task none = Except.ok s' ∧ s'.m_exception = s.m_exception ∧
      s'.m_sceneErrorMessage = s.m_sceneErrorMessage ∧ s'.m_scene = some s.nextId :=
  ⟨_, rfl, rfl, rfl, rfl⟩

/-! ## Theorems on the scene loading -/

/-- C22 (as stated, refuted): the application renders the scene object 7; a load of
"scene.json" is requested and its description is read; the background task throws a
`std::exception` with the text "bad mesh" in `m_scene->Load`. The text is recorded in the
scene error message, but no scene is current afterwards: the scene 7 was released
when the task started. -/
theorem C22_previous_scene_stays_current_counterexample :
    renderingLoader.m_scene = some 7 ∧
    ∃ s1 s2, renderingLoader.LoadScene sampleParse "scene.json" = Except.ok s1 ∧
      s1.runTask (some (LoadStep.Load, Thrown.exception "bad mesh")) = Except.ok s2 ∧
      s2.m_sceneErrorMessage = "bad mesh" ∧ s2.m_scene = none :=
  ⟨rfl, _, _, rfl, rfl, rfl, rfl⟩

/-- C22 (amended): when the scene description cannot be parsed (its constructor throws a
`std::exception`), `LoadScene` records the text in the scene error message, starts no
load and leaves the current scene current. When the description is read, the load
is started with the current scene still in place, and if a statement of the
background task then throws a `std::exception`, the text is recorded in the scene
error message, the future becomes ready, the exception slot is left alone, and no
scene is current afterwards: the previous scene was released when the task started. -/
theorem C22_load_failure_records_message (parse : String → Except Thrown Nat)
    (filePath : String) (s : SceneLoader) :
    (∀ what, parse filePath = Except.error (Thrown.exception what) →
      s.LoadScene parse filePath = Except.ok { s with m_sceneErrorMessage := what }) ∧
    (∀ sceneDesc, parse filePath = Except.ok sceneDesc →
      ∃ s1, s.LoadScene parse filePath = Except.ok s1 ∧ s1.m_scene = s.m_scene ∧
        s1.m_futures_Scene = some { sceneDesc := sceneDesc, ready := false } ∧
        ∀ step what, ∃ s2,
          s1.runTask (some (step, Thrown.exception what)) = Except.ok s2 ∧
          s2.m_sceneErrorMessage = what ∧ s2.m_scene = none ∧
          s2.m_futures_Scene = some { sceneDesc := sceneDesc, ready := true } ∧
          s2.m_exception = s.m_exception) := by
  refine ⟨fun what hp => ?_, fun sceneDesc hp => ?_⟩
  · unfold SceneLoader.LoadScene
    rw [hp]
  · refine ⟨{ s with
        m_sceneErrorMessage := "", m_sceneFilePath := filePath,
        m_futures_Scene := some { sceneDesc := sceneDesc, ready := false } }, ?_, rfl, rfl, ?_⟩
    · unfold SceneLoader.LoadScene
      rw [hp]
    · intro step what
      cases step <;> exact ⟨_, rfl, rfl, rfl, rfl, rfl⟩

/-- Evaluation of the amended C22 on `renderingLoader`: "bad.json" cannot be parsed, the
text "parse error" is recorded and the scene 7 stays current; "scene.json" is read, and
when `CreateStructuredBuffers` then throws in the task the text is recorded and no
scene is current. -/
theorem C22_load_failure_records_message_witness :
    (∃ s1, renderingLoader.LoadScene sampleParse "bad.json" = Except.ok s1 ∧
      s1.m_sceneErrorMessage = "parse error" ∧ s1.m_scene = some 7 ∧
      s1.m_futures_Scene = none) ∧
    ∃ s1 s2, renderingLoader.LoadScene sampleParse "scene.json" = Except.ok s1 ∧
      s1.runTask (some (LoadStep.CreateStructuredBuffers, Thrown.exception "out of memory"))
        = Except.ok s2 ∧
      s2.m_sceneErrorMessage = "out of memory" ∧ s2.m_scene = none := by
  refine ⟨⟨_, (C22_load_failure_records_message sampleParse "bad.json" renderingLoader).1
    "parse error" rfl, rfl, rfl, rfl⟩, ?_⟩
  obtain ⟨s1, h1, -, -, h2⟩ :=
    (C22_load_failure_records_message sampleParse "scene.json" renderingLoader).2 1 rfl
  obtain ⟨s2, h3, h4, h5, -⟩ := h2 LoadStep.CreateStructuredBuffers "out of memory"
  exact ⟨s1, s2, h1, h3, h4, h5⟩

/-- C23: whatever a statement of the scene-loading task throws, the task itself returns:
a `std::exception` is turned into the scene error message and the exception slot is
left alone; any other object is stored in the exception slot when the slot is
empty and dropped when it is not, the message being left alone. The statements of
`Tick` before its last block do not write the slot, and when they are passed without
a throw, `Tick` throws the content of the slot if there is one and returns if there
is none. -/
theorem C23_task_errors_never_escape (parse : String → Except Thrown Nat)
    (features : StreamlineFeatures) (g : GraphicsSettings) (input : FrameInput)
    (failure : Option (LoadStep × Thrown)) (s : SceneLoader) :
    (∃ s', s.task failure = Except.ok s' ∧
      (∀ step what, failure = some (step, Thrown.exception what) →
        s'.m_sceneErrorMessage = what ∧ s'.m_exception = s.m_exception) ∧
      (∀ step id, failure = some (step, Thrown.other id) →
        s'.m_exception = some (s.m_exception.getD (Thrown.other id)) ∧
        s'.m_sceneErrorMessage = s.m_sceneErrorMessage) ∧
      (failure = none →
        s'.m_exception = s.m_exception ∧ s'.m_sceneErrorMessage = s.m_sceneErrorMessage)) ∧
    (s.Tick_frame parse features g input).1.m_exception = s.m_exception ∧
    ((s.Tick_frame parse features g input).2 = none →
      (s.Tick parse features g input).2 = (s.Tick_frame parse features g input).1.m_exception ∧
      (∀ thrown, (s.Tick parse features g input).2 = some thrown ↔
        (s.Tick_frame parse features g input).1.m_exception = some thrown) ∧
      ((s.Tick parse features g input).2 = none ↔
        (s.Tick_frame parse features g input).1.m_exception = none)) := by
  refine ⟨?_, (Tick_frame_spec parse features g input s).1, ?_⟩
  · rcases failure with _ | ⟨step, thrown⟩
    · obtain ⟨s', h1, h2, h3, -⟩ := task_none s
      refine ⟨s', h1, ?_, ?_, fun _ => ⟨h2, h3⟩⟩
      · intro _ _ h
        cases h
      · intro _ _ h
        cases h
    · cases thrown with
      | exception what =>
        obtain ⟨s', h1, h2, h3, -⟩ := task_exception step what s
        refine ⟨s', h1, ?_, ?_, ?_⟩
        · intro _ _ h
          cases h
          exact ⟨h2, h3⟩
        · intro _ _ h
          cases h
        · intro h
          cases h
      | other id =>
        obtain ⟨s', h1, h2, h3⟩ := task_other step id s
        refine ⟨s', h1, ?_, ?_, ?_⟩
        · intro _ _ h
          cases h
        · intro _ _ h
          cases h
          exact ⟨h2, h3⟩
        · intro h
          cases h
  · intro hnone
    have hT : (s.Tick parse features g input).2
        = (s.Tick_frame parse features g input).1.m_exception := by
      unfold SceneLoader.Tick
      generalize s.Tick_frame parse features g input = r at hnone
      obtain ⟨s1, thrown⟩ := r
      have ht : thrown = none := hnone
      subst ht
      rfl
    refine ⟨hT, fun thrown => by rw [hT], by rw [hT]⟩

/-- Evaluation of C23 on `loadingLoader`: the task throws an object that is no
`std::exception` in `PrepareLightResources`; the task returns with the object in the
exception slot, and the next tick, whose frame is passed without a throw, throws
that object. -/
theorem C23_task_errors_never_escape_witness :
    ∃ s1, loadingLoader.runTask (some (LoadStep.PrepareLightResources, Thrown.other 5))
        = Except.ok s1 ∧
      s1.m_exception = some (Thrown.other 5) ∧
      (s1.Tick_frame sampleParse allFeatures allOffSettings quietInput).2 = none ∧
      (s1.Tick sampleParse allFeatures allOffSettings quietInput).2 = some (Thrown.other 5) := by
  refine ⟨_, rfl, rfl, rfl, ?_⟩
  have h := (C23_task_errors_never_escape sampleParse allFeatures allOffSettings quietInput none
    (match loadingLoader.runTask (some (LoadStep.PrepareLightResources, Thrown.other 5)) with
      | Except.ok s => s
      | Except.error _ => loadingLoader)).2.2 rfl
  exact h.1

end App

namespace PhysicallyBasedRaytracer

/-! ## Auxiliary lemmas on the acceleration structures -/

theorem length_pairDescs (cache : Nat → Option BottomLevelAccelerationStructure)
    (pairs : List (RenderItem × Model × ModelMesh)) (k : Nat) :
    (pairDescs cache pairs k).length = pairs.length := by
  induction pairs generalizing k with
  | nil => rfl
  | cons p rest ih =>
    obtain ⟨renderItem, model, mesh⟩ := p
    simp [pairDescs, ih]

theorem pairDescs_append (cache : Nat → Option BottomLevelAccelerationStructure)
    (a b : List (RenderItem × Model × ModelMesh)) (k : Nat) :
    pairDescs cache (a ++ b) k = pairDescs cache a k ++ pairDescs cache b (k + a.length) := by
  induction a generalizing k with
  | nil => rfl
  | cons p rest ih =>
    obtain ⟨renderItem, model, mesh⟩ := p
    show pairDescs cache ((renderItem, model, mesh) :: (rest ++ b)) k = _
    simp only [pairDescs, ih, List.length_cons, List.cons_append]
    rw [show k + 1 + rest.length = k + (rest.length + 1) by omega]

theorem getElem?_pairDescs (cache : Nat → Option BottomLevelAccelerationStructure)
    (pairs : List (RenderItem × Model × ModelMesh)) (k j : Nat) :
    (pairDescs cache pairs k)[j]? = (pairs[j]?).map fun p =>
      makeInstanceDesc ((k + j) % 4294967296) p.1 p.2.1 p.2.2
        ((cache p.2.2.id).getD { id := 0, flags := 0 }) := by
  induction pairs generalizing k j with
  | nil => rfl
  | cons p rest ih =>
    obtain ⟨renderItem, model, mesh⟩ := p
    cases j with
    | zero => simp [pairDescs]
    | succ j =>
      simp only [pairDescs, List.getElem?_cons_succ, ih]
      rw [show k + 1 + j = k + (j + 1) by omega]

theorem meshLoop_eq (cache : Nat → Option BottomLevelAccelerationStructure)
    (renderItem : RenderItem) (model : Model) (meshes : List ModelMesh) (k : Nat)
    (h : ∀ mesh ∈ meshes, (cache mesh.id).isSome = true) :
    meshLoop cache renderItem model meshes (k % 4294967296)
      = some (pairDescs cache (meshes.map fun mesh => (renderItem, model, mesh)) k,
          (k + meshes.length) % 4294967296) := by
  induction meshes generalizing k with
  | nil => simp [meshLoop, pairDescs]
  | cons mesh rest ih =>
    obtain ⟨blas, hb⟩ := Option.isSome_iff_exists.mp (h mesh (List.mem_cons_self _ _))
    have hk : (k % 4294967296 + 1) % 4294967296 = (k + 1) % 4294967296 := by omega
    simp only [meshLoop, hb, hk, ih (k + 1) (fun m hm => h m (List.mem_cons_of_mem _ hm)),
      List.map_cons, pairDescs, Option.getD_some, List.length_cons]
    rw [show k + 1 + rest.length = k + (rest.length + 1) by omega]

theorem renderItemLoop_eq (Models : List Model)
    (cache : Nat → Option BottomLevelAccelerationStructure) (renderItems : List RenderItem)
    (k : Nat) (h : ∀ renderItem ∈ renderItems, renderItem.isValid Models cache = true) :
    renderItemLoop Models cache renderItems (k % 4294967296)
      = some (pairDescs cache (instancePairs Models renderItems) k,
          (k + (instancePairs Models renderItems).length) % 4294967296) := by
  induction renderItems generalizing k with
  | nil => simp [renderItemLoop, instancePairs, pairDescs]
  | cons renderItem rest ih =>
    have hv := h renderItem (List.mem_cons_self _ _)
    unfold RenderItem.isValid at hv
    cases hm : Models[renderItem.pModel]? with
    | none => simp [hm] at hv
    | some model =>
      simp only [hm, List.all_eq_true] at hv
      simp only [renderItemLoop, instancePairs, hm, meshLoop_eq cache renderItem model _ k hv,
        ih (k + model.Meshes.length) (fun r hr => h r (List.mem_cons_of_mem _ hr)),
        pairDescs_append, List.length_map, List.length_append, Nat.add_assoc]

theorem length_instancePairs (Models : List Model) (renderItems : List RenderItem) :
    (instancePairs Models renderItems).length
      = (renderItems.map fun renderItem => renderItem.meshCount Models).sum := by
  induction renderItems with
  | nil => rfl
  | cons renderItem rest ih =>
    simp only [instancePairs, List.length_append, ih, List.map_cons, List.sum_cons,
      RenderItem.meshCount]
    cases Models[renderItem.pModel]? <;> simp

/-- The result of `CreateTopLevelAccelerationStructure` on a valid scene. -/
theorem CreateTopLevelAccelerationStructure_eq (updateOnly : Bool) (s : Impl)
    (topLevelAccelerationStructure : TopLevelAccelerationStructure)
    (hValid : ∀ renderItem ∈ s.m_scene.RenderItems,
      renderItem.isValid s.m_scene.Models s.m_bottomLevelAccelerationStructures = true)
    (hTop : s.m_topLevelAccelerationStructure = some topLevelAccelerationStructure) :
    s.CreateTopLevelAccelerationStructure updateOnly = some { s with
      log := s.log ++ [Effect.BuildTopLevel topLevelAccelerationStructure.id
        (pairDescs s.m_bottomLevelAccelerationStructures
          (instancePairs s.m_scene.Models s.m_scene.RenderItems) 0) updateOnly] } := by
  have h := renderItemLoop_eq s.m_scene.Models s.m_bottomLevelAccelerationStructures
    s.m_scene.RenderItems 0 hValid
  simp only [Nat.zero_mod] at h
  simp only [Impl.CreateTopLevelAccelerationStructure, h, hTop]

theorem instancePairs_append (Models : List Model) (a b : List RenderItem) :
    instancePairs Models (a ++ b) = instancePairs Models a ++ instancePairs Models b := by
  induction a with
  | nil => rfl
  | cons renderItem rest ih =>
    show instancePairs Models (renderItem :: (rest ++ b)) = _
    simp only [instancePairs, ih, List.append_assoc]

/-- On a valid scene every mesh of a triple has an entry in the cache. -/
theorem instancePairs_cached (Models : List Model)
    (cache : Nat → Option BottomLevelAccelerationStructure) (renderItems : List RenderItem)
    (h : ∀ renderItem ∈ renderItems, renderItem.isValid Models cache = true)
    (p : RenderItem × Model × ModelMesh) (hp : p ∈ instancePairs Models renderItems) :
    ∃ bottomLevelAccelerationStructure, cache p.2.2.id = some bottomLevelAccelerationStructure := by
  induction renderItems with
  | nil => simp [instancePairs] at hp
  | cons renderItem rest ih =>
    simp only [instancePairs, List.mem_append] at hp
    rcases hp with hp | hp
    · have hv := h renderItem (List.mem_cons_self _ _)
      unfold RenderItem.isValid at hv
      cases hm : Models[renderItem.pModel]? with
      | none => simp [hm] at hv
      | some model =>
        simp only [hm, List.all_eq_true] at hv
        simp only [hm, List.mem_map] at hp
        obtain ⟨mesh, hmesh, rfl⟩ := hp
        exact Option.isSome_iff_exists.mp (hv mesh hmesh)
    · exact ih (fun r hr => h r (List.mem_cons_of_mem _ hr)) hp

/-- The result of `DispatchRays` on a valid scene. -/
theorem DispatchRays_eq (s : Impl)
    (topLevelAccelerationStructure : TopLevelAccelerationStructure)
    (hValid : ∀ renderItem ∈ s.m_scene.RenderItems,
      renderItem.isValid s.m_scene.Models s.m_bottomLevelAccelerationStructures = true)
    (hTop : s.m_topLevelAccelerationStructure = some topLevelAccelerationStructure) :
    s.DispatchRays = some { s with
      log := s.log ++ [Effect.BuildTopLevel topLevelAccelerationStructure.id
        (pairDescs s.m_bottomLevelAccelerationStructures
          (instancePairs s.m_scene.Models s.m_scene.RenderItems) 0) true, Effect.Dispatch] } := by
  simp only [Impl.DispatchRays,
    CreateTopLevelAccelerationStructure_eq true s topLevelAccelerationStructure hValid hTop,
    List.append_assoc, List.singleton_append]

/-- Position by position, a list whose middle segment is mapped. -/
theorem getElem?_append_map_append {α : Type} (t : α → α) (P Q R : List α) (k : Nat) :
    (P ++ Q.map t ++ R)[k]? = ((P ++ Q ++ R)[k]?).map fun p =>
      if P.length ≤ k ∧ k < P.length + Q.length then t p else p := by
  by_cases h1 : k < P.length
  · have h2 : ¬ (P.length ≤ k ∧ k < P.length + Q.length) := by omega
    simp only [List.append_assoc, List.getElem?_append_left h1, h2, if_false, Option.map_id']
  · have h1' : P.length ≤ k := by omega
    by_cases h3 : k - P.length < Q.length
    · have h4 : P.length ≤ k ∧ k < P.length + Q.length := by omega
      have h5 : k - P.length < (Q.map t).length := by simpa using h3
      simp only [List.append_assoc, List.getElem?_append_right h1', List.getElem?_append_left h3,
        List.getElem?_append_left h5, h4, and_self, if_true, List.getElem?_map]
    · have h4 : ¬ (P.length ≤ k ∧ k < P.length + Q.length) := by omega
      have h6 : Q.length ≤ k - P.length := by omega
      have h7 : (Q.map t).length ≤ k - P.length := by simpa using h6
      simp only [List.append_assoc, List.getElem?_append_right h1', List.getElem?_append_right h6,
        List.getElem?_append_right h7, h4, if_false, Option.map_id', List.length_map]

/-- The elements of the middle segment of a list. -/
theorem mem_of_getElem?_append_middle {α : Type} (P Q R : List α) (k : Nat) (p : α)
    (h : (P ++ Q ++ R)[k]? = some p) (h1 : P.length ≤ k) (h2 : k < P.length + Q.length) :
    p ∈ Q := by
  have h3 : k - P.length < Q.length := by omega
  rw [List.append_assoc, List.getElem?_append_right h1, List.getElem?_append_left h3] at h
  exact List.getElem?_mem h

/-- The triples of one render item. -/
theorem instancePairs_singleton (Models : List Model) (renderItem : RenderItem) :
    instancePairs Models [renderItem]
      = match Models[renderItem.pModel]? with
        | some model => model.Meshes.map fun mesh => (renderItem, model, mesh)
        | none => [] := by
  simp [instancePairs]

/-- Toggling the visibility of one render item maps its triples and keeps the others. -/
theorem instancePairs_toggle (Models : List Model) (pre post : List RenderItem)
    (renderItem : RenderItem) :
    instancePairs Models (pre ++ { renderItem with IsVisible := false } :: post)
      = instancePairs Models pre
        ++ (instancePairs Models [renderItem]).map
            (fun p => ({ p.1 with IsVisible := false }, p.2.1, p.2.2))
        ++ instancePairs Models post ∧
    instancePairs Models (pre ++ renderItem :: post)
      = instancePairs Models pre ++ instancePairs Models [renderItem]
        ++ instancePairs Models post ∧
    (instancePairs Models [renderItem]).length = renderItem.meshCount Models ∧
    ∀ p ∈ instancePairs Models [renderItem], p.1 = renderItem := by
  refine ⟨?_, ?_, ?_, ?_⟩
  · rw [instancePairs_append, instancePairs_singleton]
    show _ ++ instancePairs Models ({ renderItem with IsVisible := false } :: post) = _
    simp only [instancePairs, List.append_assoc]
    cases Models[renderItem.pModel]? <;> simp
  · rw [instancePairs_append, instancePairs_singleton]
    show _ ++ instancePairs Models (renderItem :: post) = _
    simp only [instancePairs, List.append_assoc]
  · rw [instancePairs_singleton]
    unfold RenderItem.meshCount
    cases Models[renderItem.pModel]? <;> simp
  · intro p hp
    rw [instancePairs_singleton] at hp
    cases hm : Models[renderItem.pModel]? with
    | none => simp [hm] at hp
    | some model =>
      simp only [hm, List.mem_map] at hp
      obtain ⟨mesh, -, rfl⟩ := hp
      rfl

/-- What the loop body of `CreateAccelerationStructures` does over a list of meshes. -/
theorem foldl_buildBottomLevel_spec (meshes : List ModelMesh) (s : Impl) :
    ∃ new, (meshes.foldl Impl.buildBottomLevel s).log = s.log ++ new ∧
      (new.filterMap Effect.builtMesh).Nodup ∧
      (∀ id, id ∈ new.filterMap Effect.builtMesh ↔
        id ∈ meshes.map (fun mesh => mesh.id) ∧ s.m_bottomLevelAccelerationStructures id = none) ∧
      (∀ e ∈ new, (∃ id mesh, e = Effect.BuildBottomLevel id mesh false) ∨
        ∃ id, e = Effect.CreateBottomLevel id
          D3D12_RAYTRACING_ACCELERATION_STRUCTURE_BUILD_FLAG_PREFER_FAST_TRACE) ∧
      (∀ id b, s.m_bottomLevelAccelerationStructures id = some b →
        (meshes.foldl Impl.buildBottomLevel s).m_bottomLevelAccelerationStructures id = some b) ∧
      (∀ id, ((meshes.foldl Impl.buildBottomLevel s).m_bottomLevelAccelerationStructures id).isSome
          = true ↔
        (s.m_bottomLevelAccelerationStructures id).isSome = true ∨
          id ∈ meshes.map (fun mesh => mesh.id)) ∧
      (meshes.foldl Impl.buildBottomLevel s).m_scene = s.m_scene ∧
      (meshes.foldl Impl.buildBottomLevel s).m_topLevelAccelerationStructure
        = s.m_topLevelAccelerationStructure ∧
      (meshes.foldl Impl.buildBottomLevel s).frameCount = s.frameCount := by
  induction meshes generalizing s with
  | nil => exact ⟨[], by simp, by simp, by simp, by simp, fun _ _ h => h, by simp, rfl, rfl, rfl⟩
  | cons mesh rest ih =>
    cases hc : s.m_bottomLevelAccelerationStructures mesh.id with
    | some b0 =>
      have hs : s.buildBottomLevel mesh = s := by simp [Impl.buildBottomLevel, hc]
      obtain ⟨new, h1, h2, h3, h4, h5, h6, h7, h8, h9⟩ := ih s
      refine ⟨new, ?_, h2, ?_, h4, ?_, ?_, ?_, ?_, ?_⟩
      · simpa [List.foldl_cons, hs] using h1
      · intro id
        rw [h3 id]
        constructor
        · rintro ⟨ha, hb⟩
          exact ⟨List.mem_cons_of_mem _ ha, hb⟩
        · rintro ⟨ha, hb⟩
          simp only [List.map_cons, List.mem_cons] at ha
          rcases ha with rfl | ha
          · rw [hc] at hb
            cases hb
          · exact ⟨ha, hb⟩
      · simpa [List.foldl_cons, hs] using h5
      · intro id
        simp only [List.foldl_cons, hs, h6 id, List.map_cons, List.mem_cons]
        constructor
        · rintro (h | h)
          · exact Or.inl h
          · exact Or.inr (Or.inr h)
        · rintro (h | rfl | h)
          · exact Or.inl h
          · exact Or.inl (by rw [hc]; rfl)
          · exact Or.inr h
      · simpa [List.foldl_cons, hs] using h7
      · simpa [List.foldl_cons, hs] using h8
      · simpa [List.foldl_cons, hs] using h9
    | none =>
      obtain ⟨new, h1, h2, h3, h4, h5, h6, h7, h8, h9⟩ := ih (s.buildBottomLevel mesh)
      have hlog : (s.buildBottomLevel mesh).log = s.log ++
          [Effect.CreateBottomLevel s.nextId
             D3D12_RAYTRACING_ACCELERATION_STRUCTURE_BUILD_FLAG_PREFER_FAST_TRACE,
           Effect.BuildBottomLevel s.nextId mesh.id false] := by
        simp [Impl.buildBottomLevel, hc]
      have hcache : (s.buildBottomLevel mesh).m_bottomLevelAccelerationStructures
          = Function.update s.m_bottomLevelAccelerationStructures mesh.id
              (some { id := s.nextId,
                      flags :=
                        D3D12_RAYTRACING_ACCELERATION_STRUCTURE_BUILD_FLAG_PREFER_FAST_TRACE }) := by
        simp [Impl.buildBottomLevel, hc]
      have hscene : (s.buildBottomLevel mesh).m_scene = s.m_scene := by
        simp [Impl.buildBottomLevel, hc]
      have htop : (s.buildBottomLevel mesh).m_topLevelAccelerationStructure
          = s.m_topLevelAccelerationStructure := by
        simp [Impl.buildBottomLevel, hc]
      have hframe : (s.buildBottomLevel mesh).frameCount = s.frameCount := by
        simp [Impl.buildBottomLevel, hc]
      have hnot : mesh.id ∉ new.filterMap Effect.builtMesh := by
        intro hmem
        have := ((h3 mesh.id).mp hmem).2
        rw [hcache] at this
        simp at this
      refine ⟨[Effect.CreateBottomLevel s.nextId
             D3D12_RAYTRACING_ACCELERATION_STRUCTURE_BUILD_FLAG_PREFER_FAST_TRACE,
           Effect.BuildBottomLevel s.nextId mesh.id false] ++ new, ?_, ?_, ?_, ?_, ?_, ?_, ?_,
        ?_, ?_⟩
      · rw [List.foldl_cons, h1, hlog, List.append_assoc]
      · simp only [List.filterMap_append, List.filterMap_cons, Effect.builtMesh,
          List.filterMap_nil, List.singleton_append, List.nodup_cons]
        exact ⟨hnot, h2⟩
      · intro id
        simp only [List.filterMap_append, List.filterMap_cons, Effect.builtMesh,
          List.filterMap_nil, List.singleton_append, List.mem_cons, h3 id, hcache, List.map_cons]
        by_cases hid : id = mesh.id
        · subst hid
          simp [hc]
        · simp [hid, Function.update_noteq hid]
      · intro e he
        simp only [List.cons_append, List.nil_append, List.mem_cons] at he
        rcases he with rfl | rfl | he
        · exact Or.inr ⟨_, rfl⟩
        · exact Or.inl ⟨_, _, rfl⟩
        · exact h4 e he
      · intro id b hb
        rw [List.foldl_cons]
        apply h5
        rw [hcache]
        have hid : id ≠ mesh.id := by
          rintro rfl
          rw [hc] at hb
          cases hb
        rw [Function.update_noteq hid, hb]
      · intro id
        rw [List.foldl_cons, h6 id, hcache]
        simp only [List.map_cons, List.mem_cons]
        by_cases hid : id = mesh.id
        · subst hid
          simp
        · simp [hid, Function.update_noteq hid]
      · rw [List.foldl_cons, h7, hscene]
      · rw [List.foldl_cons, h8, htop]
      · rw [List.foldl_cons, h9, hframe]

theorem filterMap_builtMesh_bottomLevelCalls (pairs : List (Nat × Nat)) :
    (bottomLevelCalls pairs).filterMap Effect.builtMesh = pairs.map Prod.snd := by
  induction pairs with
  | nil => rfl
  | cons p rest ih =>
    simp only [bottomLevelCalls, List.flatMap_cons, List.filterMap_append, List.map_cons] at ih ⊢
    rw [ih]
    rfl

/-- The calls of the loop body of `CreateAccelerationStructures` over a list of meshes:
one creation and one build per new entry, each on a fresh structure. -/
theorem foldl_buildBottomLevel_calls (meshes : List ModelMesh) (s : Impl) :
    ∃ pairs, (meshes.foldl Impl.buildBottomLevel s).log = s.log ++ bottomLevelCalls pairs ∧
      (pairs.map Prod.fst).Nodup ∧
      (∀ p ∈ pairs, s.nextId ≤ p.1) ∧
      (∀ p ∈ pairs,
        (meshes.foldl Impl.buildBottomLevel s).m_bottomLevelAccelerationStructures p.2
          = some { id := p.1
                   flags :=
                     D3D12_RAYTRACING_ACCELERATION_STRUCTURE_BUILD_FLAG_PREFER_FAST_TRACE }) := by
  induction meshes generalizing s with
  | nil => exact ⟨[], by simp [bottomLevelCalls], by simp, by simp, by simp⟩
  | cons mesh rest ih =>
    cases hc : s.m_bottomLevelAccelerationStructures mesh.id with
    | some b0 =>
      have hs : s.buildBottomLevel mesh = s := by simp [Impl.buildBottomLevel, hc]
      obtain ⟨pairs, h1, h2, h3, h4⟩ := ih s
      exact ⟨pairs, by simpa [List.foldl_cons, hs] using h1, h2, h3,
        by simpa [List.foldl_cons, hs] using h4⟩
    | none =>
      obtain ⟨pairs, h1, h2, h3, h4⟩ := ih (s.buildBottomLevel mesh)
      obtain ⟨_, -, -, -, -, hkeep, -⟩ := foldl_buildBottomLevel_spec rest (s.buildBottomLevel mesh)
      have hlog : (s.buildBottomLevel mesh).log = s.log ++ bottomLevelCalls [(s.nextId, mesh.id)] := by
        simp [Impl.buildBottomLevel, hc, bottomLevelCalls]
      have hnext : (s.buildBottomLevel mesh).nextId = s.nextId + 1 := by
        simp [Impl.buildBottomLevel, hc]
      have hcache : (s.buildBottomLevel mesh).m_bottomLevelAccelerationStructures mesh.id
          = some { id := s.nextId
                   flags :=
                     D3D12_RAYTRACING_ACCELERATION_STRUCTURE_BUILD_FLAG_PREFER_FAST_TRACE } := by
        simp [Impl.buildBottomLevel, hc]
      refine ⟨(s.nextId, mesh.id) :: pairs, ?_, ?_, ?_, ?_⟩
      · rw [List.foldl_cons, h1, hlog, List.append_assoc]
        simp [bottomLevelCalls]
      · simp only [List.map_cons, List.nodup_cons]
        refine ⟨?_, h2⟩
        intro hmem
        obtain ⟨p, hp, hp1⟩ := List.mem_map.mp hmem
        have := h3 p hp
        rw [hnext] at this
        omega
      · intro p hp
        simp only [List.mem_cons] at hp
        rcases hp with rfl | hp
        · exact Nat.le_refl _
        · have := h3 p hp
          rw [hnext] at this
          omega
      · intro p hp
        simp only [List.mem_cons] at hp
        rcases hp with rfl | hp
        · rw [List.foldl_cons]
          exact hkeep _ _ hcache
        · rw [List.foldl_cons]
          exact h4 p hp

/-- The nested loops of `CreateAccelerationStructures` visit the meshes of all models
in order. -/
theorem buildBottomLevels_eq (s : Impl) :
    s.buildBottomLevels
      = (s.m_scene.Models.flatMap fun model => model.Meshes).foldl Impl.buildBottomLevel s := by
  unfold Impl.buildBottomLevels
  generalize s.m_scene.Models = models
  induction models generalizing s with
  | nil => rfl
  | cons model rest ih =>
    simp only [List.foldl_cons, List.flatMap_cons, List.foldl_append]
    exact ih _

/-- Over meshes that all have an entry, the loop body changes nothing. -/
theorem foldl_buildBottomLevel_of_cached (meshes : List ModelMesh) (s : Impl)
    (h : ∀ mesh ∈ meshes, (s.m_bottomLevelAccelerationStructures mesh.id).isSome = true) :
    meshes.foldl Impl.buildBottomLevel s = s := by
  induction meshes with
  | nil => rfl
  | cons mesh rest ih =>
    obtain ⟨b, hb⟩ := Option.isSome_iff_exists.mp (h mesh (List.mem_cons_self _ _))
    have hs : s.buildBottomLevel mesh = s := by simp [Impl.buildBottomLevel, hb]
    rw [List.foldl_cons, hs]
    exact ih (fun m hm => h m (List.mem_cons_of_mem _ hm))

/-- A returning `CreateTopLevelAccelerationStructure` has appended one top-level build
on the current object. -/
theorem CreateTopLevelAccelerationStructure_some (updateOnly : Bool) (s s' : Impl)
    (h : s.CreateTopLevelAccelerationStructure updateOnly = some s') :
    ∃ topLevelAccelerationStructure instanceDescs,
      s.m_topLevelAccelerationStructure = some topLevelAccelerationStructure ∧
      s' = { s with log := s.log ++
        [Effect.BuildTopLevel topLevelAccelerationStructure.id instanceDescs updateOnly] } := by
  unfold Impl.CreateTopLevelAccelerationStructure at h
  cases hl : renderItemLoop s.m_scene.Models s.m_bottomLevelAccelerationStructures
      s.m_scene.RenderItems 0 with
  | none => simp [hl] at h
  | some r =>
    obtain ⟨instanceDescs, i⟩ := r
    cases hTop : s.m_topLevelAccelerationStructure with
    | none => simp [hl, hTop] at h
    | some topLevelAccelerationStructure =>
      simp only [hl, hTop, Option.some.injEq] at h
      exact ⟨topLevelAccelerationStructure, instanceDescs, rfl, h.symm⟩

theorem refitsFollowBuilds_nil : refitsFollowBuilds [] := by
  intro before after id instanceDescs h
  simp at h

theorem refitsFollowBuilds_snoc (log : List Effect) (e : Effect)
    (h : refitsFollowBuilds log)
    (he : ∀ id instanceDescs, e = Effect.BuildTopLevel id instanceDescs true →
      (∃ instanceDescs', Effect.BuildTopLevel id instanceDescs' false ∈ log) ∧
      ∃ flags, Effect.CreateTopLevel id flags ∈ log ∧
        flags &&& D3D12_RAYTRACING_ACCELERATION_STRUCTURE_BUILD_FLAG_ALLOW_UPDATE ≠ 0) :
    refitsFollowBuilds (log ++ [e]) := by
  intro before after id instanceDescs hlog
  rcases List.eq_nil_or_concat after with rfl | ⟨after', last, rfl⟩
  · have h1 : before ++ [Effect.BuildTopLevel id instanceDescs true] = log ++ [e] := hlog.symm
    obtain ⟨h2, h3⟩ := List.append_inj' h1 rfl
    subst h2
    exact he id instanceDescs (List.singleton_inj.mp h3).symm
  · have h1 : (before ++ Effect.BuildTopLevel id instanceDescs true :: after') ++ [last]
        = log ++ [e] := by
      rw [hlog]
      simp
    obtain ⟨h2, -⟩ := List.append_inj' h1 rfl
    exact h before after' id instanceDescs h2.symm

theorem refitsFollowBuilds_append (log new : List Effect) (h : refitsFollowBuilds log)
    (hnew : ∀ e ∈ new, ∀ id instanceDescs, e ≠ Effect.BuildTopLevel id instanceDescs true) :
    refitsFollowBuilds (log ++ new) := by
  induction new generalizing log with
  | nil => simpa using h
  | cons e rest ih =>
    have h1 : refitsFollowBuilds (log ++ [e]) :=
      refitsFollowBuilds_snoc log e h
        (fun id instanceDescs he => absurd he (hnew e (List.mem_cons_self _ _) id instanceDescs))
    have h2 := ih (log ++ [e]) h1 (fun e' he' => hnew e' (List.mem_cons_of_mem _ he'))
    simpa using h2

/-- A returning `CreateAccelerationStructures` leaves a top-level object created with
allow-update and fully built. -/
theorem CreateAccelerationStructures_topLevelBuilt (s s' : Impl)
    (hs : refitsFollowBuilds s.log) (h : s.CreateAccelerationStructures = some s') :
    s'.topLevelBuilt := by
  obtain ⟨top, instanceDescs, hTop, hs'⟩ := CreateTopLevelAccelerationStructure_some _ _ _ h
  have htop : top = { id := s.buildBottomLevels.nextId
                      flags := D3D12_RAYTRACING_ACCELERATION_STRUCTURE_BUILD_FLAG_PREFER_FAST_TRACE
                        ||| D3D12_RAYTRACING_ACCELERATION_STRUCTURE_BUILD_FLAG_ALLOW_UPDATE } :=
    (Option.some.inj hTop).symm
  have hlog' : s'.log = s.buildBottomLevels.log ++
      [Effect.CreateTopLevel s.buildBottomLevels.nextId
        (D3D12_RAYTRACING_ACCELERATION_STRUCTURE_BUILD_FLAG_PREFER_FAST_TRACE
          ||| D3D12_RAYTRACING_ACCELERATION_STRUCTURE_BUILD_FLAG_ALLOW_UPDATE)] ++
      [Effect.BuildTopLevel s.buildBottomLevels.nextId instanceDescs false] := by
    rw [hs', htop]
  have htop' : s'.m_topLevelAccelerationStructure = some top := by
    rw [hs']
    exact hTop
  obtain ⟨new, hlog, -, -, hshape, -⟩ :=
    foldl_buildBottomLevel_spec (s.m_scene.Models.flatMap fun model => model.Meshes) s
  rw [← buildBottomLevels_eq] at hlog
  have h1 : refitsFollowBuilds (s.log ++ new) := by
    apply refitsFollowBuilds_append _ _ hs
    intro e he id instanceDescs' hcontra
    rcases hshape e he with ⟨_, _, rfl⟩ | ⟨_, rfl⟩ <;> cases hcontra
  have h2 := refitsFollowBuilds_snoc _ (Effect.CreateTopLevel s.buildBottomLevels.nextId
      (D3D12_RAYTRACING_ACCELERATION_STRUCTURE_BUILD_FLAG_PREFER_FAST_TRACE
        ||| D3D12_RAYTRACING_ACCELERATION_STRUCTURE_BUILD_FLAG_ALLOW_UPDATE)) h1
    (fun _ _ hcontra => by cases hcontra)
  have h3 := refitsFollowBuilds_snoc _
    (Effect.BuildTopLevel s.buildBottomLevels.nextId instanceDescs false) h2
    (fun _ _ hcontra => by cases hcontra)
  refine ⟨?_, ?_⟩
  · rw [hlog', hlog]
    exact h3
  · intro top' htop''
    rw [htop'] at htop''
    have : top' = top := (Option.some.inj htop'').symm
    subst this
    rw [hlog', htop]
    exact ⟨⟨instanceDescs, by simp⟩,
      D3D12_RAYTRACING_ACCELERATION_STRUCTURE_BUILD_FLAG_PREFER_FAST_TRACE
        ||| D3D12_RAYTRACING_ACCELERATION_STRUCTURE_BUILD_FLAG_ALLOW_UPDATE, by simp, by decide⟩

/-- A returning `DispatchRays` has appended one top-level build with `updateOnly = true`
on the current object and the dispatch. -/
theorem DispatchRays_some (s s' : Impl) (h : s.DispatchRays = some s') :
    ∃ topLevelAccelerationStructure instanceDescs,
      s.m_topLevelAccelerationStructure = some topLevelAccelerationStructure ∧
      s' = { s with log := s.log ++
        [Effect.BuildTopLevel topLevelAccelerationStructure.id instanceDescs true,
          Effect.Dispatch] } := by
  unfold Impl.DispatchRays at h
  cases hc : s.CreateTopLevelAccelerationStructure true with
  | none => simp [hc] at h
  | some s1 =>
    obtain ⟨top, instanceDescs, hTop, rfl⟩ := CreateTopLevelAccelerationStructure_some _ _ _ hc
    simp only [hc, Option.some.injEq] at h
    refine ⟨top, instanceDescs, hTop, ?_⟩
    rw [← h]
    simp

theorem DispatchRays_topLevelBuilt (s s' : Impl) (hs : s.topLevelBuilt)
    (h : s.DispatchRays = some s') : s'.topLevelBuilt := by
  obtain ⟨top, instanceDescs, hTop, rfl⟩ := DispatchRays_some s s' h
  obtain ⟨hlog, hcur⟩ := hs
  have h1 := refitsFollowBuilds_snoc _ (Effect.BuildTopLevel top.id instanceDescs true) hlog
    (fun id instanceDescs' he => by
      cases he
      exact hcur top hTop)
  have h2 := refitsFollowBuilds_snoc _ Effect.Dispatch h1 (fun _ _ hcontra => by cases hcontra)
  refine ⟨by simpa using h2, ?_⟩
  intro top' htop'
  obtain ⟨⟨d, hd⟩, flags, hf, hflag⟩ := hcur top' htop'
  exact ⟨⟨d, List.mem_append_left _ hd⟩, flags, List.mem_append_left _ hf, hflag⟩

theorem step_topLevelBuilt (load : List Model → List Model) (s s' : Impl) (event : Event)
    (hs : s.topLevelBuilt) (h : s.step load event = some s') : s'.topLevelBuilt := by
  cases event with
  | Tick updates =>
    simp only [Impl.step, Impl.Tick, Impl.Render] at h
    split at h
    · simp only [Option.some.injEq] at h
      subst h
      exact hs
    · exact DispatchRays_topLevelBuilt
        { s with frameCount := (s.frameCount + updates) % 4294967296 } s' hs h
  | DeviceLostAndRestored =>
    simp only [Impl.step, Impl.OnDeviceRestored, Impl.CreateDeviceDependentResources] at h
    exact CreateAccelerationStructures_topLevelBuilt (s.OnDeviceLost.LoadScene load) s' hs.1 h

theorem run_topLevelBuilt (load : List Model → List Model) (events : List Event) (s s' : Impl)
    (hs : s.topLevelBuilt) (h : Impl.run load events s = some s') : s'.topLevelBuilt := by
  induction events generalizing s with
  | nil =>
    simp only [Impl.run, Option.some.injEq] at h
    subst h
    exact hs
  | cons event rest ih =>
    simp only [Impl.run] at h
    cases hstep : s.step load event with
    | none => simp [hstep] at h
    | some s1 =>
      simp only [hstep] at h
      exact ih s1 (step_topLevelBuilt load s s1 event hs hstep) h

theorem new_topLevelBuilt (load : List Model → List Model) (scene : MyScene) (s : Impl)
    (h : Impl.new load scene = some s) : s.topLevelBuilt :=
  CreateAccelerationStructures_topLevelBuilt _ _ refitsFollowBuilds_nil h

/-- On a scene whose render items point into the model dictionary,
`CreateAccelerationStructures` returns a state that is ready for the frames. -/
theorem CreateAccelerationStructures_ready (s : Impl)
    (h : ∀ renderItem ∈ s.m_scene.RenderItems, renderItem.pModel < s.m_scene.Models.length) :
    ∃ s', s.CreateAccelerationStructures = some s' ∧ s'.ready ∧ s'.m_scene = s.m_scene := by
  obtain ⟨new, -, -, -, -, -, hsome, hscene, -, -⟩ :=
    foldl_buildBottomLevel_spec (s.m_scene.Models.flatMap fun model => model.Meshes) s
  rw [← buildBottomLevels_eq] at hsome hscene
  have hValid : ∀ renderItem ∈ s.m_scene.RenderItems,
      renderItem.isValid s.m_scene.Models
        s.buildBottomLevels.m_bottomLevelAccelerationStructures = true := by
    intro renderItem hr
    have hlt := h renderItem hr
    unfold RenderItem.isValid
    rw [List.getElem?_eq_getElem hlt]
    simp only [List.all_eq_true]
    intro mesh hmesh
    rw [hsome]
    refine Or.inr (List.mem_map.mpr ⟨mesh, ?_, rfl⟩)
    exact List.mem_flatMap.mpr ⟨_, List.getElem_mem hlt, hmesh⟩
  have hc := CreateTopLevelAccelerationStructure_eq false
    { s.buildBottomLevels with
      m_topLevelAccelerationStructure := some
        { id := s.buildBottomLevels.nextId
          flags := D3D12_RAYTRACING_ACCELERATION_STRUCTURE_BUILD_FLAG_PREFER_FAST_TRACE
            ||| D3D12_RAYTRACING_ACCELERATION_STRUCTURE_BUILD_FLAG_ALLOW_UPDATE }
      nextId := s.buildBottomLevels.nextId + 1
      log := s.buildBottomLevels.log ++
        [Effect.CreateTopLevel s.buildBottomLevels.nextId
          (D3D12_RAYTRACING_ACCELERATION_STRUCTURE_BUILD_FLAG_PREFER_FAST_TRACE
            ||| D3D12_RAYTRACING_ACCELERATION_STRUCTURE_BUILD_FLAG_ALLOW_UPDATE)] }
    _ (by simpa only [hscene] using hValid) rfl
  refine ⟨_, hc, ⟨?_, rfl⟩, hscene⟩
  simpa only [hscene] using hValid

theorem isValid_lt (Models : List Model) (cache : Nat → Option BottomLevelAccelerationStructure)
    (renderItem : RenderItem) (h : renderItem.isValid Models cache = true) :
    renderItem.pModel < Models.length := by
  unfold RenderItem.isValid at h
  by_contra hlt
  rw [List.getElem?_eq_none (by omega)] at h
  cases h

theorem step_ready (load : List Model → List Model)
    (hLoad : ∀ models, (load models).length = models.length) (s : Impl) (event : Event)
    (hs : s.ready) :
    ∃ s', s.step load event = some s' ∧ s'.ready := by
  cases event with
  | Tick updates =>
    simp only [Impl.step, Impl.Tick, Impl.Render]
    split
    · exact ⟨_, rfl, hs⟩
    · obtain ⟨top, hTop⟩ := Option.isSome_iff_exists.mp hs.2
      exact ⟨_, DispatchRays_eq _ top hs.1 hTop, hs⟩
  | DeviceLostAndRestored =>
    simp only [Impl.step, Impl.OnDeviceRestored, Impl.CreateDeviceDependentResources]
    obtain ⟨s', h1, h2, -⟩ := CreateAccelerationStructures_ready (s.OnDeviceLost.LoadScene load)
      (by
        intro renderItem hr
        have hlt := isValid_lt _ _ renderItem (hs.1 renderItem hr)
        simpa [Impl.LoadScene, Impl.OnDeviceLost, hLoad] using hlt)
    exact ⟨s', h1, h2⟩

theorem run_ready (load : List Model → List Model)
    (hLoad : ∀ models, (load models).length = models.length) (events : List Event) (s : Impl)
    (hs : s.ready) :
    ∃ s', Impl.run load events s = some s' ∧ s'.ready := by
  induction events generalizing s with
  | nil => exact ⟨s, rfl, hs⟩
  | cons event rest ih =>
    obtain ⟨s1, h1, hr1⟩ := step_ready load hLoad s event hs
    obtain ⟨s2, h2, hr2⟩ := ih s1 hr1
    exact ⟨s2, by simp only [Impl.run, h1, h2], hr2⟩

/-! ## Theorems on the top-level acceleration structure -/

/-- C16: on a scene whose render items point to models with cached meshes,
`CreateTopLevelAccelerationStructure` returns and hands to the top-level build one
descriptor per (render item, mesh) pair, in render-item order then mesh order; their
number is the sum of the mesh counts of all render items, whatever their visibility;
the `k`-th descriptor carries `InstanceID = k mod 2^24`, which is `k` for every `k`
below the 2^24 values of the 24-bit field. -/
theorem C16_one_descriptor_per_render_item_mesh_pair (updateOnly : Bool) (s : Impl)
    (topLevelAccelerationStructure : TopLevelAccelerationStructure)
    (hValid : ∀ renderItem ∈ s.m_scene.RenderItems,
      renderItem.isValid s.m_scene.Models s.m_bottomLevelAccelerationStructures = true)
    (hTop : s.m_topLevelAccelerationStructure = some topLevelAccelerationStructure) :
    ∃ instanceDescs,
      s.CreateTopLevelAccelerationStructure updateOnly = some { s with
        log := s.log ++
          [Effect.BuildTopLevel topLevelAccelerationStructure.id instanceDescs updateOnly] } ∧
      instanceDescs.length
        = (s.m_scene.RenderItems.map fun renderItem =>
            renderItem.meshCount s.m_scene.Models).sum ∧
      instanceDescs.length = (instancePairs s.m_scene.Models s.m_scene.RenderItems).length ∧
      (∀ (k : Nat) (renderItem : RenderItem) (model : Model) (mesh : ModelMesh),
        (instancePairs s.m_scene.Models s.m_scene.RenderItems)[k]? = some (renderItem, model, mesh) →
        ∃ bottomLevelAccelerationStructure,
          s.m_bottomLevelAccelerationStructures mesh.id = some bottomLevelAccelerationStructure ∧
          instanceDescs[k]? = some (makeInstanceDesc (k % 4294967296) renderItem model mesh
            bottomLevelAccelerationStructure)) ∧
      (∀ (k : Nat) (instanceDesc : D3D12_RAYTRACING_INSTANCE_DESC),
        instanceDescs[k]? = some instanceDesc →
        instanceDesc.InstanceID = k % 16777216) ∧
      (∀ (k : Nat) (instanceDesc : D3D12_RAYTRACING_INSTANCE_DESC),
        instanceDescs[k]? = some instanceDesc → k < 16777216 →
        instanceDesc.InstanceID = k) := by
  have hpairs : ∀ (k : Nat) (renderItem : RenderItem) (model : Model) (mesh : ModelMesh),
      (instancePairs s.m_scene.Models s.m_scene.RenderItems)[k]? = some (renderItem, model, mesh) →
      ∃ bottomLevelAccelerationStructure,
        s.m_bottomLevelAccelerationStructures mesh.id = some bottomLevelAccelerationStructure ∧
        (pairDescs s.m_bottomLevelAccelerationStructures
          (instancePairs s.m_scene.Models s.m_scene.RenderItems) 0)[k]?
          = some (makeInstanceDesc (k % 4294967296) renderItem model mesh
            bottomLevelAccelerationStructure) := by
    intro k renderItem model mesh hk
    obtain ⟨blas, hb⟩ := instancePairs_cached s.m_scene.Models
      s.m_bottomLevelAccelerationStructures s.m_scene.RenderItems hValid (renderItem, model, mesh)
      (List.getElem?_mem hk)
    refine ⟨blas, hb, ?_⟩
    rw [getElem?_pairDescs, hk]
    simp [hb]
  have hid : ∀ k instanceDesc,
      (pairDescs s.m_bottomLevelAccelerationStructures
        (instancePairs s.m_scene.Models s.m_scene.RenderItems) 0)[k]? = some instanceDesc →
      instanceDesc.InstanceID = k % 16777216 := by
    intro k instanceDesc hk
    rw [getElem?_pairDescs] at hk
    obtain ⟨p, -, rfl⟩ := Option.map_eq_some'.mp hk
    simp only [makeInstanceDesc, Nat.zero_add]
    omega
  refine ⟨_, CreateTopLevelAccelerationStructure_eq updateOnly s topLevelAccelerationStructure
    hValid hTop, ?_, length_pairDescs _ _ _, hpairs, hid, ?_⟩
  · rw [length_pairDescs, length_instancePairs]
  · intro k instanceDesc hk hlt
    rw [hid k instanceDesc hk]
    omega

/-- Evaluation of C16 on the application constructed over `sampleScene`: the per-frame
build receives six descriptors (2 + 2 + 2 meshes) numbered 0 to 5. -/
theorem C16_one_descriptor_per_render_item_mesh_pair_witness :
    ∃ instanceDescs,
      sampleImpl.CreateTopLevelAccelerationStructure true = some { sampleImpl with
        log := sampleImpl.log ++ [Effect.BuildTopLevel 3 instanceDescs true] } ∧
      instanceDescs.length = 6 ∧
      ∀ (k : Nat) (instanceDesc : D3D12_RAYTRACING_INSTANCE_DESC),
        instanceDescs[k]? = some instanceDesc → instanceDesc.InstanceID = k := by
  obtain ⟨instanceDescs, h1, h2, -, -, -, h6⟩ :=
    C16_one_descriptor_per_render_item_mesh_pair true sampleImpl { id := 3, flags := 5 }
      (by decide) rfl
  refine ⟨instanceDescs, h1, h2, fun k instanceDesc hk => h6 k instanceDesc hk ?_⟩
  have hlt : k < instanceDescs.length := (List.getElem?_eq_some_iff.mp hk).1
  rw [h2] at hlt
  exact Nat.lt_trans hlt (by decide)

/-- C17 (as stated, refuted): in the application constructed over `sampleScene` the second
render item is visible and its model was loaded left-handed; the descriptor of its
first mesh (position 2) has the flags force-opaque alone, without front
counter-clockwise. -/
theorem C17_visible_flags_counterexample :
    ∃ s' instanceDescs instanceDesc,
      sampleImpl.CreateTopLevelAccelerationStructure true = some s' ∧
      (s'.log.getLast?).bind Effect.instanceDescs = some instanceDescs ∧
      ((instancePairs sampleImpl.m_scene.Models sampleImpl.m_scene.RenderItems)[2]?).map
        (fun p => (p.1.IsVisible, p.2.1.RightHanded)) = some (true, false) ∧
      instanceDescs[2]? = some instanceDesc ∧
      instanceDesc.Flags = D3D12_RAYTRACING_INSTANCE_FLAG_FORCE_OPAQUE ∧
      instanceDesc.Flags ≠ D3D12_RAYTRACING_INSTANCE_FLAG_FORCE_OPAQUE
        ||| D3D12_RAYTRACING_INSTANCE_FLAG_TRIANGLE_FRONT_COUNTERCLOCKWISE :=
  ⟨_, _, _, rfl, rfl, rfl, rfl, rfl, by decide⟩

/-- C17 (amended): on a valid scene every descriptor handed to the top-level build has
the instance mask 0xFF and the flags force-opaque when its render item is visible,
with front counter-clockwise added exactly when the model was loaded right-handed,
and the flags force-non-opaque alone when the render item is invisible. -/
theorem C17_flags_by_visibility_and_handedness (updateOnly : Bool) (s : Impl)
    (topLevelAccelerationStructure : TopLevelAccelerationStructure)
    (hValid : ∀ renderItem ∈ s.m_scene.RenderItems,
      renderItem.isValid s.m_scene.Models s.m_bottomLevelAccelerationStructures = true)
    (hTop : s.m_topLevelAccelerationStructure = some topLevelAccelerationStructure) :
    ∃ instanceDescs,
      s.CreateTopLevelAccelerationStructure updateOnly = some { s with
        log := s.log ++
          [Effect.BuildTopLevel topLevelAccelerationStructure.id instanceDescs updateOnly] } ∧
      ∀ (k : Nat) (renderItem : RenderItem) (model : Model) (mesh : ModelMesh)
          (instanceDesc : D3D12_RAYTRACING_INSTANCE_DESC),
        (instancePairs s.m_scene.Models s.m_scene.RenderItems)[k]? = some (renderItem, model, mesh) →
        instanceDescs[k]? = some instanceDesc →
        instanceDesc.InstanceMask = 255 ∧
        (renderItem.IsVisible = true → model.RightHanded = true →
          instanceDesc.Flags = D3D12_RAYTRACING_INSTANCE_FLAG_FORCE_OPAQUE
            ||| D3D12_RAYTRACING_INSTANCE_FLAG_TRIANGLE_FRONT_COUNTERCLOCKWISE) ∧
        (renderItem.IsVisible = true → model.RightHanded = false →
          instanceDesc.Flags = D3D12_RAYTRACING_INSTANCE_FLAG_FORCE_OPAQUE) ∧
        (renderItem.IsVisible = false →
          instanceDesc.Flags = D3D12_RAYTRACING_INSTANCE_FLAG_FORCE_NON_OPAQUE) := by
  refine ⟨_, CreateTopLevelAccelerationStructure_eq updateOnly s topLevelAccelerationStructure
    hValid hTop, ?_⟩
  intro k renderItem model mesh instanceDesc hk hd
  rw [getElem?_pairDescs, hk] at hd
  simp only [Option.map_some', Option.some.injEq] at hd
  subst hd
  refine ⟨rfl, ?_, ?_, ?_⟩
  · intro hv hr
    simp [makeInstanceDesc, hv, hr]
  · intro hv hr
    simp [makeInstanceDesc, hv, hr]
  · intro hv
    simp [makeInstanceDesc, hv]

/-- Evaluation of the amended C17 on the application constructed over `sampleScene`: the
descriptor at position 2 (visible render item, left-handed model) has the flags 4 and
the mask 255. -/
theorem C17_flags_by_visibility_and_handedness_witness :
    ∃ instanceDescs instanceDesc,
      sampleImpl.CreateTopLevelAccelerationStructure true = some { sampleImpl with
        log := sampleImpl.log ++ [Effect.BuildTopLevel 3 instanceDescs true] } ∧
      instanceDescs[2]? = some instanceDesc ∧
      instanceDesc.InstanceMask = 255 ∧ instanceDesc.Flags = 4 := by
  obtain ⟨instanceDescs, h1, h2⟩ :=
    C17_flags_by_visibility_and_handedness true sampleImpl { id := 3, flags := 5 }
      (by decide) rfl
  have h3 := CreateTopLevelAccelerationStructure_eq true sampleImpl { id := 3, flags := 5 }
    (by decide) rfl
  rw [h1] at h3
  have h4 : instanceDescs = pairDescs sampleImpl.m_bottomLevelAccelerationStructures
      (instancePairs sampleImpl.m_scene.Models sampleImpl.m_scene.RenderItems) 0 := by
    have h5 := congrArg (fun o => (o.map Impl.log).bind List.getLast?) h3
    simpa using h5
  refine ⟨instanceDescs, _, h1, by rw [h4]; rfl, ?_⟩
  have h6 := h2 2 _ _ _ _ rfl (by rw [h4]; rfl)
  exact ⟨h6.1, h6.2.2.1 rfl rfl⟩

/-- C18: when a visible render item of a valid scene is made invisible between two
frames and nothing else changes, `DispatchRays` issues the top-level build with
`updateOnly = true` in both frames, on the same object; the two descriptor lists
have the same length; descriptors at the same position agree in every field other
than `Flags`; outside the positions of that render item they are equal, and at its
positions the flags go from force-opaque (with front counter-clockwise for a
right-handed model) to force-non-opaque. -/
theorem C18_visibility_toggle_refits_and_changes_flags_only (s : Impl)
    (pre post : List RenderItem) (renderItem : RenderItem)
    (topLevelAccelerationStructure : TopLevelAccelerationStructure)
    (hItems : s.m_scene.RenderItems = pre ++ renderItem :: post)
    (hVisible : renderItem.IsVisible = true)
    (hValid : ∀ renderItem ∈ s.m_scene.RenderItems,
      renderItem.isValid s.m_scene.Models s.m_bottomLevelAccelerationStructures = true)
    (hTop : s.m_topLevelAccelerationStructure = some topLevelAccelerationStructure) :
    ∃ s1 s2 instanceDescs instanceDescs',
      s.DispatchRays = some s1 ∧
      s1.log = s.log ++
        [Effect.BuildTopLevel topLevelAccelerationStructure.id instanceDescs true,
          Effect.Dispatch] ∧
      Impl.DispatchRays { s1 with
        m_scene := { s1.m_scene with
          RenderItems := pre ++ { renderItem with IsVisible := false } :: post } } = some s2 ∧
      s2.log = s1.log ++
        [Effect.BuildTopLevel topLevelAccelerationStructure.id instanceDescs' true,
          Effect.Dispatch] ∧
      instanceDescs'.length = instanceDescs.length ∧
      ∀ (k : Nat) (instanceDesc instanceDesc' : D3D12_RAYTRACING_INSTANCE_DESC),
        instanceDescs[k]? = some instanceDesc → instanceDescs'[k]? = some instanceDesc' →
        instanceDesc' = { instanceDesc with Flags := instanceDesc'.Flags } ∧
        (k < (instancePairs s.m_scene.Models pre).length ∨
            (instancePairs s.m_scene.Models pre).length + renderItem.meshCount s.m_scene.Models ≤ k →
          instanceDesc' = instanceDesc) ∧
        ((instancePairs s.m_scene.Models pre).length ≤ k →
            k < (instancePairs s.m_scene.Models pre).length
              + renderItem.meshCount s.m_scene.Models →
          (instanceDesc.Flags = D3D12_RAYTRACING_INSTANCE_FLAG_FORCE_OPAQUE ∨
            instanceDesc.Flags = D3D12_RAYTRACING_INSTANCE_FLAG_FORCE_OPAQUE
              ||| D3D12_RAYTRACING_INSTANCE_FLAG_TRIANGLE_FRONT_COUNTERCLOCKWISE) ∧
          instanceDesc'.Flags = D3D12_RAYTRACING_INSTANCE_FLAG_FORCE_NON_OPAQUE) := by
  obtain ⟨hT, hP, hlen, hfst⟩ := instancePairs_toggle s.m_scene.Models pre post renderItem
  have hValid' : ∀ r ∈ pre ++ { renderItem with IsVisible := false } :: post,
      r.isValid s.m_scene.Models s.m_bottomLevelAccelerationStructures = true := by
    intro r hr
    simp only [List.mem_append, List.mem_cons] at hr
    rcases hr with hr | rfl | hr
    · exact hValid r (by rw [hItems]; simp [hr])
    · exact hValid renderItem (by rw [hItems]; simp)
    · exact hValid r (by rw [hItems]; simp [hr])
  refine ⟨_, _, _, _, DispatchRays_eq s topLevelAccelerationStructure hValid hTop, rfl,
    DispatchRays_eq _ topLevelAccelerationStructure hValid' hTop, rfl, ?_, ?_⟩
  · simp only [length_pairDescs, hItems, hT, hP, List.length_append, List.length_map]
  · intro k instanceDesc instanceDesc' hd hd'
    simp only [getElem?_pairDescs, hItems, hP] at hd
    simp only [getElem?_pairDescs, hT, getElem?_append_map_append] at hd'
    obtain ⟨p, hp, rfl⟩ := Option.map_eq_some'.mp hd
    rw [hp] at hd'
    simp only [Option.map_some', Option.some.injEq, hlen] at hd'
    subst hd'
    by_cases hin : (instancePairs s.m_scene.Models pre).length ≤ k ∧
        k < (instancePairs s.m_scene.Models pre).length + renderItem.meshCount s.m_scene.Models
    · have hp1 : p.1 = renderItem :=
        hfst p (mem_of_getElem?_append_middle _ _ _ k p hp hin.1 (by rw [hlen]; exact hin.2))
      obtain ⟨r, model, mesh⟩ := p
      simp only at hp1
      subst hp1
      simp only [hin, and_self, if_true]
      refine ⟨rfl, fun h => by omega, fun _ _ => ?_⟩
      cases hr : model.RightHanded <;> simp [makeInstanceDesc, hVisible, hr]
    · simp only [hin, if_false]
      exact ⟨by trivial, fun _ => by trivial, fun h1 h2 => absurd ⟨h1, h2⟩ hin⟩

/-- Evaluation of C18 on the application constructed over `sampleScene`, the first
render item being made invisible between the two frames: both frames refit the
top-level object 3 and hand it descriptor lists of the same length. -/
theorem C18_visibility_toggle_refits_and_changes_flags_only_witness :
    ∃ s1 s2 instanceDescs instanceDescs',
      sampleImpl.DispatchRays = some s1 ∧
      s1.log = sampleImpl.log ++
        [Effect.BuildTopLevel 3 instanceDescs true, Effect.Dispatch] ∧
      Impl.DispatchRays { s1 with
        m_scene := { s1.m_scene with
          RenderItems :=
            [{ pModel := 0, Transform := XMMATRIX.value 100, IsVisible := false },
             { pModel := 1, Transform := XMMATRIX.value 101, IsVisible := true },
             { pModel := 0, Transform := XMMATRIX.value 102, IsVisible := false }] } }
        = some s2 ∧
      s2.log = s1.log ++ [Effect.BuildTopLevel 3 instanceDescs' true, Effect.Dispatch] ∧
      instanceDescs'.length = instanceDescs.length := by
  obtain ⟨s1, s2, instanceDescs, instanceDescs', h1, h2, h3, h4, h5, -⟩ :=
    C18_visibility_toggle_refits_and_changes_flags_only sampleImpl []
      [{ pModel := 1, Transform := XMMATRIX.value 101, IsVisible := true },
       { pModel := 0, Transform := XMMATRIX.value 102, IsVisible := false }]
      { pModel := 0, Transform := XMMATRIX.value 100, IsVisible := true }
      { id := 3, flags := 5 } rfl rfl (by decide) rfl
  exact ⟨s1, s2, instanceDescs, instanceDescs', h1, h2, h3, h4, h5⟩

/-! ## Theorems on the bottom-level acceleration structures and the runs -/

/-- C19: the loop of `CreateAccelerationStructures` creates and builds one fresh
bottom-level structure for each mesh of a list of pairwise distinct meshes, which
are exactly the meshes of the scene that had no cache entry (with an empty cache:
as many as there are distinct mesh identities); every structure is created with
prefer-fast-trace, built with `updateOnly = false` and entered in the cache under
its mesh; entries that existed are kept; running the loop again changes nothing,
and a second call of `CreateAccelerationStructures` issues no bottom-level build. -/
theorem C19_one_bottom_level_build_per_distinct_mesh (s : Impl) :
    (∃ pairs, s.buildBottomLevels.log = s.log ++ bottomLevelCalls pairs ∧
      (pairs.map Prod.fst).Nodup ∧ (pairs.map Prod.snd).Nodup ∧
      (∀ id, id ∈ pairs.map Prod.snd ↔
        id ∈ s.m_scene.meshIds ∧ s.m_bottomLevelAccelerationStructures id = none) ∧
      ((∀ id, s.m_bottomLevelAccelerationStructures id = none) →
        pairs.length = s.m_scene.meshIds.dedup.length) ∧
      (∀ p ∈ pairs, s.buildBottomLevels.m_bottomLevelAccelerationStructures p.2
        = some { id := p.1
                 flags :=
                   D3D12_RAYTRACING_ACCELERATION_STRUCTURE_BUILD_FLAG_PREFER_FAST_TRACE })) ∧
    (∀ id b, s.m_bottomLevelAccelerationStructures id = some b →
      s.buildBottomLevels.m_bottomLevelAccelerationStructures id = some b) ∧
    (∀ id ∈ s.m_scene.meshIds,
      (s.buildBottomLevels.m_bottomLevelAccelerationStructures id).isSome = true) ∧
    s.buildBottomLevels.buildBottomLevels = s.buildBottomLevels ∧
    (∀ s1 s2, s.CreateAccelerationStructures = some s1 →
      s1.CreateAccelerationStructures = some s2 →
      ∃ new, s2.log = s1.log ++ new ∧ new.filterMap Effect.builtMesh = []) := by
  obtain ⟨new, h1, h2, h3, -, h5, h6, h7, -, -⟩ :=
    foldl_buildBottomLevel_spec (s.m_scene.Models.flatMap fun model => model.Meshes) s
  obtain ⟨pairs, g1, g2, -, g4⟩ :=
    foldl_buildBottomLevel_calls (s.m_scene.Models.flatMap fun model => model.Meshes) s
  have hnew : new = bottomLevelCalls pairs := List.append_cancel_left (h1.symm.trans g1)
  subst hnew
  rw [filterMap_builtMesh_bottomLevelCalls] at h2 h3
  rw [← buildBottomLevels_eq] at g1 g4 h5 h6 h7
  have hcached : ∀ t : Impl, t.m_scene = s.m_scene →
      t.m_bottomLevelAccelerationStructures
        = s.buildBottomLevels.m_bottomLevelAccelerationStructures →
      t.buildBottomLevels = t := by
    intro t ht1 ht2
    rw [buildBottomLevels_eq]
    apply foldl_buildBottomLevel_of_cached
    intro mesh hmesh
    rw [ht2, h6]
    rw [ht1] at hmesh
    exact Or.inr (List.mem_map.mpr ⟨mesh, hmesh, rfl⟩)
  refine ⟨⟨pairs, g1, g2, h2, h3, ?_, g4⟩, h5, ?_, hcached _ h7 rfl, ?_⟩
  · intro hempty
    rw [← List.length_map pairs Prod.snd]
    apply List.Perm.length_eq
    rw [List.perm_ext_iff_of_nodup h2 (List.nodup_dedup _)]
    intro id
    rw [h3 id, List.mem_dedup]
    exact ⟨fun h => h.1, fun h => ⟨h, hempty id⟩⟩
  · intro id hid
    rw [h6]
    exact Or.inr hid
  · intro s1 s2 hs1 hs2
    obtain ⟨top1, descs1, -, hs1'⟩ := CreateTopLevelAccelerationStructure_some _ _ _ hs1
    have hscene1 : s1.m_scene = s.m_scene := by rw [hs1']; exact h7
    have hcache1 : s1.m_bottomLevelAccelerationStructures
        = s.buildBottomLevels.m_bottomLevelAccelerationStructures := by rw [hs1']
    have hfix := hcached s1 hscene1 hcache1
    obtain ⟨top2, descs2, -, hs2'⟩ := CreateTopLevelAccelerationStructure_some _ _ _ hs2
    refine ⟨[Effect.CreateTopLevel s1.nextId
        (D3D12_RAYTRACING_ACCELERATION_STRUCTURE_BUILD_FLAG_PREFER_FAST_TRACE
          ||| D3D12_RAYTRACING_ACCELERATION_STRUCTURE_BUILD_FLAG_ALLOW_UPDATE),
      Effect.BuildTopLevel top2.id descs2 false], ?_, rfl⟩
    rw [hs2']
    simp only [hfix, List.append_assoc, List.singleton_append]

/-- Evaluation of C19 on `sampleScene` after loading, from an empty cache: the loop
builds the meshes 10, 11 and 12 once each, although mesh 11 belongs to both models. -/
theorem C19_one_bottom_level_build_per_distinct_mesh_witness :
    ((emptyImpl sampleScene).LoadScene sampleLoad).m_scene.meshIds = [10, 11, 11, 12] ∧
    ((emptyImpl sampleScene).LoadScene sampleLoad).buildBottomLevels.log
      = bottomLevelCalls [(0, 10), (1, 11), (2, 12)] ∧
    ((emptyImpl sampleScene).LoadScene sampleLoad).buildBottomLevels.buildBottomLevels.log
      = ((emptyImpl sampleScene).LoadScene sampleLoad).buildBottomLevels.log :=
  ⟨rfl, rfl,
    congrArg Impl.log
      (C19_one_bottom_level_build_per_distinct_mesh
        ((emptyImpl sampleScene).LoadScene sampleLoad)).2.2.2.1⟩

/-- C20: in the log of every run that starts with the construction and goes through any
events (ticks and device-lost/device-restored pairs), every top-level build with
`updateOnly = true` comes after a build with `updateOnly = false` of the same
top-level object and after the creation of that object with the allow-update flag;
such runs return whenever the loader keeps the size of the model dictionary and the
render items point into it; and every returning `DispatchRays` issues exactly one
top-level build, with `updateOnly = true`, on the current object. -/
theorem C20_refits_follow_full_builds (load : List Model → List Model) (scene : MyScene)
    (events : List Event) :
    (∀ s0 s, Impl.new load scene = some s0 → Impl.run load events s0 = some s →
      refitsFollowBuilds s.log) ∧
    ((∀ models, (load models).length = models.length) →
      (∀ renderItem ∈ scene.RenderItems, renderItem.pModel < scene.Models.length) →
      ∃ s0 s, Impl.new load scene = some s0 ∧ Impl.run load events s0 = some s) ∧
    (∀ s s' : Impl, s.DispatchRays = some s' →
      ∃ topLevelAccelerationStructure instanceDescs,
        s.m_topLevelAccelerationStructure = some topLevelAccelerationStructure ∧
        s'.log = s.log ++
          [Effect.BuildTopLevel topLevelAccelerationStructure.id instanceDescs true,
            Effect.Dispatch]) := by
  refine ⟨?_, ?_, ?_⟩
  · intro s0 s h0 h
    exact (run_topLevelBuilt load events s0 s (new_topLevelBuilt load scene s0 h0) h).1
  · intro hLoad hItems
    obtain ⟨s0, h0, hr0, -⟩ := CreateAccelerationStructures_ready
      ((emptyImpl scene).LoadScene load)
      (by
        intro renderItem hr
        have := hItems renderItem hr
        simpa [Impl.LoadScene, emptyImpl, hLoad] using this)
    obtain ⟨s, h, -⟩ := run_ready load hLoad events s0 hr0
    exact ⟨s0, s, h0, h⟩
  · intro s s' h
    obtain ⟨top, instanceDescs, hTop, rfl⟩ := DispatchRays_some s s' h
    exact ⟨top, instanceDescs, hTop, rfl⟩

/-- Evaluation of C20 on `sampleScene`: the run made of a tick without update, a tick
with one update, a device loss with restoration and another tick returns, and its
log satisfies the invariant. -/
theorem C20_refits_follow_full_builds_witness :
    ∃ s0 s, Impl.new sampleLoad sampleScene = some s0 ∧
      Impl.run sampleLoad
        [Event.Tick 0, Event.Tick 1, Event.DeviceLostAndRestored, Event.Tick 1] s0 = some s ∧
      refitsFollowBuilds s.log ∧
      s.log.filterMap (fun e => match e with
        | Effect.BuildTopLevel id _ updateOnly => some (id, updateOnly)
        | Effect.CreateTopLevel id _ => some (id, false)
        | _ => none)
        = [(3, false), (3, false), (3, true), (7, false), (7, false), (7, true)] :=
  ⟨_, _, rfl, rfl,
    (C20_refits_follow_full_builds sampleLoad sampleScene
      [Event.Tick 0, Event.Tick 1, Event.DeviceLostAndRestored, Event.Tick 1]).1 _ _ rfl rfl,
    rfl⟩

/-! ## Auxiliary lemmas on performed builds and on the accumulation -/

theorem objectsAfter_append (objects : Nat → Option TopLevelBuildState) (a b : List Effect) :
    objectsAfter objects (a ++ b) = objectsAfter (objectsAfter objects a) b := by
  induction a generalizing objects with
  | nil => rfl
  | cons e rest ih =>
    cases e <;> simp only [List.cons_append, List.append_eq, objectsAfter, ih]

theorem performedBuilds_append (objects : Nat → Option TopLevelBuildState) (a b : List Effect) :
    performedBuilds objects (a ++ b)
      = performedBuilds objects a ++ performedBuilds (objectsAfter objects a) b := by
  induction a generalizing objects with
  | nil => rfl
  | cons e rest ih =>
    cases e <;>
      simp only [List.cons_append, List.append_eq, performedBuilds, objectsAfter, ih,
        List.append_assoc]

theorem RenderMenu_Camera_spec (menu : MenuInput) (w : AppFrame) :
    (w.RenderMenu_Camera menu).AccumulatedFrameIndex
        = (if menu.restartsCamera w.DepthOfField_IsEnabled = true then 0
          else w.AccumulatedFrameIndex) ∧
      (w.RenderMenu_Camera menu).app = w.app ∧
      (w.RenderMenu_Camera menu).rendered = w.rendered ∧
      (w.RenderMenu_Camera menu).m_isViewChanged = w.m_isViewChanged ∧
      (w.RenderMenu_Camera menu).m_isMenuOpen = w.m_isMenuOpen := by
  obtain ⟨closed, b1, b2, b3, b4, b5, b6, b7, b8, b9, b10, b11⟩ := menu
  obtain ⟨app, v, m, dof, idx, disp⟩ := w
  cases b4 <;> cases b5 <;> cases b6 <;> cases b7 <;> cases b8 <;> cases dof <;>
    exact ⟨rfl, rfl, rfl, rfl, rfl⟩

theorem RenderMenu_Raytracing_spec (menu : MenuInput) (w : AppFrame) :
    (w.RenderMenu_Raytracing menu).AccumulatedFrameIndex
        = (if menu.restartsRaytracing = true then 0 else w.AccumulatedFrameIndex) ∧
      (w.RenderMenu_Raytracing menu).app = w.app ∧
      (w.RenderMenu_Raytracing menu).rendered = w.rendered ∧
      (w.RenderMenu_Raytracing menu).m_isViewChanged = w.m_isViewChanged ∧
      (w.RenderMenu_Raytracing menu).m_isMenuOpen = w.m_isMenuOpen := by
  obtain ⟨closed, b1, b2, b3, b4, b5, b6, b7, b8, b9, b10, b11⟩ := menu
  obtain ⟨app, v, m, dof, idx, disp⟩ := w
  cases b10 <;> cases b11 <;> exact ⟨rfl, rfl, rfl, rfl, rfl⟩

/-- After `RenderMenu` the accumulation index is 0 when a restarting widget changed and
is untouched otherwise; the application, the rendered frames and the view flag are
left as they are. -/
theorem RenderMenu_spec (menu : MenuInput) (w : AppFrame) :
    (w.RenderMenu menu).AccumulatedFrameIndex
        = (if menu.restartsAccumulation w.DepthOfField_IsEnabled = true then 0
          else w.AccumulatedFrameIndex) ∧
      (w.RenderMenu menu).app = w.app ∧ (w.RenderMenu menu).rendered = w.rendered ∧
      (w.RenderMenu menu).m_isViewChanged = w.m_isViewChanged := by
  have hclosed : ∀ c : Bool,
      (if c = true then { w with m_isMenuOpen := false } else w).AccumulatedFrameIndex
          = w.AccumulatedFrameIndex ∧
        (if c = true then { w with m_isMenuOpen := false } else w).app = w.app ∧
        (if c = true then { w with m_isMenuOpen := false } else w).rendered = w.rendered ∧
        (if c = true then { w with m_isMenuOpen := false } else w).m_isViewChanged
          = w.m_isViewChanged ∧
        (if c = true then { w with m_isMenuOpen := false } else w).DepthOfField_IsEnabled
          = w.DepthOfField_IsEnabled := by
    intro c; cases c <;> exact ⟨rfl, rfl, rfl, rfl, rfl⟩
  obtain ⟨h1, h2, h3, h4, h5⟩ := hclosed menu.closed
  generalize hw0 : (if menu.closed = true then { w with m_isMenuOpen := false } else w) = w0
    at h1 h2 h3 h4 h5
  have hC := RenderMenu_Camera_spec menu w0
  have hR := RenderMenu_Raytracing_spec menu w0
  have hRC := RenderMenu_Raytracing_spec menu (w0.RenderMenu_Camera menu)
  unfold AppFrame.RenderMenu MenuInput.restartsAccumulation
  simp only [hw0]
  cases menu.CollapsingHeader_Settings <;> cases menu.TreeNode_Graphics <;>
    cases menu.TreeNodeEx_Camera <;> cases menu.TreeNodeEx_Raytracing <;>
    cases hc : menu.restartsCamera w.DepthOfField_IsEnabled <;>
    cases hr : menu.restartsRaytracing <;>
    simp_all
/-- The statement `if (m_isMenuOpen) RenderMenu();` of `Render`. -/
theorem menu_step_spec (menu : MenuInput) (w : AppFrame) :
    (if w.m_isMenuOpen = true then w.RenderMenu menu else w).app = w.app ∧
      (if w.m_isMenuOpen = true then w.RenderMenu menu else w).m_isViewChanged
        = w.m_isViewChanged ∧
      (if w.m_isMenuOpen = true then w.RenderMenu menu else w).rendered = w.rendered ∧
      (if w.m_isMenuOpen = true then w.RenderMenu menu else w).AccumulatedFrameIndex
        = (if w.m_isMenuOpen = true ∧ menu.restartsAccumulation w.DepthOfField_IsEnabled = true
          then 0 else w.AccumulatedFrameIndex) := by
  by_cases h : w.m_isMenuOpen = true
  · have e : (if w.m_isMenuOpen = true then w.RenderMenu menu else w) = w.RenderMenu menu :=
      if_pos h
    rw [e]
    obtain ⟨h1, h2, h3, h4⟩ := RenderMenu_spec menu w
    refine ⟨h2, h4, h3, ?_⟩
    rw [h1]
    by_cases hr : menu.restartsAccumulation w.DepthOfField_IsEnabled = true
    · rw [if_pos hr, if_pos ⟨h, hr⟩]
    · rw [if_neg hr, if_neg fun hc => hr hc.2]
  · have e : (if w.m_isMenuOpen = true then w.RenderMenu menu else w) = w := if_neg h
    rw [e]
    refine ⟨rfl, rfl, rfl, ?_⟩
    rw [if_neg fun hc => h hc.1]

/-- What a returning `Render` with a non-zero frame count does. -/
theorem Render_some (menu : MenuInput) (w w' : AppFrame) (hFrames : w.app.frameCount ≠ 0)
    (h : w.Render menu = some w') :
    ∃ app, w.app.DispatchRays = some app ∧ w'.app = app ∧
      w'.m_isViewChanged = w.m_isViewChanged ∧
      w'.AccumulatedFrameIndex
        = (if w.m_isMenuOpen = true ∧ menu.restartsAccumulation w.DepthOfField_IsEnabled = true
          then 0 else w.AccumulatedFrameIndex) ∧
      w'.rendered = w.rendered ++ [w'.AccumulatedFrameIndex] := by
  unfold AppFrame.Render at h
  rw [if_neg hFrames] at h
  cases hd : w.app.DispatchRays with
  | none => simp [hd] at h
  | some app =>
    simp only [hd, Option.some.injEq] at h
    subst h
    obtain ⟨h1, h2, h3, h4⟩ := menu_step_spec menu { w with app := app }
    refine ⟨app, rfl, h1, h2, h4, ?_⟩
    show _ ++ _ = _
    rw [h3]
    rfl

/-- One call of `Update` leaves 0 in `AccumulatedFrameIndex` when the view flag is set
after its input is processed and counts the index up otherwise. -/
theorem Update_spec (w : AppFrame) (input : UpdateInput) :
    (w.Update input).AccumulatedFrameIndex
        = (if (w.Update input).m_isViewChanged = true then 0
          else (w.AccumulatedFrameIndex + 1) % 4294967296) ∧
      (w.Update input).m_isViewChanged = (w.ProcessInput input).m_isViewChanged ∧
      (w.Update input).rendered = w.rendered ∧ (w.Update input).app = w.app := by
  obtain ⟨a1, a2, a3, a4, a5, a6⟩ := w
  obtain ⟨i1, i2, i3⟩ := input
  cases i1 <;> cases i2 <;> cases i3 <;> cases a3 <;> cases a2 <;> exact ⟨rfl, rfl, rfl, rfl⟩

theorem foldl_Update_frame (updates : List UpdateInput) (w : AppFrame) :
    (updates.foldl AppFrame.Update w).rendered = w.rendered ∧
      (updates.foldl AppFrame.Update w).app = w.app := by
  induction updates generalizing w with
  | nil => exact ⟨rfl, rfl⟩
  | cons input rest ih =>
    obtain ⟨h1, h2⟩ := ih (w.Update input)
    obtain ⟨-, -, h3, h4⟩ := Update_spec w input
    exact ⟨h1.trans h3, h2.trans h4⟩

/-- The updates of a tick leave the rendered frames alone, and after at least one update
with the view flag set `AccumulatedFrameIndex` is 0. -/
theorem stepTimerTick_spec (updates : List UpdateInput) (w : AppFrame) :
    (w.stepTimerTick updates).rendered = w.rendered ∧
      (updates ≠ [] → (w.stepTimerTick updates).m_isViewChanged = true →
        (w.stepTimerTick updates).AccumulatedFrameIndex = 0) := by
  unfold AppFrame.stepTimerTick
  refine ⟨(foldl_Update_frame updates _).1, ?_⟩
  intro hne hview
  rcases List.eq_nil_or_concat updates with h | ⟨init, last, h⟩
  · exact absurd h hne
  · subst h
    simp only [List.concat_eq_append, List.foldl_append, List.foldl_cons, List.foldl_nil]
      at hview ⊢
    rw [(Update_spec _ last).1, if_pos hview]

/-- The inner loop of `CreateTopLevelAccelerationStructure` completes when every mesh has
an entry in the cache, whatever the counter. -/
theorem meshLoop_isSome (cache : Nat → Option BottomLevelAccelerationStructure)
    (renderItem : RenderItem) (model : Model) (meshes : List ModelMesh) (i : Nat)
    (h : ∀ mesh ∈ meshes, (cache mesh.id).isSome = true) :
    (meshLoop cache renderItem model meshes i).isSome = true := by
  induction meshes generalizing i with
  | nil => rfl
  | cons mesh rest ih =>
    have hm := h mesh (List.mem_cons_self _ _)
    have hr := ih ((i + 1) % 4294967296) fun m hm' => h m (List.mem_cons_of_mem _ hm')
    unfold meshLoop
    cases hc : cache mesh.id with
    | none => simp [hc] at hm
    | some b =>
      cases hl : meshLoop cache renderItem model rest ((i + 1) % 4294967296) with
      | none => simp [hl] at hr
      | some p => rfl

/-- After the loop over the models every mesh of every model has an entry in the cache. -/
theorem buildBottomLevels_cached (s : Impl) (model : Model) (hModel : model ∈ s.m_scene.Models)
    (mesh : ModelMesh) (hMesh : mesh ∈ model.Meshes) :
    (s.buildBottomLevels.m_bottomLevelAccelerationStructures mesh.id).isSome = true := by
  rw [buildBottomLevels_eq]
  obtain ⟨_, -, -, -, -, -, hcache, -⟩ :=
    foldl_buildBottomLevel_spec (s.m_scene.Models.flatMap fun model => model.Meshes) s
  refine (hcache mesh.id).2 (Or.inr ?_)
  refine List.mem_map.2 ⟨mesh, ?_, rfl⟩
  exact List.mem_flatMap.2 ⟨model, hModel, hMesh⟩

/-- The cache after `CreateAccelerationStructures` is the one left by the loop over the
models. -/
theorem CreateAccelerationStructures_cache (s s' : Impl)
    (h : s.CreateAccelerationStructures = some s') :
    s'.m_bottomLevelAccelerationStructures
      = s.buildBottomLevels.m_bottomLevelAccelerationStructures := by
  unfold Impl.CreateAccelerationStructures at h
  obtain ⟨_, _, -, hs'⟩ := CreateTopLevelAccelerationStructure_some false _ s' h
  rw [hs']

/-- C21: a valid frame hands its descriptors to the top-level build with
`updateOnly = true`; when their number differs from the number established by the last
full build of the object, that build is not performed as an update but as a full
rebuild, which establishes the new number; when the number is the established one
and the object allows updates, it is performed as an update. -/
theorem C21_descriptor_count_change_forces_full_rebuild (s : Impl)
    (topLevelAccelerationStructure : TopLevelAccelerationStructure)
    (established : TopLevelBuildState)
    (hValid : ∀ renderItem ∈ s.m_scene.RenderItems,
      renderItem.isValid s.m_scene.Models s.m_bottomLevelAccelerationStructures = true)
    (hTop : s.m_topLevelAccelerationStructure = some topLevelAccelerationStructure)
    (hEstablished :
      objectsAfter (fun _ => none) s.log topLevelAccelerationStructure.id = some established) :
    ∃ instanceDescs,
      s.DispatchRays = some { s with
        log := s.log ++ [Effect.BuildTopLevel topLevelAccelerationStructure.id instanceDescs true,
          Effect.Dispatch] } ∧
      instanceDescs.length = (instancePairs s.m_scene.Models s.m_scene.RenderItems).length ∧
      (established.descCount ≠ some instanceDescs.length →
        established.performsUpdate instanceDescs.length true = false ∧
        performedBuilds (fun _ => none)
            (s.log ++ [Effect.BuildTopLevel topLevelAccelerationStructure.id instanceDescs true,
              Effect.Dispatch])
          = performedBuilds (fun _ => none) s.log ++
            [{ id := topLevelAccelerationStructure.id, instanceDescCount := instanceDescs.length,
               updateOnly := true, update := false }] ∧
        objectsAfter (fun _ => none)
            (s.log ++ [Effect.BuildTopLevel topLevelAccelerationStructure.id instanceDescs true,
              Effect.Dispatch]) topLevelAccelerationStructure.id
          = some { established with descCount := some instanceDescs.length }) ∧
      (established.descCount = some instanceDescs.length →
        established.flags &&& D3D12_RAYTRACING_ACCELERATION_STRUCTURE_BUILD_FLAG_ALLOW_UPDATE ≠ 0 →
        performedBuilds (fun _ => none)
            (s.log ++ [Effect.BuildTopLevel topLevelAccelerationStructure.id instanceDescs true,
              Effect.Dispatch])
          = performedBuilds (fun _ => none) s.log ++
            [{ id := topLevelAccelerationStructure.id, instanceDescCount := instanceDescs.length,
               updateOnly := true, update := true }] ∧
        objectsAfter (fun _ => none)
            (s.log ++ [Effect.BuildTopLevel topLevelAccelerationStructure.id instanceDescs true,
              Effect.Dispatch]) topLevelAccelerationStructure.id
          = some established) := by
  refine ⟨_, DispatchRays_eq s topLevelAccelerationStructure hValid hTop,
    length_pairDescs _ _ _, ?_, ?_⟩
  · intro hne
    have hp : established.performsUpdate
        (pairDescs s.m_bottomLevelAccelerationStructures
          (instancePairs s.m_scene.Models s.m_scene.RenderItems) 0).length true = false := by
      unfold TopLevelBuildState.performsUpdate
      simp [hne]
    refine ⟨hp, ?_, ?_⟩
    · rw [performedBuilds_append]
      simp only [performedBuilds, hEstablished, hp, List.append_nil]
    · rw [objectsAfter_append]
      simp only [objectsAfter, hEstablished, Option.map_some', TopLevelBuildState.Build, hp,
        Function.update_same]
      rfl
  · intro heq hflags
    have hp : established.performsUpdate
        (pairDescs s.m_bottomLevelAccelerationStructures
          (instancePairs s.m_scene.Models s.m_scene.RenderItems) 0).length true = true := by
      unfold TopLevelBuildState.performsUpdate
      simp [heq, hflags]
    refine ⟨?_, ?_⟩
    · rw [performedBuilds_append]
      simp only [performedBuilds, hEstablished, hp, List.append_nil]
    · rw [objectsAfter_append]
      simp only [objectsAfter, hEstablished, Option.map_some', TopLevelBuildState.Build, hp,
        Function.update_same]
      rfl

/-- Evaluation of C21 on `shrunkImpl`: the full build of the construction established
six descriptors, the frame generates four, and the build of the frame, asked for as
an update, is performed as a full rebuild that establishes four. -/
theorem C21_descriptor_count_change_forces_full_rebuild_witness :
    ∃ instanceDescs,
      shrunkImpl.DispatchRays = some { shrunkImpl with
        log := shrunkImpl.log ++ [Effect.BuildTopLevel 3 instanceDescs true, Effect.Dispatch] } ∧
      instanceDescs.length = 4 ∧
      objectsAfter (fun _ => none) shrunkImpl.log 3 = some { flags := 5, descCount := some 6 } ∧
      performedBuilds (fun _ => none)
          (shrunkImpl.log ++ [Effect.BuildTopLevel 3 instanceDescs true, Effect.Dispatch])
        = performedBuilds (fun _ => none) shrunkImpl.log ++
          [{ id := 3, instanceDescCount := 4, updateOnly := true, update := false }] ∧
      objectsAfter (fun _ => none)
          (shrunkImpl.log ++ [Effect.BuildTopLevel 3 instanceDescs true, Effect.Dispatch]) 3
        = some { flags := 5, descCount := some 4 } := by
  obtain ⟨instanceDescs, h1, h2, h3, -⟩ :=
    C21_descriptor_count_change_forces_full_rebuild shrunkImpl { id := 3, flags := 5 }
      { flags := 5, descCount := some 6 } (by decide) rfl rfl
  have h4 : instanceDescs.length = 4 := h2
  rw [h4] at h3
  exact ⟨instanceDescs, h1, h4, rfl, (h3 (by decide)).2⟩

/-- C26: on a valid scene the transform of every descriptor handed to the top-level
build is the transform of its mesh multiplied by the transform of its render item,
multiplied further by the scaling (1, 1, -1) when the model was loaded right-handed
and left as that product when it was not. -/
theorem C26_descriptor_transform (updateOnly : Bool) (s : Impl)
    (topLevelAccelerationStructure : TopLevelAccelerationStructure)
    (hValid : ∀ renderItem ∈ s.m_scene.RenderItems,
      renderItem.isValid s.m_scene.Models s.m_bottomLevelAccelerationStructures = true)
    (hTop : s.m_topLevelAccelerationStructure = some topLevelAccelerationStructure) :
    ∃ instanceDescs,
      s.CreateTopLevelAccelerationStructure updateOnly = some { s with
        log := s.log ++
          [Effect.BuildTopLevel topLevelAccelerationStructure.id instanceDescs updateOnly] } ∧
      instanceDescs.length = (instancePairs s.m_scene.Models s.m_scene.RenderItems).length ∧
      ∀ (k : Nat) (renderItem : RenderItem) (model : Model) (mesh : ModelMesh)
          (instanceDesc : D3D12_RAYTRACING_INSTANCE_DESC),
        (instancePairs s.m_scene.Models s.m_scene.RenderItems)[k]? = some (renderItem, model, mesh) →
        instanceDescs[k]? = some instanceDesc →
        (model.RightHanded = true →
          instanceDesc.Transform
            = XMMATRIX.mul (XMMATRIX.mul mesh.Transform renderItem.Transform)
                (XMMATRIX.XMMatrixScaling 1 1 (-1))) ∧
        (model.RightHanded = false →
          instanceDesc.Transform = XMMATRIX.mul mesh.Transform renderItem.Transform) := by
  refine ⟨_, CreateTopLevelAccelerationStructure_eq updateOnly s topLevelAccelerationStructure
    hValid hTop, length_pairDescs _ _ _, ?_⟩
  intro k renderItem model mesh instanceDesc hk hd
  rw [getElem?_pairDescs, hk] at hd
  simp only [Option.map_some', Option.some.injEq] at hd
  subst hd
  refine ⟨?_, ?_⟩
  · intro hr
    simp [makeInstanceDesc, hr]
  · intro hr
    simp [makeInstanceDesc, hr]

/-- Evaluation of C26 on the application constructed over `sampleScene`: the descriptor
at position 0 (mesh 10 of the right-handed model) carries the scaled product, the
descriptor at position 2 (mesh 11 of the left-handed model) the plain product. -/
theorem C26_descriptor_transform_witness :
    ∃ instanceDescs first third,
      sampleImpl.CreateTopLevelAccelerationStructure true = some { sampleImpl with
        log := sampleImpl.log ++ [Effect.BuildTopLevel 3 instanceDescs true] } ∧
      instanceDescs[0]? = some first ∧ instanceDescs[2]? = some third ∧
      first.Transform
        = XMMATRIX.mul (XMMATRIX.mul (XMMATRIX.value 0) (XMMATRIX.value 100))
            (XMMATRIX.XMMatrixScaling 1 1 (-1)) ∧
      third.Transform = XMMATRIX.mul (XMMATRIX.value 1) (XMMATRIX.value 101) := by
  obtain ⟨instanceDescs, h1, -, h2⟩ :=
    C26_descriptor_transform true sampleImpl { id := 3, flags := 5 } (by decide) rfl
  have h3 := CreateTopLevelAccelerationStructure_eq true sampleImpl { id := 3, flags := 5 }
    (by decide) rfl
  rw [h1] at h3
  have h4 : instanceDescs = pairDescs sampleImpl.m_bottomLevelAccelerationStructures
      (instancePairs sampleImpl.m_scene.Models sampleImpl.m_scene.RenderItems) 0 := by
    have h5 := congrArg (fun o => (o.map Impl.log).bind List.getLast?) h3
    simpa using h5
  refine ⟨instanceDescs, _, _, h1, by rw [h4]; rfl, by rw [h4]; rfl, ?_, ?_⟩
  · exact (h2 0 _ _ _ _ rfl (by rw [h4]; rfl)).1 rfl
  · exact (h2 2 _ _ _ _ rfl (by rw [h4]; rfl)).2 rfl

/-- C27: after the loop of `CreateAccelerationStructures` over the models, every mesh of
every model of the collection has an entry in the cache, so the lookup of the
top-level loop succeeds for every render item whose model belongs to the collection
and every mesh of that model; when all render items are such, the method returns,
keeps that cache, and the per-frame build that follows returns too. -/
theorem C27_bottom_level_lookup_never_fails (s : Impl) :
    (∀ model ∈ s.m_scene.Models, ∀ mesh ∈ model.Meshes,
      ∃ bottomLevelAccelerationStructure,
        s.buildBottomLevels.m_bottomLevelAccelerationStructures mesh.id
          = some bottomLevelAccelerationStructure) ∧
    (∀ (renderItem : RenderItem) (model : Model) (i : Nat),
      s.m_scene.Models[renderItem.pModel]? = some model →
      (meshLoop s.buildBottomLevels.m_bottomLevelAccelerationStructures renderItem model
        model.Meshes i).isSome = true) ∧
    ((∀ renderItem ∈ s.m_scene.RenderItems, renderItem.pModel < s.m_scene.Models.length) →
      ∃ s', s.CreateAccelerationStructures = some s' ∧ s'.m_scene = s.m_scene ∧
        s'.m_bottomLevelAccelerationStructures
          = s.buildBottomLevels.m_bottomLevelAccelerationStructures ∧
        (∀ renderItem ∈ s'.m_scene.RenderItems, ∀ model,
          s'.m_scene.Models[renderItem.pModel]? = some model → ∀ mesh ∈ model.Meshes,
          ∃ bottomLevelAccelerationStructure,
            s'.m_bottomLevelAccelerationStructures mesh.id
              = some bottomLevelAccelerationStructure) ∧
        ∃ s'', s'.DispatchRays = some s'') := by
  have hcached : ∀ model ∈ s.m_scene.Models, ∀ mesh ∈ model.Meshes,
      ∃ bottomLevelAccelerationStructure,
        s.buildBottomLevels.m_bottomLevelAccelerationStructures mesh.id
          = some bottomLevelAccelerationStructure := by
    intro model hModel mesh hMesh
    exact Option.isSome_iff_exists.1 (buildBottomLevels_cached s model hModel mesh hMesh)
  refine ⟨hcached, ?_, ?_⟩
  · intro renderItem model i hModel
    refine meshLoop_isSome _ _ _ _ _ ?_
    intro mesh hMesh
    exact buildBottomLevels_cached s model (List.getElem?_mem hModel) mesh hMesh
  · intro h
    obtain ⟨s', hs', hready, hscene⟩ := CreateAccelerationStructures_ready s h
    have hcache := CreateAccelerationStructures_cache s s' hs'
    refine ⟨s', hs', hscene, hcache, ?_, ?_⟩
    · intro renderItem _ model hModel mesh hMesh
      rw [hscene] at hModel
      rw [hcache]
      exact hcached model (List.getElem?_mem hModel) mesh hMesh
    · obtain ⟨topLevelAccelerationStructure, hTop⟩ := Option.isSome_iff_exists.1 hready.2
      exact ⟨_, DispatchRays_eq s' topLevelAccelerationStructure hready.1 hTop⟩

/-- Evaluation of C27 on `sampleScene` after loading: the meshes 10, 11 and 12 get the
structures 0, 1 and 2, and `CreateAccelerationStructures` and the frame after it
return. -/
theorem C27_bottom_level_lookup_never_fails_witness :
    (∀ renderItem ∈ ((emptyImpl sampleScene).LoadScene sampleLoad).m_scene.RenderItems,
      renderItem.pModel < ((emptyImpl sampleScene).LoadScene sampleLoad).m_scene.Models.length) ∧
    (((emptyImpl sampleScene).LoadScene sampleLoad).buildBottomLevels
      |>.m_bottomLevelAccelerationStructures 12) = some { id := 2, flags := 4 } ∧
    ∃ s' s'', ((emptyImpl sampleScene).LoadScene sampleLoad).CreateAccelerationStructures
        = some s' ∧ s'.DispatchRays = some s'' := by
  have h := C27_bottom_level_lookup_never_fails ((emptyImpl sampleScene).LoadScene sampleLoad)
  obtain ⟨s', hs', -, -, -, s'', hs''⟩ := h.2.2 (by decide)
  exact ⟨by decide, rfl, s', s'', hs', hs''⟩

/-- C29: the commands of a frame execute at `Present`, after the menu of the frame has
been rendered. When a widget of the menu that assigns 0 to `AccumulatedFrameIndex`
(vertical field of view, depth of field, maximal trace recursion depth, samples
per pixel) reports a change, the dispatch of that frame, the first to execute after
the change, is rendered with `AccumulatedFrameIndex = 0`; so is a frame in whose
updates the view flag was set by a camera move. In both cases the tick ends with
the index at 0. -/
theorem C29_menu_restart_renders_with_index_zero (w w1 : AppFrame)
    (updates : List UpdateInput) (menu : MenuInput)
    (hFrames : (w.stepTimerTick updates).app.frameCount ≠ 0)
    (h1 : w.Tick updates menu = some w1) :
    ((w.stepTimerTick updates).m_isMenuOpen = true →
      menu.restartsAccumulation (w.stepTimerTick updates).DepthOfField_IsEnabled = true →
      w1.rendered = w.rendered ++ [0] ∧ w1.AccumulatedFrameIndex = 0) ∧
    (updates ≠ [] → (w.stepTimerTick updates).m_isViewChanged = true →
      w1.rendered = w.rendered ++ [0] ∧ w1.AccumulatedFrameIndex = 0) ∧
    w1.rendered = w.rendered ++ [w1.AccumulatedFrameIndex] ∧ w1.m_isViewChanged = false := by
  unfold AppFrame.Tick at h1
  cases hr : (w.stepTimerTick updates).Render menu with
  | none => simp [hr] at h1
  | some w' =>
    simp only [hr, Option.some.injEq] at h1
    obtain ⟨_, -, -, -, hidx, hrend⟩ := Render_some menu _ w' hFrames hr
    obtain ⟨hpre, hcam⟩ := stepTimerTick_spec updates w
    rw [hpre] at hrend
    subst h1
    have hrend' : w'.rendered = w.rendered ++ [w'.AccumulatedFrameIndex] := hrend
    refine ⟨?_, ?_, hrend', rfl⟩
    · intro hMenu hRestart
      have h0 : w'.AccumulatedFrameIndex = 0 := by rw [hidx, if_pos ⟨hMenu, hRestart⟩]
      refine ⟨?_, h0⟩
      show w'.rendered = _
      rw [hrend', h0]
    · intro hne hview
      have h0 : w'.AccumulatedFrameIndex = 0 := by
        rw [hidx, hcam hne hview]
        split <;> rfl
      refine ⟨?_, h0⟩
      show w'.rendered = _
      rw [hrend', h0]

/-- Evaluation of C29 on `accumulatingFrame`, which has rendered the indices 0 to 7: the
slider "Samples Per Pixel" is moved in the menu of the next frame, which is rendered
with 0 and followed by a frame rendered with 1; likewise a frame in which the menu
is left and the camera moves is rendered with 0. -/
theorem C29_menu_restart_renders_with_index_zero_witness :
    ∃ w1 w2 w3,
      accumulatingFrame.Tick [idleUpdate] samplesPerPixelMenu = some w1 ∧
      w1.Tick [idleUpdate] idleMenu = some w2 ∧
      accumulatingFrame.Tick [{ movingUpdate with escapePressed := true }] idleMenu = some w3 ∧
      w1.AccumulatedFrameIndex = 0 ∧
      w1.rendered = [0, 1, 2, 3, 4, 5, 6, 7, 0] ∧
      w2.rendered = [0, 1, 2, 3, 4, 5, 6, 7, 0, 1] ∧
      w3.rendered = [0, 1, 2, 3, 4, 5, 6, 7, 0] := by
  have h1 : accumulatingFrame.Tick [idleUpdate] samplesPerPixelMenu
      = some (match accumulatingFrame.Tick [idleUpdate] samplesPerPixelMenu with
        | some w => w
        | none => accumulatingFrame) := rfl
  have h3 : accumulatingFrame.Tick [{ movingUpdate with escapePressed := true }] idleMenu
      = some (match accumulatingFrame.Tick [{ movingUpdate with escapePressed := true }]
          idleMenu with
        | some w => w
        | none => accumulatingFrame) := rfl
  have hA := C29_menu_restart_renders_with_index_zero accumulatingFrame _ [idleUpdate]
    samplesPerPixelMenu (by decide) h1
  have hB := (C29_menu_restart_renders_with_index_zero accumulatingFrame _
    [{ movingUpdate with escapePressed := true }] idleMenu (by decide) h3).2.1
    (by decide) rfl
  exact ⟨_, _, _, h1, rfl, h3, (hA.1 rfl rfl).2, (hA.1 rfl rfl).1, rfl, hB.1⟩

end PhysicallyBasedRaytracer

namespace ImGuiEx

/-! ## Theorems on the search of the input queue -/

/-- The loop from `n` returns an index below `n` that passes the test and is followed,
below `n`, only by events that fail it, or `none` when every event below `n` fails. -/
theorem FindLatestInputEvent_loop_spec (queue : List ImGuiInputEvent)
    (type : ImGuiInputEventType) (arg : Int) (n : Nat) (hn : n ≤ queue.length) :
    (∀ i, FindLatestInputEvent.loop queue type arg n = some i ↔
      i < n ∧ (∃ e, queue[i]? = some e ∧ e.isLatestCandidate type arg = true) ∧
        ∀ (j : Nat) (e : ImGuiInputEvent), i < j → j < n → queue[j]? = some e →
          e.isLatestCandidate type arg = false) ∧
    (FindLatestInputEvent.loop queue type arg n = none ↔
      ∀ (j : Nat) (e : ImGuiInputEvent), j < n → queue[j]? = some e →
        e.isLatestCandidate type arg = false) := by
  induction n with
  | zero =>
    refine ⟨fun i => ⟨fun h => ?_, fun h => ?_⟩, ⟨fun _ j e hj => ?_, fun _ => rfl⟩⟩
    · simp [FindLatestInputEvent.loop] at h
    · exact absurd h.1 (Nat.not_lt_zero _)
    · exact absurd hj (Nat.not_lt_zero _)
  | succ n ih =>
    obtain ⟨ihs, ihn⟩ := ih (Nat.le_of_succ_le hn)
    have hlt : n < queue.length := hn
    have hget : queue[n]? = some queue[n] := List.getElem?_eq_getElem hlt
    unfold FindLatestInputEvent.loop
    rw [hget]
    simp only
    cases hc : (queue[n]).isLatestCandidate type arg with
    | true =>
      simp only [if_true]
      refine ⟨fun i => ⟨fun h => ?_, fun h => ?_⟩, ⟨fun h => ?_, fun h => ?_⟩⟩
      · have hi : n = i := Option.some.inj h
        subst hi
        refine ⟨Nat.lt_succ_self _, ⟨_, hget, hc⟩, ?_⟩
        intro j e h1 h2
        omega
      · obtain ⟨hi, ⟨e, he, hm⟩, hall⟩ := h
        rcases Nat.lt_or_ge i n with hlt' | hge
        · have := hall n _ hlt' (Nat.lt_succ_self _) hget
          rw [hc] at this
          exact absurd this (by decide)
        · have : i = n := by omega
          rw [this]
      · exact absurd h (by simp)
      · have := h n _ (Nat.lt_succ_self _) hget
        rw [hc] at this
        exact absurd this (by decide)
    | false =>
      simp only [Bool.false_eq_true, if_false]
      refine ⟨fun i => ?_, ?_⟩
      · rw [ihs i]
        constructor
        · rintro ⟨hi, hm, hall⟩
          refine ⟨Nat.lt_succ_of_lt hi, hm, ?_⟩
          intro j e h1 h2 he
          rcases Nat.lt_or_ge j n with hj | hj
          · exact hall j e h1 hj he
          · have hjn : j = n := by omega
            subst hjn
            rw [hget] at he
            cases he
            exact hc
        · rintro ⟨hi, ⟨e, he, hm⟩, hall⟩
          have hin : i < n := by
            rcases Nat.lt_or_ge i n with h | h
            · exact h
            · have hin' : i = n := by omega
              subst hin'
              rw [hget] at he
              cases he
              rw [hc] at hm
              exact absurd hm (by decide)
          exact ⟨hin, ⟨e, he, hm⟩, fun j e' h1 h2 he' => hall j e' h1 (Nat.lt_succ_of_lt h2) he'⟩
      · rw [ihn]
        constructor
        · intro hall j e hj he
          rcases Nat.lt_or_ge j n with h | h
          · exact hall j e h he
          · have hjn : j = n := by omega
            subst hjn
            rw [hget] at he
            cases he
            exact hc
        · intro hall j e hj he
          exact hall j e (Nat.lt_succ_of_lt hj) he

/-- The test of the loop in the words of the claim: the type is the one asked for and,
for key and mouse-button events, the key or button equals the argument. -/
theorem isLatestCandidate_iff (e : ImGuiInputEvent) (type : ImGuiInputEventType) (arg : Int) :
    e.isLatestCandidate type arg = true ↔
      e.Type_ = type ∧
      (type = ImGuiInputEventType.ImGuiInputEventType_Key → e.Key_Key = arg) ∧
      (type = ImGuiInputEventType.ImGuiInputEventType_MouseButton →
        e.MouseButton_Button = arg) := by
  unfold ImGuiInputEvent.isLatestCandidate
  simp only [Bool.and_eq_true, Bool.or_eq_true, decide_eq_true_eq, ne_eq]
  constructor
  · rintro ⟨⟨h1, h2⟩, h3⟩
    refine ⟨h1, fun h => ?_, fun h => ?_⟩
    · rcases h2 with h2 | h2
      · exact absurd h h2
      · exact h2
    · rcases h3 with h3 | h3
      · exact absurd h h3
      · exact h3
  · rintro ⟨h1, h2, h3⟩
    refine ⟨⟨h1, ?_⟩, ?_⟩
    · by_cases h : type = ImGuiInputEventType.ImGuiInputEventType_Key
      · exact Or.inr (h2 h)
      · exact Or.inl h
    · by_cases h : type = ImGuiInputEventType.ImGuiInputEventType_MouseButton
      · exact Or.inr (h3 h)
      · exact Or.inl h

/-- C30: `FindLatestInputEvent` returns the event of index `i` exactly when that event
has the requested type (and, for key and mouse-button events, its key or button
equals the argument) and no event of greater index has; it returns null exactly
when no event of the queue is such; on an empty queue it returns null without
entering the loop. -/
theorem C30_FindLatestInputEvent_greatest_matching_index (queue : List ImGuiInputEvent)
    (type : ImGuiInputEventType) (arg : Int) :
    (∀ i, FindLatestInputEvent queue type arg = some i ↔
      ∃ e, queue[i]? = some e ∧
        (e.Type_ = type ∧
          (type = ImGuiInputEventType.ImGuiInputEventType_Key → e.Key_Key = arg) ∧
          (type = ImGuiInputEventType.ImGuiInputEventType_MouseButton →
            e.MouseButton_Button = arg)) ∧
        ∀ (j : Nat) (e' : ImGuiInputEvent), i < j → queue[j]? = some e' →
          ¬ (e'.Type_ = type ∧
            (type = ImGuiInputEventType.ImGuiInputEventType_Key → e'.Key_Key = arg) ∧
            (type = ImGuiInputEventType.ImGuiInputEventType_MouseButton →
              e'.MouseButton_Button = arg))) ∧
    (FindLatestInputEvent queue type arg = none ↔
      ∀ e ∈ queue, ¬ (e.Type_ = type ∧
        (type = ImGuiInputEventType.ImGuiInputEventType_Key → e.Key_Key = arg) ∧
        (type = ImGuiInputEventType.ImGuiInputEventType_MouseButton →
          e.MouseButton_Button = arg))) ∧
    FindLatestInputEvent [] type arg = none := by
  obtain ⟨hs, hn⟩ := FindLatestInputEvent_loop_spec queue type arg queue.length (Nat.le_refl _)
  refine ⟨fun i => ?_, ?_, rfl⟩
  · unfold FindLatestInputEvent
    rw [hs i]
    constructor
    · rintro ⟨-, ⟨e, he, hm⟩, hall⟩
      refine ⟨e, he, (isLatestCandidate_iff e type arg).1 hm, ?_⟩
      intro j e' hij he' hm'
      have hj : j < queue.length := (List.getElem?_eq_some_iff.1 he').1
      have := hall j e' hij hj he'
      rw [(isLatestCandidate_iff e' type arg).2 hm'] at this
      exact absurd this (by decide)
    · rintro ⟨e, he, hm, hall⟩
      refine ⟨(List.getElem?_eq_some_iff.1 he).1, ⟨e, he, (isLatestCandidate_iff e type arg).2 hm⟩,
        ?_⟩
      intro j e' hij _ he'
      cases hc : e'.isLatestCandidate type arg with
      | false => rfl
      | true => exact absurd ((isLatestCandidate_iff e' type arg).1 hc) (hall j e' hij he')
  · unfold FindLatestInputEvent
    rw [hn]
    constructor
    · intro hall e he hm
      obtain ⟨j, hj, hje⟩ := List.getElem_of_mem he
      have := hall j e hj (by rw [List.getElem?_eq_getElem hj, hje])
      rw [(isLatestCandidate_iff e type arg).2 hm] at this
      exact absurd this (by decide)
    · intro hall j e _ he
      cases hc : e.isLatestCandidate type arg with
      | false => rfl
      | true =>
        exact absurd ((isLatestCandidate_iff e type arg).1 hc) (hall e (List.getElem?_mem he))

/-- Evaluation of C30 on `sampleQueue`: the latest mouse move is the event of index 2,
the latest event of key 65 the one of index 1, and no event of key 66 is found. -/
theorem C30_FindLatestInputEvent_greatest_matching_index_witness :
    FindLatestInputEvent sampleQueue ImGuiInputEventType.ImGuiInputEventType_MousePos (-1)
        = some 2 ∧
      FindLatestInputEvent sampleQueue ImGuiInputEventType.ImGuiInputEventType_Key 65 = some 1 ∧
      FindLatestInputEvent sampleQueue ImGuiInputEventType.ImGuiInputEventType_Key 66 = none ∧
      ∀ e ∈ sampleQueue, ¬ (e.Type_ = ImGuiInputEventType.ImGuiInputEventType_Key ∧
        (ImGuiInputEventType.ImGuiInputEventType_Key = ImGuiInputEventType.ImGuiInputEventType_Key →
          e.Key_Key = 66) ∧
        (ImGuiInputEventType.ImGuiInputEventType_Key
            = ImGuiInputEventType.ImGuiInputEventType_MouseButton →
          e.MouseButton_Button = 66)) :=
  ⟨rfl, rfl, rfl,
    (C30_FindLatestInputEvent_greatest_matching_index sampleQueue
      ImGuiInputEventType.ImGuiInputEventType_Key 66).2.1.1 rfl⟩

end ImGuiEx
